import Mathlib

/-!
# Record replace subsystem (`as/src/base/record.c`)

A shallow embedding of the conflict resolver, the four record appliers and the
replace orchestrator of `record.c`, followed by theorems about them.

Machine integers are natural numbers reduced explicitly where the C code
truncates (`(uint16_t)rr->generation`); result codes are integers.  Calls into
collaborators that are not part of `record.c` are answered by an `Env` of
oracle values and are written to a call log (`World.trace`).
-/

namespace Record

/-! ## Constants -/

/-- Result code `AS_OK` (declared in `base/proto.h`). -/
def AS_OK : Int := 0

/-- Result code `AS_ERR_GENERATION` (declared in `base/proto.h`). -/
def AS_ERR_GENERATION : Int := 3

/-- Result code `AS_ERR_RECORD_EXISTS` (declared in `base/proto.h`). -/
def AS_ERR_RECORD_EXISTS : Int := 5

/-- Result code `AS_ERR_OUT_OF_SPACE` (declared in `base/proto.h`). -/
def AS_ERR_OUT_OF_SPACE : Int := 8

/-- Result code `AS_ERR_FORBIDDEN` (declared in `base/proto.h`). -/
def AS_ERR_FORBIDDEN : Int := 22

/-- The C cast `(uint16_t)x`. -/
def u16 (x : Nat) : Nat := x % 2 ^ 16

/-! ## Conflict resolution -/

/-- The `conflict_resolution_pol` enumeration; `INVALID` stands for every value
outside the three cases of the `switch` in `as_record_resolve_conflict`. -/
inductive conflict_resolution_pol
  | GENERATION
  | LAST_UPDATE_TIME
  | CP
  | INVALID
  deriving DecidableEq, Repr

/-- Source: `resolve_generation_direct` (record.c:68-72). -/
def resolve_generation_direct (left right : Nat) : Int :=
  if left = right then 0 else (if right > left then 1 else -1)

/-- Modelled from the spec: `as_gen_less_than` (base/datamodel.h) is missing.
The spec calls the comparison wrap-aware: the right generation is ahead of the
left one under modulo-2^16 distance.  `lhs` is less than `rhs` when the 16-bit
difference `lhs - rhs` lies in the upper half of the range, that is when `rhs`
is between 1 and 32768 steps ahead of `lhs`. -/
def as_gen_less_than (lhs rhs : Nat) : Bool :=
  decide (32768 ≤ (lhs + 2 ^ 16 - rhs % 2 ^ 16) % 2 ^ 16)

/-- Source: `resolve_generation` (record.c:74-78). -/
def resolve_generation (left right : Nat) : Int :=
  if left = right then 0 else (if as_gen_less_than left right then 1 else -1)

/-- Modelled from the spec: `resolve_last_update_time` (transaction/rw_utils.h)
is missing.  The spec: the remote (right) record wins iff its LUT is strictly
greater; the three-way result is 1 when right wins, -1 when left wins and 0 for
a tie. -/
def resolve_last_update_time (left right : Nat) : Int :=
  if right > left then 1 else (if right < left then -1 else 0)

/-- Source: `as_record_resolve_conflict` (record.c:419-451).  The consistency
mode comparison `record_resolve_conflict_cp` is external and is passed in as
`cp`; `none` is the `cf_crash` of the default case. -/
def as_record_resolve_conflict (cp : Nat → Nat → Nat → Nat → Int)
    (policy : conflict_resolution_pol) (left_gen left_lut right_gen right_lut : Nat) :
    Option Int :=
  match policy with
  | .GENERATION =>
    let result := resolve_generation_direct left_gen right_gen
    if result = 0 then
      some (resolve_last_update_time left_lut right_lut)
    else
      some result
  | .LAST_UPDATE_TIME =>
    let result := resolve_last_update_time left_lut right_lut
    if result = 0 then
      some (resolve_generation left_gen right_gen)
    else
      some result
  | .CP => some (cp left_gen left_lut right_gen right_lut)
  | .INVALID => none

example : as_record_resolve_conflict (fun _ _ _ _ => 0) .GENERATION 65535 0 0 9 = some (-1) := by
  decide
example : as_record_resolve_conflict (fun _ _ _ _ => 0) .LAST_UPDATE_TIME 65535 7 0 7 = some 1 := by
  decide
example : as_record_resolve_conflict (fun _ _ _ _ => 0) .LAST_UPDATE_TIME 0 7 32768 7 = some 1 := by
  decide
example : as_record_resolve_conflict (fun _ _ _ _ => 0) .LAST_UPDATE_TIME 32768 7 0 7 = some 1 := by
  decide

/-! ## Data model -/

/-- A bin: a named value entry (`as_bin`). -/
structure as_bin where
  name : Nat
  particle : Nat
  deriving DecidableEq, Repr, Inhabited

/-- The index entry `as_record` (`as_index`) together with the memory it owns.
`tree_id` is zero once the entry is unlinked from its tree.  The C field `dim`
holds either a bin space or a record space (key glued onto the bin space); here
it is the pair `bins` (the in-memory bin space) and `key` (the stored key bytes
with their size, present when `dim` is a record space). -/
structure as_record where
  generation : Nat
  last_update_time : Nat
  void_time : Nat
  set_id : Nat
  key_stored : Nat
  in_sindex : Nat
  rc : Nat
  tree_id : Nat
  bins : List as_bin
  key : Option (Nat × List Nat)
  deriving DecidableEq, Repr

/-- Storage engine kinds (`as_storage_type`). -/
inductive as_storage_type
  | AS_STORAGE_ENGINE_MEMORY
  | AS_STORAGE_ENGINE_PMEM
  | AS_STORAGE_ENGINE_SSD
  deriving DecidableEq, Repr

/-- The fields of `as_namespace` that `record.c` reads. -/
structure as_namespace where
  conflict_resolution_policy : conflict_resolution_pol
  storage_data_in_memory : Bool
  single_bin : Bool
  storage_type : as_storage_type
  deriving DecidableEq, Repr

/-- Origin tag of a remote record (`record_via`). -/
inductive record_via
  | VIA_REPLICATION
  | VIA_MIGRATION
  | VIA_DUPLICATE_RESOLUTION
  deriving DecidableEq, Repr

/-- The incoming remote record (`as_remote_record`); `generation` is 32 bits
wide in C and is truncated to 16 bits where the code casts it. -/
structure as_remote_record where
  via : record_via
  src : Nat
  generation : Nat
  last_update_time : Nat
  void_time : Nat
  n_bins : Nat
  set_name : Option (List Nat)
  key : Option (List Nat)
  key_size : Nat
  pickle : List Nat
  deriving DecidableEq, Repr

/-- Storage write-buffer classes (`which_current_swb`). -/
inductive swb_class
  | SWB_MASTER
  | SWB_PROLE
  | SWB_UNCACHED
  deriving DecidableEq, Repr

/-- The fields of the storage handle `as_storage_rd` that `record.c` sets. -/
structure as_storage_rd where
  bins : List as_bin
  n_bins : Nat
  pickle : List Nat
  which_current_swb : swb_class
  deriving DecidableEq, Repr

/-- Modelled from the spec: `index_metadata` (transaction/rw_utils.h) is
missing.  The snapshot of the index metadata taken for rollback: generation,
LUT and void_time. -/
structure index_metadata where
  void_time : Nat
  last_update_time : Nat
  generation : Nat
  deriving DecidableEq, Repr

/-- Modelled from the spec: `as_xdr_submit_info` (base/xdr.h) is missing.  The
spec: `get_submit_info(record, prior_lut) -> info`; the info is the record as
it was when the info was taken, with the prior LUT passed along. -/
structure as_xdr_submit_info where
  r : as_record
  prev_lut : Nat
  deriving DecidableEq, Repr

/-- Which bin array a call was handed: the record's current bins (`rd->bins`)
or the freshly decoded ones (`new_bins`, `&new_bin`). -/
inductive bins_ref
  | rd_bins
  | new_bins
  deriving DecidableEq, Repr

/-- The four record appliers. -/
inductive applier
  | dim_single_bin
  | dim
  | ssd_single_bin
  | ssd
  deriving DecidableEq, Repr

/-- One entry of the call log: a call made by `record.c`, with the arguments
and results that matter.  `record_apply`, `as_record_finalize_key` and
`as_record_done` mark the entry into functions of `record.c` itself; the others
are calls to collaborators. -/
inductive Event
  | as_index_get_insert_vlock (rv : Int)
  | incr_n_objects
  | as_partition_check_source (result : Int)
  | repl_write_init_repl_state (from_replica : Bool)
  | as_record_resolve_conflict (result : Option Int)
  | as_xdr_get_submit_info (info : as_xdr_submit_info)
  | as_xdr_submit (info : as_xdr_submit_info)
  | as_index_set_set_w_len (result : Int)
  | as_truncate_record_is_truncated (truncated : Bool)
  | as_flat_fix_padded_rr (fixed : Bool)
  | as_storage_record_create
  | as_storage_record_open
  | as_storage_record_close
  | record_apply (variant : applier)
  | as_storage_rd_load_bins (result : Int)
  | as_flat_unpack_remote_bins (result : Int)
  | as_storage_record_write (pickle : List Nat) (swb : swb_class) (result : Int)
  | as_bin_destroy_all (which : bins_ref) (n : Nat)
  | as_record_transition_stats
  | as_record_transition_set_index
  | update_sindex
  | as_storage_rd_update_bin_space
  | as_record_finalize_key
  | as_storage_record_adjust_mem_stats
  | record_replaced
  | as_index_delete
  | as_record_done
  | as_record_destroy
  | cf_arenax_free
  | as_sindex_gc_record
  | cf_mutex_unlock
  deriving DecidableEq, Repr

/-- The answers of the collaborators that are not part of `record.c`, for one
call of `as_record_replace_if_better`. -/
structure Env where
  /-- The consistency-mode comparison `record_resolve_conflict_cp`. -/
  record_resolve_conflict_cp : Nat → Nat → Nat → Nat → Int
  /-- Whether the index arena can hand out a new element. -/
  arena_has_space : Bool
  /-- Result code and `from_replica` of `as_partition_check_source`. -/
  as_partition_check_source : Int × Bool
  /-- Value of `repl_write_conflict_resolution_policy(ns)`. -/
  repl_write_conflict_resolution_policy : conflict_resolution_pol
  /-- Value of `record_replace_check(r, ns)`. -/
  record_replace_check : as_record → Int
  /-- Result code of `as_index_set_set_w_len` and the set-ID it writes. -/
  as_index_set_set_w_len : Int × Nat
  /-- Value of `as_truncate_record_is_truncated(r, ns)`. -/
  as_truncate_record_is_truncated : as_record → Bool
  /-- Value of `as_exchange_min_compatibility_id()`. -/
  as_exchange_min_compatibility_id : Nat
  /-- Outcome of `as_flat_fix_padded_rr`: `none` when it returns false, else
  the fixed pickle. -/
  as_flat_fix_padded_rr : Option (List Nat)
  /-- Result code of `as_storage_rd_load_bins` on a disk-resident record and
  the bins read. -/
  as_storage_rd_load_bins : Int × List as_bin
  /-- Result code of `as_flat_unpack_remote_bins(rr, bins)` and the decoded
  bins. -/
  as_flat_unpack_remote_bins : as_remote_record → Int × List as_bin
  /-- Result code of `as_storage_record_write(rd)`. -/
  as_storage_record_write : Int
  /-- Value of `set_has_sindex(r, ns)`. -/
  set_has_sindex : as_record → Bool
  /-- The `in_sindex` bit that `update_sindex` leaves on the record. -/
  update_sindex : Nat

/-- The locked index entry (`r_ref.r`) and the call log so far. -/
structure World where
  r : as_record
  trace : List Event
  deriving DecidableEq, Repr

/-- Append a call to the log. -/
def World.log (w : World) (e : Event) : World :=
  { w with trace := w.trace ++ [e] }

/-- What one call of `as_record_replace_if_better` leaves behind: the result
code, the index entry for the digest afterwards (`none` when no entry is
linked) and the call log. -/
structure Outcome where
  result : Int
  tree : Option as_record
  trace : List Event
  deriving DecidableEq, Repr

/-! ## Record lock lifecycle -/

/-- Modelled from the spec: `as_index_is_valid_record` (base/index.h) is
missing.  An entry is valid while it is linked in its tree. -/
def as_index_is_valid_record (r : as_record) : Bool :=
  r.tree_id != 0

/-- Modelled from the spec: the entry a successful insert creates, generation 0
and no bins, linked in the tree. -/
def as_index_new : as_record :=
  { generation := 0, last_update_time := 0, void_time := 0, set_id := 0,
    key_stored := 0, in_sindex := 0, rc := 0, tree_id := 1, bins := [], key := none }

/-- Modelled from the spec: `as_index_get_insert_vlock` (base/index.c) is
missing.  `get_or_create` returns the existing entry (0), or creates a
zero-generation entry (1), or fails when the arena cannot grow (-1); in the
last case the reference is not set (the entry returned here is not used). -/
def as_index_get_insert_vlock (env : Env) (tree : Option as_record) : Int × as_record :=
  match tree with
  | some r => (0, r)
  | none => if env.arena_has_space then (1, as_index_new) else (-1, as_index_new)

/-- Source: `as_record_get_create` (record.c:89-100). -/
def as_record_get_create (env : Env) (tree : Option as_record) : Int × World :=
  let found := as_index_get_insert_vlock env tree
  let rv := found.1
  let w : World := { r := found.2, trace := [Event.as_index_get_insert_vlock rv] }
  if rv = 1 then (rv, w.log .incr_n_objects) else (rv, w)

/-- Source: `as_record_done` (record.c:113-131).  `none` is the crash of the
failed `cf_assert`. -/
def as_record_done (w : World) : Option World :=
  let w := w.log .as_record_done
  if ! as_index_is_valid_record w.r then
    if w.r.rc = 0 then
      if w.r.in_sindex = 0 then
        some (((w.log .as_record_destroy).log .cf_arenax_free).log .cf_mutex_unlock)
      else
        none
    else if w.r.in_sindex = 1 ∧ w.r.rc = 1 then
      some ((w.log .as_sindex_gc_record).log .cf_mutex_unlock)
    else
      some (w.log .cf_mutex_unlock)
  else
    some (w.log .cf_mutex_unlock)

/-- Modelled from the spec: `as_index_delete` (base/index.c) is missing.  It
unlinks the entry from the tree, after which the entry is no longer valid. -/
def as_index_delete (w : World) : World :=
  { (w.log .as_index_delete) with r := { w.r with tree_id := 0 } }

/-! ## Record lifecycle utilities -/

/-- Source: `as_record_is_expired` (record.c:139-143); `now` is the value of
`as_record_void_time_get()`. -/
def as_record_is_expired (r : as_record) (now : Nat) : Bool :=
  r.void_time != 0 && decide (r.void_time < now)

/-- Source: `as_record_allocate_key` (record.c:235-246): a record space is
allocated that keeps the bin space and holds `key_size` bytes of the key. -/
def as_record_allocate_key (r : as_record) (key : List Nat) (key_size : Nat) : as_record :=
  { r with key := some (key_size, key.take key_size) }

/-- Source: `as_record_finalize_key` (record.c:206-231). -/
def as_record_finalize_key (r : as_record) (ns : as_namespace) (key : Option (List Nat))
    (key_size : Nat) : as_record :=
  if r.key_stored = 0 then
    match key with
    | some k =>
      let r := if ns.storage_data_in_memory then as_record_allocate_key r k key_size else r
      { r with key_stored := 1 }
    | none => r
  else
    match key with
    | none =>
      let r := if ns.storage_data_in_memory then { r with key := none } else r
      { r with key_stored := 0 }
    | some _ => r

/-! ## Index metadata helpers -/

/-- Modelled from the spec: `stash_index_metadata` (transaction/rw_utils.h) is
missing.  Applier step 1: snapshot the current index metadata for rollback. -/
def stash_index_metadata (r : as_record) : index_metadata :=
  { void_time := r.void_time, last_update_time := r.last_update_time,
    generation := r.generation }

/-- Modelled from the spec: `replace_index_metadata` (transaction/rw_utils.h)
is missing.  Applier step 2: overwrite the index metadata with the remote
record's values; the generation field is 16 bits wide. -/
def replace_index_metadata (rr : as_remote_record) (r : as_record) : as_record :=
  { r with void_time := rr.void_time, last_update_time := rr.last_update_time,
           generation := u16 rr.generation }

/-- Modelled from the spec: `unwind_index_metadata` (transaction/rw_utils.h) is
missing.  Roll the index metadata back to the snapshot. -/
def unwind_index_metadata (old : index_metadata) (r : as_record) : as_record :=
  { r with void_time := old.void_time, last_update_time := old.last_update_time,
           generation := old.generation }

/-- Modelled from the spec: `as_index_clear_in_sindex` (base/index.h) is
missing.  It clears the secondary-index membership flag of the record. -/
def as_index_clear_in_sindex (r : as_record) : as_record :=
  { r with in_sindex := 0 }

/-- Modelled from the spec: `as_storage_rd_load_bins` for a memory-resident
record is missing.  It points `rd->bins` at the record's in-memory bins. -/
def load_bins_dim (rd : as_storage_rd) (r : as_record) : as_storage_rd :=
  { rd with bins := r.bins, n_bins := r.bins.length }

/-! ## Record appliers -/

/-- Source: `record_apply_dim_single_bin` (record.c:473-533).  The decoder is
called only when `n_new_bins == 1`. -/
def record_apply_dim_single_bin (env : Env) (rr : as_remote_record) (rd : as_storage_rd)
    (w : World) : Int × World :=
  let w := w.log (.record_apply .dim_single_bin)
  let rd := load_bins_dim rd w.r
  let n_new_bins := rr.n_bins
  let unpacked := env.as_flat_unpack_remote_bins rr
  let w := if n_new_bins = 1 then w.log (.as_flat_unpack_remote_bins unpacked.1) else w
  if n_new_bins = 1 ∧ unpacked.1 ≠ 0 then
    (-unpacked.1, w)
  else
    let new_bin := unpacked.2.take 1
    let old_metadata := stash_index_metadata w.r
    let w := { w with r := replace_index_metadata rr w.r }
    let result := env.as_storage_record_write
    let w := w.log (.as_storage_record_write rd.pickle rd.which_current_swb result)
    if result < 0 then
      let w := { w with r := unwind_index_metadata old_metadata w.r }
      let w := w.log (.as_bin_destroy_all .new_bins n_new_bins)
      (-result, w)
    else
      let w := w.log .as_record_transition_stats
      let w := w.log .as_record_transition_set_index
      let w := w.log (.as_bin_destroy_all .rd_bins rd.n_bins)
      let w := if n_new_bins = 1 then { w with r := { w.r with bins := new_bin } }
               else { w with r := { w.r with bins := [] } }
      let w := w.log .as_storage_record_adjust_mem_stats
      (AS_OK, w)

/-- Source: `record_apply_dim` (record.c:535-602).  The decoder is called only
when `n_new_bins != 0`. -/
def record_apply_dim (env : Env) (ns : as_namespace) (rr : as_remote_record)
    (rd : as_storage_rd) (w : World) : Int × World :=
  let w := w.log (.record_apply .dim)
  let rd := load_bins_dim rd w.r
  let n_new_bins := rr.n_bins
  let unpacked := env.as_flat_unpack_remote_bins rr
  let w := if n_new_bins ≠ 0 then w.log (.as_flat_unpack_remote_bins unpacked.1) else w
  if n_new_bins ≠ 0 ∧ unpacked.1 ≠ 0 then
    (-unpacked.1, w)
  else
    let new_bins := if n_new_bins ≠ 0 then unpacked.2 else []
    let old_metadata := stash_index_metadata w.r
    let w := { w with r := replace_index_metadata rr w.r }
    let result := env.as_storage_record_write
    let w := w.log (.as_storage_record_write rd.pickle rd.which_current_swb result)
    if result < 0 then
      let w := { w with r := unwind_index_metadata old_metadata w.r }
      let w := w.log (.as_bin_destroy_all .new_bins n_new_bins)
      (-result, w)
    else
      let w := w.log .as_record_transition_stats
      let w := w.log .as_record_transition_set_index
      let w := if env.set_has_sindex w.r then
                 { (w.log .update_sindex) with r := { w.r with in_sindex := env.update_sindex } }
               else
                 { w with r := as_index_clear_in_sindex w.r }
      let w := w.log (.as_bin_destroy_all .rd_bins rd.n_bins)
      let rd := { rd with n_bins := n_new_bins, bins := new_bins }
      let w := { (w.log .as_storage_rd_update_bin_space) with r := { w.r with bins := rd.bins } }
      let w := { (w.log .as_record_finalize_key) with
                 r := as_record_finalize_key w.r ns rr.key rr.key_size }
      let w := w.log .as_storage_record_adjust_mem_stats
      (AS_OK, w)

/-- Source: `record_apply_ssd_single_bin` (record.c:604-635). -/
def record_apply_ssd_single_bin (env : Env) (ns : as_namespace) (rr : as_remote_record)
    (rd : as_storage_rd) (w : World) : Int × World :=
  let w := w.log (.record_apply .ssd_single_bin)
  let old_metadata := stash_index_metadata w.r
  let w := { w with r := replace_index_metadata rr w.r }
  let result := env.as_storage_record_write
  let w := w.log (.as_storage_record_write rd.pickle rd.which_current_swb result)
  if result < 0 then
    let w := { w with r := unwind_index_metadata old_metadata w.r }
    (-result, w)
  else
    let w := w.log .as_record_transition_stats
    let w := w.log .as_record_transition_set_index
    let w := { (w.log .as_record_finalize_key) with
               r := as_record_finalize_key w.r ns rr.key rr.key_size }
    (AS_OK, w)

/-- Source: `record_apply_ssd` (record.c:637-697).  The old bins are loaded
only when the set has a secondary index and the record is in it; the decoder is
called only when the set has a secondary index and `n_new_bins != 0`. -/
def record_apply_ssd (env : Env) (ns : as_namespace) (rr : as_remote_record)
    (rd : as_storage_rd) (w : World) : Int × World :=
  let w := w.log (.record_apply .ssd)
  let set_has_si := env.set_has_sindex w.r
  let si_needs_bins := set_has_si && decide (w.r.in_sindex = 1)
  let loaded := env.as_storage_rd_load_bins
  let w := if si_needs_bins then w.log (.as_storage_rd_load_bins loaded.1) else w
  if si_needs_bins ∧ loaded.1 < 0 then
    (-loaded.1, w)
  else
    let n_new_bins := rr.n_bins
    let unpacked := env.as_flat_unpack_remote_bins rr
    let w := if set_has_si ∧ n_new_bins ≠ 0 then w.log (.as_flat_unpack_remote_bins unpacked.1)
             else w
    if set_has_si ∧ n_new_bins ≠ 0 ∧ unpacked.1 ≠ 0 then
      (-unpacked.1, w)
    else
      let old_metadata := stash_index_metadata w.r
      let w := { w with r := replace_index_metadata rr w.r }
      let result := env.as_storage_record_write
      let w := w.log (.as_storage_record_write rd.pickle rd.which_current_swb result)
      if result < 0 then
        let w := { w with r := unwind_index_metadata old_metadata w.r }
        (-result, w)
      else
        let w := w.log .as_record_transition_stats
        let w := w.log .as_record_transition_set_index
        let w := if set_has_si then
                   { (w.log .update_sindex) with r := { w.r with in_sindex := env.update_sindex } }
                 else
                   { w with r := as_index_clear_in_sindex w.r }
        let w := { (w.log .as_record_finalize_key) with
                 r := as_record_finalize_key w.r ns rr.key rr.key_size }
        (AS_OK, w)

/-! ## Replace orchestrator -/

/-- Source: `record_replace_failed` (record.c:458-471); `has_rd` says whether
the `rd` argument is non-NULL. -/
def record_replace_failed (has_rd : Bool) (is_create : Bool) (w : World) : Option World :=
  let w := if has_rd then w.log .as_storage_record_close else w
  let w := if is_create then as_index_delete w else w
  as_record_done w

/-- The index entry for the digest once the lock is released: the entry when it
is still linked in the tree. -/
def World.tree (w : World) : Option as_record :=
  if as_index_is_valid_record w.r then some w.r else none

/-- Pack a result code with the state left behind. -/
def World.outcome (result : Int) (w : World) : Outcome :=
  { result := result, tree := w.tree, trace := w.trace }

/-- Modelled from the spec: `as_xdr_get_submit_info` (base/xdr.h) is missing.
The info is computed from the record's state and the prior LUT. -/
def as_xdr_get_submit_info (r : as_record) (prev_lut : Nat) : as_xdr_submit_info :=
  { r := r, prev_lut := prev_lut }

/-- Source: the dispatch to the applier in `as_record_replace_if_better`
(record.c:372-387). -/
def record_apply (env : Env) (ns : as_namespace) (rr : as_remote_record) (rd : as_storage_rd)
    (w : World) : Int × World :=
  if ns.storage_data_in_memory then
    if ns.single_bin then record_apply_dim_single_bin env rr rd w
    else record_apply_dim env ns rr rd w
  else
    if ns.single_bin then record_apply_ssd_single_bin env ns rr rd w
    else record_apply_ssd env ns rr rd w

/-- Source: `as_record_replace_if_better` from the storage handle to the end
(record.c:345-411): open the storage handle, run the applier, then fail or
commit. -/
def replace_write (env : Env) (ns : as_namespace) (rr : as_remote_record) (is_create : Bool)
    (w : World) : Option Outcome :=
  let w := if is_create then w.log .as_storage_record_create else w.log .as_storage_record_open
  let rd : as_storage_rd :=
    { bins := [], n_bins := 0, pickle := rr.pickle, which_current_swb := .SWB_MASTER }
  let prev_lut := w.r.last_update_time
  let rd := match rr.via with
    | .VIA_REPLICATION => { rd with which_current_swb := .SWB_PROLE }
    | .VIA_MIGRATION => { rd with which_current_swb := .SWB_UNCACHED }
    | .VIA_DUPLICATE_RESOLUTION => rd
  let applied := record_apply env ns rr rd w
  let result := applied.1
  let w := applied.2
  if result ≠ 0 then
    (record_replace_failed true is_create w).map (World.outcome result)
  else
  let w := w.log .record_replaced
  let submit_info := as_xdr_get_submit_info w.r prev_lut
  let w := if rr.via = .VIA_REPLICATION then w.log (.as_xdr_get_submit_info submit_info) else w
  let w := w.log .as_storage_record_close
  match as_record_done w with
  | none => none
  | some w =>
    let w := if rr.via = .VIA_REPLICATION then w.log (.as_xdr_submit submit_info) else w
    some (w.outcome AS_OK)

/-- Source: `as_record_replace_if_better`, the padding fix for records that
did not arrive by replication (record.c:335-343), followed by
`replace_write`. -/
def replace_fix_padded (env : Env) (ns : as_namespace) (rr : as_remote_record)
    (is_create : Bool) (w : World) : Option Outcome :=
  let fix := rr.via ≠ .VIA_REPLICATION ∧ ns.storage_type = .AS_STORAGE_ENGINE_SSD ∧
    env.as_exchange_min_compatibility_id < 11
  let w := if fix then w.log (.as_flat_fix_padded_rr env.as_flat_fix_padded_rr.isSome) else w
  if fix ∧ env.as_flat_fix_padded_rr.isNone then
    (record_replace_failed false is_create w).map (World.outcome AS_OK)
  else
  let rr := if fix then { rr with pickle := env.as_flat_fix_padded_rr.getD rr.pickle } else rr
  replace_write env ns rr is_create w

/-- Source: `as_record_replace_if_better` from "remote winner - apply it" to
the truncation check (record.c:315-333): set-ID and truncation check of a
created entry, followed by `replace_fix_padded`. -/
def replace_apply (env : Env) (ns : as_namespace) (rr : as_remote_record) (is_create : Bool)
    (w : World) : Option Outcome :=
  let set_result := env.as_index_set_set_w_len.1
  let w := if is_create ∧ rr.set_name.isSome then w.log (.as_index_set_set_w_len set_result)
           else w
  if is_create ∧ rr.set_name.isSome ∧ set_result < 0 then
    (record_replace_failed false is_create w).map (World.outcome (-set_result))
  else
  let w := if is_create ∧ rr.set_name.isSome then
             { w with r := { w.r with set_id := env.as_index_set_set_w_len.2 } }
           else w
  let w := if is_create then { w with r := { w.r with last_update_time := rr.last_update_time } }
           else w
  let truncated := env.as_truncate_record_is_truncated w.r
  let w := if is_create then w.log (.as_truncate_record_is_truncated truncated) else w
  if is_create ∧ truncated then
    (record_replace_failed false is_create w).map (World.outcome AS_OK)
  else
    replace_fix_padded env ns rr is_create w

/-- Source: `as_record_replace_if_better`, "if local record is better, no-op or
fail" for an existing entry (record.c:295-315), followed by `replace_apply`
when the remote record wins.  `none` is the crash on an invalid policy. -/
def replace_resolve (env : Env) (ns : as_namespace) (rr : as_remote_record)
    (policy : conflict_resolution_pol) (w : World) : Option Outcome :=
  let resolved := as_record_resolve_conflict env.record_resolve_conflict_cp policy
    w.r.generation w.r.last_update_time (u16 rr.generation) rr.last_update_time
  let w := w.log (.as_record_resolve_conflict resolved)
  match resolved with
  | none => none
  | some result =>
    if result ≤ 0 then
      if rr.via ≠ .VIA_REPLICATION ∨ result < 0 then
        (record_replace_failed false false w).map
          (World.outcome (if result = 0 then AS_ERR_RECORD_EXISTS else AS_ERR_GENERATION))
      else
        let submit_info := as_xdr_get_submit_info w.r w.r.last_update_time
        let w := w.log (.as_xdr_get_submit_info submit_info)
        match record_replace_failed false false w with
        | none => none
        | some w =>
          let w := w.log (.as_xdr_submit submit_info)
          some (w.outcome AS_ERR_RECORD_EXISTS)
    else
      replace_apply env ns rr false w

/-- Source: `as_record_replace_if_better` (record.c:254-411); `tree` is the
index entry stored for the digest `rr->keyd`, if any.  `none` is a crash
(`cf_crash`, failed `cf_assert`). -/
def as_record_replace_if_better (env : Env) (ns : as_namespace) (tree : Option as_record)
    (rr : as_remote_record) : Option Outcome :=
  let got := as_record_get_create env tree
  let rv := got.1
  let w := got.2
  if rv < 0 then
    some { result := AS_ERR_OUT_OF_SPACE, tree := tree, trace := w.trace }
  else
  let is_create := decide (rv = 1)
  let checked := env.as_partition_check_source
  let w := if rr.via = .VIA_REPLICATION then w.log (.as_partition_check_source checked.1) else w
  if rr.via = .VIA_REPLICATION ∧ checked.1 ≠ AS_OK then
    (record_replace_failed false is_create w).map (World.outcome checked.1)
  else
  let w := if rr.via = .VIA_REPLICATION then w.log (.repl_write_init_repl_state checked.2) else w
  let policy := if rr.via = .VIA_REPLICATION then env.repl_write_conflict_resolution_policy
                else ns.conflict_resolution_policy
  if ¬ is_create ∧ env.record_replace_check w.r < 0 then
    (record_replace_failed false is_create w).map (World.outcome AS_ERR_FORBIDDEN)
  else
  if is_create then
    replace_apply env ns rr true w
  else
    replace_resolve env ns rr policy w

/-! ## Predicates on the call log -/

/-- An applier was entered. -/
def Event.isApply : Event → Bool
  | .record_apply _ => true
  | _ => false

/-- The storage engine was asked to write. -/
def Event.isStorageWrite : Event → Bool
  | .as_storage_record_write _ _ _ => true
  | _ => false

/-- A cross-datacenter notification was submitted. -/
def Event.isXdrSubmit : Event → Bool
  | .as_xdr_submit _ => true
  | _ => false

/-- The record's current bins were destroyed. -/
def Event.isDestroyOldBins : Event → Bool
  | .as_bin_destroy_all .rd_bins _ => true
  | _ => false

/-- A call made inside one of the appliers. -/
def Event.isApplierCall : Event → Bool
  | .record_apply _ => true
  | .as_storage_rd_load_bins _ => true
  | .as_flat_unpack_remote_bins _ => true
  | .as_storage_record_write _ _ _ => true
  | .as_bin_destroy_all _ _ => true
  | .as_record_transition_stats => true
  | .as_record_transition_set_index => true
  | .update_sindex => true
  | .as_storage_rd_update_bin_space => true
  | .as_record_finalize_key => true
  | .as_storage_record_adjust_mem_stats => true
  | _ => false

/-- A call made while giving up the record: closing the storage handle,
deleting the index entry, and `as_record_done` with what it calls. -/
def Event.isRelease : Event → Bool
  | .as_storage_record_close => true
  | .as_index_delete => true
  | .as_record_done => true
  | .as_record_destroy => true
  | .cf_arenax_free => true
  | .as_sindex_gc_record => true
  | .cf_mutex_unlock => true
  | _ => false

/-- The decoder was called. -/
def Event.isUnpack : Event → Bool
  | .as_flat_unpack_remote_bins _ => true
  | _ => false

/-- The partition source check was called. -/
def Event.isCheckSource : Event → Bool
  | .as_partition_check_source _ => true
  | _ => false

/-- The conflict resolver was called. -/
def Event.isResolve : Event → Bool
  | .as_record_resolve_conflict _ => true
  | _ => false

/-- The storage handle was created, opened or written. -/
def Event.isStorageAccess : Event → Bool
  | .as_storage_record_create => true
  | .as_storage_record_open => true
  | .as_storage_record_write _ _ _ => true
  | _ => false

/-- Shape of the calls `evs` logged from some point while the index reference
is held up to the return: the calls `a` made while the reference is held (no
release, no notification), then `as_record_done` with the calls `rel` it makes
and its final unlock, then the notifications `b` (at most one, none unless the
record arrived by replication).  When the result is `AS_OK` and an applier was
entered on a replication-origin record, the single notification is built from
the record left in the index and `prev_lut`. -/
def release_shape (via : record_via) (o : Outcome) (prev_lut : Nat) (evs : List Event) :
    Prop :=
  ∃ a rel b, evs = a ++ [Event.as_record_done] ++ rel ++ [Event.cf_mutex_unlock] ++ b
    ∧ (∀ e ∈ a, e ≠ .as_record_done ∧ e ≠ .cf_mutex_unlock ∧ e.isXdrSubmit = false
        ∧ (e.isCheckSource = true → via = .VIA_REPLICATION))
    ∧ (∀ e ∈ rel, e = .as_record_destroy ∨ e = .cf_arenax_free ∨ e = .as_sindex_gc_record)
    ∧ (∀ e ∈ b, e.isXdrSubmit = true)
    ∧ b.length ≤ 1
    ∧ (via ≠ .VIA_REPLICATION → b = [])
    ∧ (o.result = AS_OK → (∃ e ∈ a, e.isApply = true) → via = .VIA_REPLICATION →
        ∃ r1, o.tree = World.tree ⟨r1, []⟩ ∧
          b = [.as_xdr_submit (as_xdr_get_submit_info r1 prev_lut)])

/-- The LUT the index entry holds when the applier is entered: the LUT of the
entry found, or the remote record's LUT, stamped on a created entry. -/
def prior_lut (tree : Option as_record) (rr : as_remote_record) : Nat :=
  match tree with
  | some r => r.last_update_time
  | none => rr.last_update_time

/-- Modelled from the spec: `as_partition_check_source` (fabric/partition.c) is
missing.  The spec: the admission check verifies that the sending node is a
legitimate source for the partition and fails with `Forbidden` otherwise; the
codes the check returns are `AS_OK` and `AS_ERR_FORBIDDEN`. -/
def check_source_spec (env : Env) : Prop :=
  env.as_partition_check_source.1 = AS_OK ∨ env.as_partition_check_source.1 = AS_ERR_FORBIDDEN

/-- Run one of the four appliers by name. -/
def applier.run (v : applier) (env : Env) (ns : as_namespace) (rr : as_remote_record)
    (rd : as_storage_rd) (w : World) : Int × World :=
  match v with
  | .dim_single_bin => record_apply_dim_single_bin env rr rd w
  | .dim => record_apply_dim env ns rr rd w
  | .ssd_single_bin => record_apply_ssd_single_bin env ns rr rd w
  | .ssd => record_apply_ssd env ns rr rd w

/-- The applier that `record_apply` dispatches to in a namespace. -/
def applier.select (ns : as_namespace) : applier :=
  if ns.storage_data_in_memory then
    if ns.single_bin then .dim_single_bin else .dim
  else
    if ns.single_bin then .ssd_single_bin else .ssd

/-- The ways the part of `as_record_replace_if_better` that handles a winning
remote record returns, in terms of the calls `evs` it logged: it gave up before
an applier was entered; or the applier failed (nothing submitted, the record's
bins not destroyed, the storage error passed through); or the remote record was
committed.  `tree0` is the entry before and `tid` its `tree_id`. -/
def replace_exit (env : Env) (rr : as_remote_record) (is_create : Bool)
    (tree0 : Option as_record) (tid : Nat) (o : Outcome) (evs : List Event) : Prop :=
  ((∀ e ∈ evs, e.isApplierCall = false ∧ e.isXdrSubmit = false) ∧
      o.tree = (if is_create then none else tree0))
  ∨ (o.result ≠ 0 ∧ o.tree = (if is_create then none else tree0) ∧
      (∀ e ∈ evs, e.isXdrSubmit = false ∧ e.isDestroyOldBins = false) ∧
      (∀ e ∈ evs, e.isStorageWrite = true →
        ∃ p s, e = .as_storage_record_write p s env.as_storage_record_write) ∧
      ((∃ e ∈ evs, e.isStorageWrite = true) → env.as_storage_record_write < 0 →
        o.result = - env.as_storage_record_write))
  ∨ (o.result = AS_OK ∧ ¬ env.as_storage_record_write < 0 ∧
      (∃ e ∈ evs, e.isApply = true) ∧
      (∀ e ∈ evs, e.isStorageWrite = true →
        ∃ p s, e = .as_storage_record_write p s env.as_storage_record_write) ∧
      ∃ r1, o.tree = World.tree ⟨r1, []⟩ ∧ r1.generation = u16 rr.generation ∧
        r1.last_update_time = rr.last_update_time ∧ r1.void_time = rr.void_time ∧
        r1.tree_id = tid)

/-- A sample environment: every check passes, decode and write succeed. -/
def Env.sample : Env :=
  { record_resolve_conflict_cp := fun _ _ _ _ => 0
    arena_has_space := true
    as_partition_check_source := (0, true)
    repl_write_conflict_resolution_policy := .GENERATION
    record_replace_check := fun _ => 0
    as_index_set_set_w_len := (0, 1)
    as_truncate_record_is_truncated := fun _ => false
    as_exchange_min_compatibility_id := 11
    as_flat_fix_padded_rr := none
    as_storage_rd_load_bins := (0, [])
    as_flat_unpack_remote_bins := fun rr => (0, (List.range rr.n_bins).map (fun i => ⟨i, 7⟩))
    as_storage_record_write := 0
    set_has_sindex := fun _ => false
    update_sindex := 0 }

/-- A sample environment in which the storage write fails with code -7. -/
def Env.write_fails : Env :=
  { Env.sample with as_storage_record_write := -7 }

/-- A sample environment in which the payload fails to decode with code -1. -/
def Env.corrupt : Env :=
  { Env.sample with as_flat_unpack_remote_bins := fun _ => (-1, []) }

/-- A sample storage handle as `as_record_replace_if_better` sets it up. -/
def sample_rd : as_storage_rd :=
  { bins := [], n_bins := 0, pickle := [1, 2, 3], which_current_swb := .SWB_UNCACHED }

/-- A sample environment in which every record is reported truncated. -/
def Env.truncating : Env :=
  { Env.sample with as_truncate_record_is_truncated := fun _ => true }

/-- A sample environment in which the partition source check fails. -/
def Env.bad_source : Env :=
  { Env.sample with as_partition_check_source := (AS_ERR_FORBIDDEN, false) }

/-- A sample environment of a cluster below compatibility id 11 in which the
padding fix of a pickle fails. -/
def Env.bad_padding : Env :=
  { Env.sample with as_exchange_min_compatibility_id := 10, as_flat_fix_padded_rr := none }

/-- A sample local record: linked, one bin, no stored key. -/
def sample_record (generation last_update_time : Nat) : as_record :=
  { generation := generation, last_update_time := last_update_time, void_time := 0,
    set_id := 0, key_stored := 0, in_sindex := 0, rc := 0, tree_id := 1,
    bins := [⟨1, 1⟩], key := none }

/-- A sample remote record with two bins, no set name and no key. -/
def sample_remote (via : record_via) (generation last_update_time : Nat) : as_remote_record :=
  { via := via, src := 0, generation := generation, last_update_time := last_update_time,
    void_time := 9, n_bins := 2, set_name := none, key := none, key_size := 0,
    pickle := [1, 2, 3] }

/-- A sample remote record that carries a three-byte key. -/
def sample_remote_keyed (via : record_via) (generation last_update_time : Nat) :
    as_remote_record :=
  { sample_remote via generation last_update_time with key := some [7, 8, 9], key_size := 3 }

/-- A sample namespace. -/
def sample_ns (policy : conflict_resolution_pol) (data_in_memory single_bin : Bool) :
    as_namespace :=
  { conflict_resolution_policy := policy, storage_data_in_memory := data_in_memory,
    single_bin := single_bin, storage_type := .AS_STORAGE_ENGINE_SSD }

/-! ## Reference definitions, following the specification's words -/

/-- Reference for the generation-priority policy, in the spec's words: direct
numeric comparison of the generations first, the LUT second. -/
def spec_generation_priority (left_gen left_lut right_gen right_lut : Nat) : Int :=
  if right_gen > left_gen then 1
  else if right_gen < left_gen then -1
  else if right_lut > left_lut then 1
  else if right_lut < left_lut then -1
  else 0

/-- Forward distance from `left` to `right` on the 16-bit generation circle. -/
def gen_distance (left right : Nat) : Nat :=
  (right + 2 ^ 16 - left % 2 ^ 16) % 2 ^ 16

/-- Reference for the LUT-priority policy, in the spec's words: the LUT first,
then the wrap-aware generation comparison, where the right generation is ahead
of the left one when it is between 1 and 32768 steps further on the circle. -/
def spec_lut_priority (left_gen left_lut right_gen right_lut : Nat) : Int :=
  if right_lut > left_lut then 1
  else if right_lut < left_lut then -1
  else if left_gen = right_gen then 0
  else if 1 ≤ gen_distance left_gen right_gen ∧ gen_distance left_gen right_gen ≤ 32768 then 1
  else -1

/-! ## Theorems: conflict resolution -/

/-- The generation-priority branch of the resolver computes the reference. -/
theorem resolve_conflict_generation_eq
    (cp : Nat → Nat → Nat → Nat → Int) (left_gen left_lut right_gen right_lut : Nat) :
    as_record_resolve_conflict cp .GENERATION left_gen left_lut right_gen right_lut
        = some (spec_generation_priority left_gen left_lut right_gen right_lut) := by
  simp only [as_record_resolve_conflict, resolve_generation_direct, resolve_last_update_time,
      spec_generation_priority]
  rcases Nat.lt_trichotomy left_gen right_gen with h | h | h
  · have h2 : left_gen ≠ right_gen := by omega
    simp [h, h2]
  · subst h
    rcases Nat.lt_trichotomy left_lut right_lut with k | k | k
    · simp [k]
    · simp [k]
    · have k2 : ¬ left_lut < right_lut := by omega
      simp [k, k2]
  · have h2 : left_gen ≠ right_gen := by omega
    have h3 : ¬ left_gen < right_gen := by omega
    simp [h, h2, h3]

/-- The LUT-priority branch of the resolver computes the reference. -/
theorem resolve_conflict_lut_eq
    (cp : Nat → Nat → Nat → Nat → Int) (left_gen left_lut right_gen right_lut : Nat) :
    as_record_resolve_conflict cp .LAST_UPDATE_TIME left_gen left_lut right_gen right_lut
        = some (spec_lut_priority left_gen left_lut right_gen right_lut) := by
  simp only [as_record_resolve_conflict, resolve_generation, resolve_last_update_time,
      spec_lut_priority, as_gen_less_than, gen_distance]
  rcases Nat.lt_trichotomy left_lut right_lut with k | k | k
  · simp [k]
  · subst k
    simp
    by_cases h : left_gen = right_gen
    · simp [h]
    · simp only [h, if_false]
      split_ifs <;> first | rfl | omega
  · have k2 : ¬ left_lut < right_lut := by omega
    simp [k, k2]

/-- Swapping the sides negates the generation-priority reference. -/
theorem spec_generation_priority_swap (a_gen a_lut b_gen b_lut : Nat) :
    spec_generation_priority b_gen b_lut a_gen a_lut
      = - spec_generation_priority a_gen a_lut b_gen b_lut := by
  unfold spec_generation_priority
  split_ifs <;> first | rfl | omega

/-- When the right side wins under the generation-priority reference. -/
theorem spec_generation_priority_eq_one (a_gen a_lut b_gen b_lut : Nat) :
    spec_generation_priority a_gen a_lut b_gen b_lut = 1 ↔
      (a_gen < b_gen ∨ (a_gen = b_gen ∧ a_lut < b_lut)) := by
  unfold spec_generation_priority
  split_ifs <;> simp <;> omega

/-- Swapping the sides negates the LUT-priority reference, unless the LUTs are
equal and the generations lie exactly half the circle apart. -/
theorem spec_lut_priority_swap (a_gen a_lut b_gen b_lut : Nat)
    (ha : a_gen < 2 ^ 16) (hb : b_gen < 2 ^ 16)
    (h : a_lut ≠ b_lut ∨ gen_distance a_gen b_gen ≠ 32768) :
    spec_lut_priority b_gen b_lut a_gen a_lut
      = - spec_lut_priority a_gen a_lut b_gen b_lut := by
  unfold spec_lut_priority gen_distance at *
  split_ifs <;> first | rfl | omega

/-- When the right side wins under the LUT-priority reference. -/
theorem spec_lut_priority_eq_one (a_gen a_lut b_gen b_lut : Nat) :
    spec_lut_priority a_gen a_lut b_gen b_lut = 1 ↔
      (a_lut < b_lut ∨ (a_lut = b_lut ∧ 1 ≤ gen_distance a_gen b_gen ∧
        gen_distance a_gen b_gen ≤ 32768)) := by
  unfold spec_lut_priority
  split_ifs with h1 h2 h3 h4
  · simp; omega
  · simp; omega
  · subst h3; simp [gen_distance]; omega
  · simp; omega
  · simp; omega

/-- Forward distances add up while their sum stays within half the circle. -/
theorem gen_distance_add (a b c : Nat)
    (h : gen_distance a b + gen_distance b c ≤ 32768) :
    gen_distance a c = gen_distance a b + gen_distance b c := by
  unfold gen_distance at *
  omega

/-- C1. Under the generation-priority policy `as_record_resolve_conflict`
equals the reference `spec_generation_priority` on all inputs: generations that
differ decide the result by plain numeric comparison, whatever the LUTs are;
equal generations leave the decision to the LUT comparison.  The wrap-aware
distance plays no part: for left 65535 and right 0 the wrap-aware comparison
says the right side is ahead, and the result is still -1. -/
theorem resolve_conflict_generation_priority
    (cp : Nat → Nat → Nat → Nat → Int) (left_gen left_lut right_gen right_lut : Nat) :
    as_record_resolve_conflict cp .GENERATION left_gen left_lut right_gen right_lut
        = some (spec_generation_priority left_gen left_lut right_gen right_lut)
      ∧ (left_gen ≠ right_gen →
          as_record_resolve_conflict cp .GENERATION left_gen left_lut right_gen right_lut
            = some (if right_gen > left_gen then 1 else -1))
      ∧ (left_gen = right_gen →
          as_record_resolve_conflict cp .GENERATION left_gen left_lut right_gen right_lut
            = some (if right_lut > left_lut then 1 else if right_lut < left_lut then -1 else 0))
      ∧ resolve_generation 65535 0 = 1
      ∧ as_record_resolve_conflict cp .GENERATION 65535 left_lut 0 right_lut = some (-1) := by
  refine ⟨resolve_conflict_generation_eq cp _ _ _ _, ?_, ?_, by decide, ?_⟩
  · intro h
    rw [resolve_conflict_generation_eq]
    unfold spec_generation_priority
    split_ifs <;> first | rfl | omega
  · intro h
    rw [resolve_conflict_generation_eq]
    unfold spec_generation_priority
    split_ifs <;> first | rfl | omega
  · rw [resolve_conflict_generation_eq]
    rfl

/-- Witness for C1 at left generation 65535, LUT 7 and right generation 0,
LUT 9: the generations differ, the left side wins. -/
theorem resolve_conflict_generation_priority_witness :
    as_record_resolve_conflict (fun _ _ _ _ => 0) .GENERATION 65535 7 0 9 = some (-1) := by
  have h := (resolve_conflict_generation_priority (fun _ _ _ _ => 0) 65535 7 0 9).2.1
    (by decide)
  simpa using h

/-- C2. Under the LUT-priority policy `as_record_resolve_conflict` equals the
reference `spec_lut_priority` on all inputs: LUTs that differ decide the result
alone, regardless of the generations; equal LUTs leave the decision to the
wrap-aware generation comparison (0 for equal generations, 1 when the right
generation is ahead under modulo-2^16 distance, otherwise -1). -/
theorem resolve_conflict_lut_priority
    (cp : Nat → Nat → Nat → Nat → Int) (left_gen left_lut right_gen right_lut : Nat) :
    as_record_resolve_conflict cp .LAST_UPDATE_TIME left_gen left_lut right_gen right_lut
        = some (spec_lut_priority left_gen left_lut right_gen right_lut)
      ∧ (left_lut ≠ right_lut →
          as_record_resolve_conflict cp .LAST_UPDATE_TIME left_gen left_lut right_gen right_lut
            = some (if right_lut > left_lut then 1 else -1))
      ∧ (left_lut = right_lut →
          as_record_resolve_conflict cp .LAST_UPDATE_TIME left_gen left_lut right_gen right_lut
            = some (if left_gen = right_gen then 0
                    else if 1 ≤ gen_distance left_gen right_gen ∧
                      gen_distance left_gen right_gen ≤ 32768 then 1 else -1)) := by
  refine ⟨resolve_conflict_lut_eq cp _ _ _ _, ?_, ?_⟩
  · intro h
    rw [resolve_conflict_lut_eq]
    unfold spec_lut_priority
    split_ifs <;> first | rfl | omega
  · intro h
    rw [resolve_conflict_lut_eq]
    unfold spec_lut_priority
    split_ifs <;> first | rfl | omega

/-- Witness for C2: with LUTs 7 and 9 the right side wins although its
generation is behind; with equal LUTs generation 0 is ahead of 65535. -/
theorem resolve_conflict_lut_priority_witness :
    as_record_resolve_conflict (fun _ _ _ _ => 0) .LAST_UPDATE_TIME 5 7 4 9 = some 1
      ∧ as_record_resolve_conflict (fun _ _ _ _ => 0) .LAST_UPDATE_TIME 65535 7 0 7 = some 1 := by
  have h1 := (resolve_conflict_lut_priority (fun _ _ _ _ => 0) 5 7 4 9).2.1 (by decide)
  have h2 := (resolve_conflict_lut_priority (fun _ _ _ _ => 0) 65535 7 0 7).2.2 rfl
  refine ⟨by simpa using h1, ?_⟩
  rw [h2]
  decide

/-- C3, counterexample.  Under the LUT-priority policy the resolver is not a
total order.  With equal LUTs, generations 0 and 32768 each lose to the other
(swapping the sides does not negate the result), and winning is not transitive:
20000 beats 0, 40000 beats 20000, yet 0 beats 40000. -/
theorem resolve_conflict_order_counterexample :
    ¬ (∀ (p : conflict_resolution_pol), p = .GENERATION ∨ p = .LAST_UPDATE_TIME →
        ∀ (a_gen a_lut b_gen b_lut c_gen c_lut : Nat),
          a_gen < 2 ^ 16 → b_gen < 2 ^ 16 → c_gen < 2 ^ 16 →
          (∃ x, as_record_resolve_conflict (fun _ _ _ _ => 0) p a_gen a_lut b_gen b_lut = some x ∧
            as_record_resolve_conflict (fun _ _ _ _ => 0) p b_gen b_lut a_gen a_lut = some (-x))
          ∧ (as_record_resolve_conflict (fun _ _ _ _ => 0) p a_gen a_lut b_gen b_lut = some 1 →
              as_record_resolve_conflict (fun _ _ _ _ => 0) p b_gen b_lut c_gen c_lut = some 1 →
              as_record_resolve_conflict (fun _ _ _ _ => 0) p a_gen a_lut c_gen c_lut = some 1))
      ∧ as_record_resolve_conflict (fun _ _ _ _ => 0) .LAST_UPDATE_TIME 0 7 32768 7 = some 1
      ∧ as_record_resolve_conflict (fun _ _ _ _ => 0) .LAST_UPDATE_TIME 32768 7 0 7 = some 1
      ∧ as_record_resolve_conflict (fun _ _ _ _ => 0) .LAST_UPDATE_TIME 0 7 20000 7 = some 1
      ∧ as_record_resolve_conflict (fun _ _ _ _ => 0) .LAST_UPDATE_TIME 20000 7 40000 7 = some 1
      ∧ as_record_resolve_conflict (fun _ _ _ _ => 0) .LAST_UPDATE_TIME 0 7 40000 7 = some (-1) := by
  refine ⟨?_, by decide, by decide, by decide, by decide, by decide⟩
  intro h
  have h1 := (h .LAST_UPDATE_TIME (Or.inr rfl) 0 7 20000 7 40000 7
    (by norm_num) (by norm_num) (by norm_num)).2 (by decide) (by decide)
  revert h1
  decide

/-- C3, amended.  Under the generation-priority policy the resolver is a total
order on (generation, LUT) pairs: swapping the sides negates the result and
winning is transitive.  Under the LUT-priority policy swapping the sides
negates the result for 16-bit generations unless the LUTs are equal and the
generations lie exactly 32768 apart, and winning is transitive when the three
LUTs are not all equal or the two generation steps together stay within 32768.
Under both policies the result is a function of the five inputs only. -/
theorem resolve_conflict_order
    (cp : Nat → Nat → Nat → Nat → Int) (a_gen a_lut b_gen b_lut c_gen c_lut : Nat) :
    (∃ x, as_record_resolve_conflict cp .GENERATION a_gen a_lut b_gen b_lut = some x ∧
        as_record_resolve_conflict cp .GENERATION b_gen b_lut a_gen a_lut = some (-x))
      ∧ (as_record_resolve_conflict cp .GENERATION a_gen a_lut b_gen b_lut = some 1 →
          as_record_resolve_conflict cp .GENERATION b_gen b_lut c_gen c_lut = some 1 →
          as_record_resolve_conflict cp .GENERATION a_gen a_lut c_gen c_lut = some 1)
      ∧ (a_gen < 2 ^ 16 → b_gen < 2 ^ 16 →
          (a_lut ≠ b_lut ∨ gen_distance a_gen b_gen ≠ 32768) →
          ∃ x, as_record_resolve_conflict cp .LAST_UPDATE_TIME a_gen a_lut b_gen b_lut = some x ∧
            as_record_resolve_conflict cp .LAST_UPDATE_TIME b_gen b_lut a_gen a_lut = some (-x))
      ∧ ((¬ (a_lut = b_lut ∧ b_lut = c_lut) ∨
            gen_distance a_gen b_gen + gen_distance b_gen c_gen ≤ 32768) →
          as_record_resolve_conflict cp .LAST_UPDATE_TIME a_gen a_lut b_gen b_lut = some 1 →
          as_record_resolve_conflict cp .LAST_UPDATE_TIME b_gen b_lut c_gen c_lut = some 1 →
          as_record_resolve_conflict cp .LAST_UPDATE_TIME a_gen a_lut c_gen c_lut = some 1)
      ∧ (∀ (cp' : Nat → Nat → Nat → Nat → Int) (p : conflict_resolution_pol),
          p = .GENERATION ∨ p = .LAST_UPDATE_TIME →
          as_record_resolve_conflict cp p a_gen a_lut b_gen b_lut
            = as_record_resolve_conflict cp' p a_gen a_lut b_gen b_lut) := by
  refine ⟨?_, ?_, ?_, ?_, ?_⟩
  · refine ⟨spec_generation_priority a_gen a_lut b_gen b_lut, ?_, ?_⟩
    · exact resolve_conflict_generation_eq cp _ _ _ _
    · rw [resolve_conflict_generation_eq, spec_generation_priority_swap]
  · simp only [resolve_conflict_generation_eq, Option.some.injEq,
      spec_generation_priority_eq_one]
    omega
  · intro ha hb h
    refine ⟨spec_lut_priority a_gen a_lut b_gen b_lut, ?_, ?_⟩
    · exact resolve_conflict_lut_eq cp _ _ _ _
    · rw [resolve_conflict_lut_eq, spec_lut_priority_swap a_gen a_lut b_gen b_lut ha hb h]
  · intro h
    simp only [resolve_conflict_lut_eq, Option.some.injEq, spec_lut_priority_eq_one]
    intro h1 h2
    rcases h with h | h
    · omega
    · have hd := gen_distance_add a_gen b_gen c_gen h
      omega
  · intro cp' p hp
    rcases hp with hp | hp <;> subst hp <;> rfl

/-- Witness for the amended C3 under the LUT-priority policy: with equal LUTs,
generation 10 beats 65530 and 30 beats 10, so 30 beats 65530, and 65530 loses
to 10 exactly as 10 wins against 65530. -/
theorem resolve_conflict_order_witness :
    as_record_resolve_conflict (fun _ _ _ _ => 0) .LAST_UPDATE_TIME 65530 7 30 7 = some 1
      ∧ (∃ x, as_record_resolve_conflict (fun _ _ _ _ => 0) .LAST_UPDATE_TIME 65530 7 10 7
            = some x ∧
          as_record_resolve_conflict (fun _ _ _ _ => 0) .LAST_UPDATE_TIME 10 7 65530 7
            = some (-x)) := by
  have h := resolve_conflict_order (fun _ _ _ _ => 0) 65530 7 10 7 30 7
  exact ⟨h.2.2.2.1 (Or.inr (by decide)) (by decide) (by decide),
    h.2.2.1 (by norm_num) (by norm_num) (Or.inr (by decide))⟩

/-! ## Helper lemmas: appliers and release -/

/-- Rolling back to the snapshot undoes the metadata overwrite. -/
theorem unwind_stash (rr : as_remote_record) (r : as_record) :
    unwind_index_metadata (stash_index_metadata r) (replace_index_metadata rr r) = r := by
  cases r; rfl

/-- What the metadata overwrite writes and what it keeps. -/
theorem replace_index_metadata_fields (rr : as_remote_record) (r : as_record) :
    (replace_index_metadata rr r).generation = u16 rr.generation
      ∧ (replace_index_metadata rr r).last_update_time = rr.last_update_time
      ∧ (replace_index_metadata rr r).void_time = rr.void_time
      ∧ (replace_index_metadata rr r).tree_id = r.tree_id
      ∧ (replace_index_metadata rr r).rc = r.rc
      ∧ (replace_index_metadata rr r).in_sindex = r.in_sindex
      ∧ (replace_index_metadata rr r).set_id = r.set_id
      ∧ (replace_index_metadata rr r).bins = r.bins :=
  ⟨rfl, rfl, rfl, rfl, rfl, rfl, rfl, rfl⟩

/-- Key reconciliation touches only the key fields. -/
theorem finalize_key_frame (r : as_record) (ns : as_namespace)
    (key : Option (List Nat)) (n : Nat) :
    (as_record_finalize_key r ns key n).generation = r.generation
      ∧ (as_record_finalize_key r ns key n).last_update_time = r.last_update_time
      ∧ (as_record_finalize_key r ns key n).void_time = r.void_time
      ∧ (as_record_finalize_key r ns key n).tree_id = r.tree_id
      ∧ (as_record_finalize_key r ns key n).rc = r.rc
      ∧ (as_record_finalize_key r ns key n).in_sindex = r.in_sindex
      ∧ (as_record_finalize_key r ns key n).set_id = r.set_id
      ∧ (as_record_finalize_key r ns key n).bins = r.bins := by
  unfold as_record_finalize_key as_record_allocate_key
  cases key <;> cases ns.storage_data_in_memory <;> by_cases h : r.key_stored = 0 <;> simp [h]

/-- The dispatch of `record_apply` runs the applier selected by the namespace. -/
theorem record_apply_eq_run (env : Env) (ns : as_namespace) (rr : as_remote_record)
    (rd : as_storage_rd) (w : World) :
    record_apply env ns rr rd w = (applier.select ns).run env ns rr rd w := by
  unfold record_apply applier.select applier.run
  cases ns.storage_data_in_memory <;> cases ns.single_bin <;> rfl

set_option maxHeartbeats 1000000 in
/-- What every applier does: it only appends applier calls to the log, every
write it logs carries the storage engine's result, a failure leaves the record
untouched, and success means the write succeeded and the metadata is the remote
record's. -/
theorem applier_run_spec (v : applier) (env : Env) (ns : as_namespace) (rr : as_remote_record)
    (rd : as_storage_rd) (w : World) (out : Int × World)
    (hout : v.run env ns rr rd w = out) :
    ∃ evs, out.2.trace = w.trace ++ evs
      ∧ (∀ e ∈ evs, e.isApplierCall = true)
      ∧ (∃ e ∈ evs, e.isApply = true)
      ∧ (∀ e ∈ evs, e.isStorageWrite = true →
          ∃ p s, e = .as_storage_record_write p s env.as_storage_record_write)
      ∧ (out.1 ≠ 0 → out.2.r = w.r ∧ ∀ e ∈ evs, e.isDestroyOldBins = false)
      ∧ (out.1 = 0 →
          ¬ env.as_storage_record_write < 0 ∧ (∃ e ∈ evs, e.isStorageWrite = true)
          ∧ out.2.r.generation = u16 rr.generation
          ∧ out.2.r.last_update_time = rr.last_update_time
          ∧ out.2.r.void_time = rr.void_time
          ∧ out.2.r.tree_id = w.r.tree_id
          ∧ out.2.r.rc = w.r.rc)
      ∧ ((∃ e ∈ evs, e.isStorageWrite = true) → env.as_storage_record_write < 0 →
          out.1 = - env.as_storage_record_write) := by
  subst hout
  cases v
  · unfold applier.run record_apply_dim_single_bin
    simp only [World.log]
    split_ifs <;>
      simp [Event.isApplierCall, Event.isStorageWrite, Event.isDestroyOldBins, Event.isApply,
        unwind_stash, AS_OK, replace_index_metadata_fields] <;> omega
  · unfold applier.run record_apply_dim
    simp only [World.log]
    split_ifs <;>
      simp [Event.isApplierCall, Event.isStorageWrite, Event.isDestroyOldBins, Event.isApply,
        unwind_stash, AS_OK, replace_index_metadata_fields, finalize_key_frame,
        as_index_clear_in_sindex] <;> omega
  · unfold applier.run record_apply_ssd_single_bin
    simp only [World.log]
    split_ifs <;>
      simp [Event.isApplierCall, Event.isStorageWrite, Event.isDestroyOldBins, Event.isApply,
        unwind_stash, AS_OK, replace_index_metadata_fields, finalize_key_frame] <;> omega
  · unfold applier.run record_apply_ssd
    simp only [World.log]
    split_ifs <;>
      simp [Event.isApplierCall, Event.isStorageWrite, Event.isDestroyOldBins, Event.isApply,
        unwind_stash, AS_OK, replace_index_metadata_fields, finalize_key_frame,
        as_index_clear_in_sindex] <;> omega

/-- Releasing a linked entry only unlocks it. -/
theorem as_record_done_valid (w : World) (h : as_index_is_valid_record w.r = true) :
    as_record_done w = some ((w.log .as_record_done).log .cf_mutex_unlock) := by
  simp [as_record_done, World.log, h]

/-- When `as_record_done` returns, the record's fields are as before and the
log has grown by release calls. -/
theorem as_record_done_spec (w w' : World) (h : as_record_done w = some w') :
    w'.r = w.r ∧ ∃ evs, w'.trace = w.trace ++ evs ∧
      ∀ e ∈ evs, e = .as_record_done ∨ e = .as_record_destroy ∨ e = .cf_arenax_free ∨
        e = .as_sindex_gc_record ∨ e = .cf_mutex_unlock := by
  unfold as_record_done at h
  simp only [World.log] at h
  split_ifs at h <;> simp at h <;> subst h <;> simp

/-- When `record_replace_failed` returns, the entry is unlinked exactly when it
was created by this call, and the log has grown by release calls. -/
theorem record_replace_failed_spec (has_rd is_create : Bool) (w w' : World)
    (h : record_replace_failed has_rd is_create w = some w') :
    w'.r = (if is_create then { w.r with tree_id := 0 } else w.r) ∧
    ∃ evs, w'.trace = w.trace ++ evs ∧
      ∀ e ∈ evs, e = .as_storage_record_close ∨ e = .as_index_delete ∨ e = .as_record_done ∨
        e = .as_record_destroy ∨ e = .cf_arenax_free ∨ e = .as_sindex_gc_record ∨
        e = .cf_mutex_unlock := by
  unfold record_replace_failed at h
  obtain ⟨hr, evs, ht, hev⟩ := as_record_done_spec _ _ h
  refine ⟨?_, ?_⟩
  · rw [hr]; cases is_create <;> cases has_rd <;> simp [as_index_delete, World.log]
  · cases is_create <;> cases has_rd <;>
      simp [as_index_delete, World.log] at ht ⊢ <;>
      simp [ht] <;> intro e he <;> have := hev e he <;> tauto

/-- A failure exit of the orchestrator: the result code is the one passed,
the entry is gone if this call created it and otherwise as it was, and only
release calls were logged. -/
theorem exit_failed_spec (has_rd is_create : Bool) (w : World) (c : Int) (o : Outcome)
    (h : ∃ a, record_replace_failed has_rd is_create w = some a ∧ World.outcome c a = o) :
    o.result = c ∧ o.tree = (if is_create then none else w.tree) ∧
      ∃ evs, o.trace = w.trace ++ evs ∧ ∀ e ∈ evs, e.isRelease = true := by
  obtain ⟨a, hf, rfl⟩ := h
  obtain ⟨hr, evs, ht, hev⟩ := record_replace_failed_spec _ _ _ _ hf
  refine ⟨rfl, ?_, evs, ht, ?_⟩
  · cases is_create <;> simp [World.outcome, World.tree, hr, as_index_is_valid_record]
  · intro e he
    rcases hev e he with h | h | h | h | h | h | h <;> subst h <;> rfl

/-- Release calls are neither applier calls nor notifications. -/
theorem isRelease_classes (e : Event) (h : e.isRelease = true) :
    e.isApplierCall = false ∧ e.isXdrSubmit = false ∧ e.isApply = false ∧
      e.isStorageWrite = false ∧ e.isDestroyOldBins = false ∧ e.isUnpack = false := by
  cases e <;> simp_all [Event.isRelease, Event.isApplierCall, Event.isXdrSubmit, Event.isApply,
    Event.isStorageWrite, Event.isDestroyOldBins, Event.isUnpack]

/-- Applier calls are not notifications. -/
theorem isApplierCall_classes (e : Event) (h : e.isApplierCall = true) :
    e.isXdrSubmit = false ∧ e.isRelease = false := by
  cases e <;> simp_all [Event.isRelease, Event.isApplierCall, Event.isXdrSubmit]

/-- The two ways `replace_write` returns: the applier failed or the remote
record was committed. -/
theorem replace_write_cases (env : Env) (ns : as_namespace) (rr : as_remote_record)
    (is_create : Bool) (w : World) (o : Outcome)
    (h : replace_write env ns rr is_create w = some o) :
    ∃ evs, o.trace = w.trace ++ evs ∧ replace_exit env rr is_create w.tree w.r.tree_id o evs := by
  unfold replace_exit
  unfold replace_write at h
  simp only [record_apply_eq_run] at h
  generalize hout : applier.run (applier.select ns) env ns _ _ _ = out at h
  obtain ⟨evs, ht, hcall, happ, hwr, hfail, hok, hneg⟩ := applier_run_spec _ _ _ _ _ _ _ hout
  by_cases hres : out.1 = 0
  · simp only [hres, ne_eq, not_true_eq_false, if_false] at h
    obtain ⟨hnw, hw1, hg, hl, hv, htid, hrc⟩ := hok hres
    split at h
    · cases h
    · rename_i w1 hd
      obtain ⟨hr1, evs1, ht1, hev1⟩ := as_record_done_spec _ _ hd
      have hrel : ∀ e ∈ evs1, e.isRelease = true := by
        intro e he
        rcases hev1 e he with h | h | h | h | h <;> subst h <;> rfl
      cases h
      by_cases hvia : rr.via = .VIA_REPLICATION
      · refine ⟨[if is_create then Event.as_storage_record_create else .as_storage_record_open]
          ++ evs ++ [.record_replaced, .as_xdr_get_submit_info
              (as_xdr_get_submit_info out.2.r w.r.last_update_time), .as_storage_record_close]
          ++ evs1 ++ [.as_xdr_submit (as_xdr_get_submit_info out.2.r w.r.last_update_time)],
          ?_, Or.inr (Or.inr ⟨?_, hnw, ?_, ?_, out.2.r, ?_, hg, hl, hv, ?_⟩)⟩
        · simp only [hvia, if_true] at ht1 ⊢
          simp only [World.outcome, World.log, ht1, ht]
          cases is_create <;> simp [World.log]
        · rfl
        · obtain ⟨e, he, hp⟩ := happ
          exact ⟨e, by simp [he], hp⟩
        · intro e he hs
          simp only [List.mem_append, List.mem_cons, List.mem_singleton, List.not_mem_nil,
            or_false] at he
          rcases he with (((he | he) | he) | he) | he
          · cases is_create <;> simp at he <;> subst he <;> simp [Event.isStorageWrite] at hs
          · exact hwr e he hs
          · rcases he with he | he | he <;> subst he <;> simp [Event.isStorageWrite] at hs
          · have := (isRelease_classes e (hrel e he)).2.2.2.1
            rw [this] at hs; cases hs
          · subst he; simp [Event.isStorageWrite] at hs
        · simp only [hvia, if_true] at hr1 ⊢
          simp [World.outcome, World.tree, World.log, hr1]
        · rw [htid]; cases is_create <;> simp [World.log]
      · refine ⟨[if is_create then Event.as_storage_record_create else .as_storage_record_open]
          ++ evs ++ [.record_replaced, .as_storage_record_close] ++ evs1,
          ?_, Or.inr (Or.inr ⟨?_, hnw, ?_, ?_, out.2.r, ?_, hg, hl, hv, ?_⟩)⟩
        · simp only [hvia, if_false] at ht1 ⊢
          simp only [World.outcome, World.log, ht1, ht]
          cases is_create <;> simp [World.log]
        · simp only [hvia, if_false]; rfl
        · obtain ⟨e, he, hp⟩ := happ
          exact ⟨e, by simp [he], hp⟩
        · intro e he hs
          simp only [List.mem_append, List.mem_cons, List.mem_singleton, List.not_mem_nil,
            or_false] at he
          rcases he with ((he | he) | he) | he
          · cases is_create <;> simp at he <;> subst he <;> simp [Event.isStorageWrite] at hs
          · exact hwr e he hs
          · rcases he with he | he <;> subst he <;> simp [Event.isStorageWrite] at hs
          · have := (isRelease_classes e (hrel e he)).2.2.2.1
            rw [this] at hs; cases hs
        · simp only [hvia, if_false] at hr1 ⊢
          simp [World.outcome, World.tree, World.log, hr1]
        · rw [htid]; cases is_create <;> simp [World.log]
  · simp only [ne_eq, hres, not_false_eq_true, if_true, Option.map_eq_some'] at h
    obtain ⟨hr, htree, evs2, ht2, hev2⟩ := exit_failed_spec _ _ _ _ _ h
    refine ⟨[if is_create then Event.as_storage_record_create else .as_storage_record_open]
      ++ evs ++ evs2, ?_, Or.inr (Or.inl ⟨?_, ?_, ?_, ?_, ?_⟩)⟩
    · rw [ht2, ht]; cases is_create <;> simp [World.log]
    · rw [hr]; exact hres
    · rw [htree, World.tree, (hfail hres).1]; cases is_create <;> simp [World.tree, World.log]
    · intro e he
      simp only [List.mem_append, List.mem_cons, List.mem_singleton, List.not_mem_nil,
        or_false] at he
      rcases he with (he | he) | he
      · cases is_create <;> simp at he <;> subst he <;>
          simp [Event.isXdrSubmit, Event.isDestroyOldBins]
      · exact ⟨(isApplierCall_classes e (hcall e he)).1, (hfail hres).2 e he⟩
      · have := isRelease_classes e (hev2 e he)
        exact ⟨this.2.1, this.2.2.2.2.1⟩
    · intro e he hs
      simp only [List.mem_append, List.mem_cons, List.mem_singleton, List.not_mem_nil,
        or_false] at he
      rcases he with (he | he) | he
      · cases is_create <;> simp at he <;> subst he <;> simp [Event.isStorageWrite] at hs
      · exact hwr e he hs
      · have := (isRelease_classes e (hev2 e he)).2.2.2.1
        rw [this] at hs; cases hs
    · rintro ⟨e, he, hs⟩ hlt
      rw [hr]
      apply hneg _ hlt
      simp only [List.mem_append, List.mem_cons, List.mem_singleton, List.not_mem_nil,
        or_false] at he
      rcases he with (he | he) | he
      · cases is_create <;> simp at he <;> subst he <;> simp [Event.isStorageWrite] at hs
      · exact ⟨e, he, hs⟩
      · have := (isRelease_classes e (hev2 e he)).2.2.2.1
        rw [this] at hs; cases hs

/-- Applier entries, storage writes and destruction of the record's bins are
applier calls. -/
theorem not_isApplierCall_classes (e : Event) (h : e.isApplierCall = false) :
    e.isApply = false ∧ e.isStorageWrite = false ∧ e.isDestroyOldBins = false ∧
      e.isUnpack = false := by
  cases e <;> simp_all [Event.isApplierCall, Event.isApply, Event.isStorageWrite,
    Event.isDestroyOldBins, Event.isUnpack]

/-- Calls logged before the part described by `replace_exit`, none of them an
applier call or a notification, do not change the way it returned. -/
theorem replace_exit_prepend (env : Env) (rr : as_remote_record) (is_create : Bool)
    (tree0 : Option as_record) (tid : Nat) (o : Outcome) (pre evs : List Event)
    (hpre : ∀ e ∈ pre, e.isApplierCall = false ∧ e.isXdrSubmit = false)
    (h : replace_exit env rr is_create tree0 tid o evs) :
    replace_exit env rr is_create tree0 tid o (pre ++ evs) := by
  unfold replace_exit at h ⊢
  rcases h with ⟨h1, h2⟩ | ⟨h1, h2, h3, h4, h5⟩ | ⟨h1, h2, h3, h4, h5⟩
  · refine Or.inl ⟨?_, h2⟩
    intro e he
    rcases List.mem_append.1 he with he | he
    · exact hpre e he
    · exact h1 e he
  · refine Or.inr (Or.inl ⟨h1, h2, ?_, ?_, ?_⟩)
    · intro e he
      rcases List.mem_append.1 he with he | he
      · exact ⟨(hpre e he).2, (not_isApplierCall_classes e (hpre e he).1).2.2.1⟩
      · exact h3 e he
    · intro e he hs
      rcases List.mem_append.1 he with he | he
      · rw [(not_isApplierCall_classes e (hpre e he).1).2.1] at hs; cases hs
      · exact h4 e he hs
    · rintro ⟨e, he, hs⟩ hlt
      apply h5 _ hlt
      rcases List.mem_append.1 he with he | he
      · rw [(not_isApplierCall_classes e (hpre e he).1).2.1] at hs; cases hs
      · exact ⟨e, he, hs⟩
  · refine Or.inr (Or.inr ⟨h1, h2, ?_, ?_, h5⟩)
    · obtain ⟨e, he, hp⟩ := h3
      exact ⟨e, List.mem_append.2 (Or.inr he), hp⟩
    · intro e he hs
      rcases List.mem_append.1 he with he | he
      · rw [(not_isApplierCall_classes e (hpre e he).1).2.1] at hs; cases hs
      · exact h4 e he hs

/-- A failure exit before the applier is a `replace_exit`. -/
theorem replace_exit_of_failed (env : Env) (rr : as_remote_record) (is_create : Bool)
    (w : World) (c : Int) (o : Outcome)
    (h : ∃ a, record_replace_failed false is_create w = some a ∧ World.outcome c a = o) :
    o.result = c ∧
      ∃ evs, o.trace = w.trace ++ evs ∧ (∀ e ∈ evs, e.isRelease = true) ∧
        replace_exit env rr is_create w.tree w.r.tree_id o evs := by
  obtain ⟨hr, htree, evs, ht, hev⟩ := exit_failed_spec _ _ _ _ _ h
  refine ⟨hr, evs, ht, hev, Or.inl ⟨?_, htree⟩⟩
  intro e he
  exact ⟨(isRelease_classes e (hev e he)).1, (isRelease_classes e (hev e he)).2.1⟩

/-- The ways `replace_fix_padded` returns. -/
theorem replace_fix_padded_cases (env : Env) (ns : as_namespace) (rr : as_remote_record)
    (is_create : Bool) (w : World) (o : Outcome)
    (h : replace_fix_padded env ns rr is_create w = some o) :
    ∃ evs, o.trace = w.trace ++ evs ∧ replace_exit env rr is_create w.tree w.r.tree_id o evs := by
  by_cases hfix : rr.via ≠ .VIA_REPLICATION ∧ ns.storage_type = .AS_STORAGE_ENGINE_SSD ∧
      env.as_exchange_min_compatibility_id < 11
  · by_cases hfixed : env.as_flat_fix_padded_rr.isNone
    · simp [replace_fix_padded, hfix, hfixed] at h
      obtain ⟨-, evs, ht, -, hex⟩ := replace_exit_of_failed env rr _ _ _ _ h
      refine ⟨[.as_flat_fix_padded_rr env.as_flat_fix_padded_rr.isSome] ++ evs,
        by simp [ht, World.log], ?_⟩
      exact replace_exit_prepend _ _ _ _ _ _ _ _
        (by simp [Event.isApplierCall, Event.isXdrSubmit]) hex
    · simp [replace_fix_padded, hfix, hfixed] at h
      obtain ⟨evs, ht, hex⟩ := replace_write_cases _ _ _ _ _ _ h
      refine ⟨[.as_flat_fix_padded_rr env.as_flat_fix_padded_rr.isSome] ++ evs,
        by simp [ht, World.log], ?_⟩
      exact replace_exit_prepend _ _ _ _ _ _ _ _
        (by simp [Event.isApplierCall, Event.isXdrSubmit]) hex
  · have h' : replace_write env ns rr is_create w = some o := by
      simpa [replace_fix_padded, hfix] using h
    exact replace_write_cases _ _ _ _ _ _ h'

/-- The three ways `replace_apply` returns: before the applier is entered, with
a failed applier, or with the remote record committed. -/
theorem replace_apply_cases (env : Env) (ns : as_namespace) (rr : as_remote_record)
    (is_create : Bool) (w : World) (o : Outcome)
    (h : replace_apply env ns rr is_create w = some o) :
    ∃ evs, o.trace = w.trace ++ evs ∧ replace_exit env rr is_create w.tree w.r.tree_id o evs := by
  cases is_create
  · have h' : replace_fix_padded env ns rr false w = some o := by
      simpa [replace_apply] using h
    exact replace_fix_padded_cases _ _ _ _ _ _ h'
  · cases hs : rr.set_name
    · simp only [replace_apply, hs, Option.isSome_none, Bool.false_eq_true, and_false,
        false_and, if_false, if_true, true_and] at h
      split_ifs at h with htr
      · simp only [Option.map_eq_some'] at h
        obtain ⟨-, evs, ht, -, hex⟩ := replace_exit_of_failed env rr _ _ _ _ h
        refine ⟨[.as_truncate_record_is_truncated
          (env.as_truncate_record_is_truncated
            { w.r with last_update_time := rr.last_update_time })] ++ evs,
          by simp [ht, World.log], ?_⟩
        exact replace_exit_prepend _ _ _ _ _ _ _ _
          (by simp [Event.isApplierCall, Event.isXdrSubmit]) hex
      · obtain ⟨evs, ht, hex⟩ := replace_fix_padded_cases _ _ _ _ _ _ h
        refine ⟨[.as_truncate_record_is_truncated
          (env.as_truncate_record_is_truncated
            { w.r with last_update_time := rr.last_update_time })] ++ evs,
          by simp [ht, World.log], ?_⟩
        exact replace_exit_prepend _ _ _ _ _ _ _ _
          (by simp [Event.isApplierCall, Event.isXdrSubmit]) hex
    · simp only [replace_apply, hs, Option.isSome_some, and_self, and_true, true_and,
        if_true] at h
      split_ifs at h with hset htr
      · simp only [Option.map_eq_some'] at h
        obtain ⟨-, evs, ht, -, hex⟩ := replace_exit_of_failed env rr _ _ _ _ h
        refine ⟨[.as_index_set_set_w_len env.as_index_set_set_w_len.1] ++ evs,
          by simp [ht, World.log], ?_⟩
        exact replace_exit_prepend _ _ _ _ _ _ _ _
          (by simp [Event.isApplierCall, Event.isXdrSubmit]) hex
      · simp only [Option.map_eq_some'] at h
        obtain ⟨-, evs, ht, -, hex⟩ := replace_exit_of_failed env rr _ _ _ _ h
        refine ⟨[.as_index_set_set_w_len env.as_index_set_set_w_len.1,
          .as_truncate_record_is_truncated
            (env.as_truncate_record_is_truncated
              { w.r with set_id := env.as_index_set_set_w_len.2,
                         last_update_time := rr.last_update_time })] ++ evs,
          by simp [ht, World.log], ?_⟩
        exact replace_exit_prepend _ _ _ _ _ _ _ _
          (by simp [Event.isApplierCall, Event.isXdrSubmit]) hex
      · obtain ⟨evs, ht, hex⟩ := replace_fix_padded_cases _ _ _ _ _ _ h
        refine ⟨[.as_index_set_set_w_len env.as_index_set_set_w_len.1,
          .as_truncate_record_is_truncated
            (env.as_truncate_record_is_truncated
              { w.r with set_id := env.as_index_set_set_w_len.2,
                         last_update_time := rr.last_update_time })] ++ evs,
          by simp [ht, World.log], ?_⟩
        exact replace_exit_prepend _ _ _ _ _ _ _ _
          (by simp [Event.isApplierCall, Event.isXdrSubmit]) hex

/-- A failure exit taken before any applier call leaves a log without applier
calls. -/
theorem quiet_of_failed (is_create : Bool) (w : World) (c : Int) (o : Outcome)
    (h : ∃ a, record_replace_failed false is_create w = some a ∧ World.outcome c a = o)
    (hw : ∀ e ∈ w.trace, e.isApplierCall = false) :
    (∀ e ∈ o.trace, e.isApplierCall = false) ∧
      o.tree = (if is_create then none else w.tree) := by
  obtain ⟨-, htree, evs, ht, hev⟩ := exit_failed_spec _ _ _ _ _ h
  refine ⟨?_, htree⟩
  intro e he
  rw [ht] at he
  rcases List.mem_append.1 he with he | he
  · exact hw e he
  · exact (isRelease_classes e (hev e he)).1

/-- The ways `replace_resolve` returns: the local record wins or ties (no
applier call, the entry as it was), or the remote record goes on to
`replace_apply`. -/
theorem replace_resolve_cases (env : Env) (ns : as_namespace) (rr : as_remote_record)
    (policy : conflict_resolution_pol) (w : World) (o : Outcome)
    (hw : ∀ e ∈ w.trace, e.isApplierCall = false ∧ e.isXdrSubmit = false)
    (h : replace_resolve env ns rr policy w = some o) :
    ((∀ e ∈ o.trace, e.isApplierCall = false) ∧ o.tree = w.tree)
    ∨ replace_exit env rr false w.tree w.r.tree_id o o.trace := by
  unfold replace_resolve at h
  simp only at h
  generalize as_record_resolve_conflict env.record_resolve_conflict_cp policy
    w.r.generation w.r.last_update_time (u16 rr.generation) rr.last_update_time = res at h
  cases res with
  | none => simp at h
  | some x =>
    simp only at h
    by_cases h1 : x ≤ 0
    · by_cases h2 : rr.via ≠ .VIA_REPLICATION ∨ x < 0
      · simp only [h1, h2, if_true, Option.map_eq_some'] at h
        left
        have := quiet_of_failed _ _ _ _ h (by
          intro e he
          simp only [World.log, List.mem_append, List.mem_singleton] at he
          rcases he with he | he
          · exact (hw e he).1
          · subst he; rfl)
        simpa [World.tree, World.log] using this
      · simp only [h1, h2, if_true, if_false] at h
        left
        split at h
        · cases h
        · rename_i w' hf
          cases h
          obtain ⟨hr, evs, ht, hev⟩ := record_replace_failed_spec _ _ _ _ hf
          refine ⟨?_, ?_⟩
          · intro e he
            simp only [World.outcome, World.log, ht, List.mem_append, List.mem_singleton] at he
            rcases he with (((he | he) | he) | he) | he
            · exact (hw e he).1
            · subst he; rfl
            · subst he; rfl
            · rcases hev e he with h | h | h | h | h | h | h <;> subst h <;> rfl
            · subst he; rfl
          · simp [World.outcome, World.tree, World.log, hr]
    · simp only [h1, if_false] at h
      right
      obtain ⟨evs, ht, hex⟩ := replace_apply_cases _ _ _ _ _ _ h
      rw [ht]
      refine replace_exit_prepend _ _ _ _ _ _ _ _ ?_ hex
      intro e he
      simp only [World.log, List.mem_append, List.mem_singleton] at he
      rcases he with he | he
      · exact hw e he
      · subst he; exact ⟨rfl, rfl⟩

/-- The ways `as_record_replace_if_better` returns: without entering an applier,
the entry left as it was; or through `replace_apply` on the entry found
(`is_create` false) or created (`is_create` true). -/
theorem replace_if_better_cases (env : Env) (ns : as_namespace) (tree : Option as_record)
    (rr : as_remote_record) (o : Outcome)
    (h : as_record_replace_if_better env ns tree rr = some o) :
    ((∀ e ∈ o.trace, e.isApplierCall = false) ∧
        o.tree = tree.bind (fun r => World.tree ⟨r, []⟩))
    ∨ ∃ is_create r0,
        ((is_create = true ∧ tree = none ∧ r0.tree_id = as_index_new.tree_id) ∨
          (is_create = false ∧ tree = some r0)) ∧
        replace_exit env rr is_create (World.tree ⟨r0, []⟩) r0.tree_id o o.trace := by
  cases tree with
  | none =>
    by_cases hsp : env.arena_has_space = true
    · by_cases hvia : rr.via = .VIA_REPLICATION
      · by_cases hsrc : env.as_partition_check_source.1 = AS_OK
        · simp [as_record_replace_if_better, as_record_get_create, as_index_get_insert_vlock,
            hsp, hvia, hsrc, World.log] at h
          right
          obtain ⟨evs, ht, hex⟩ := replace_apply_cases _ _ _ _ _ _ h
          refine ⟨true, as_index_new, Or.inl ⟨rfl, rfl, rfl⟩, ?_⟩
          rw [ht]
          exact replace_exit_prepend _ _ _ _ _ _ _ _
            (by simp [Event.isApplierCall, Event.isXdrSubmit]) hex
        · simp [as_record_replace_if_better, as_record_get_create, as_index_get_insert_vlock,
            hsp, hvia, hsrc, World.log] at h
          left
          have := quiet_of_failed _ _ _ _ h (by simp [Event.isApplierCall])
          simpa using this
      · simp [as_record_replace_if_better, as_record_get_create, as_index_get_insert_vlock,
          hsp, hvia, World.log] at h
        right
        obtain ⟨evs, ht, hex⟩ := replace_apply_cases _ _ _ _ _ _ h
        refine ⟨true, as_index_new, Or.inl ⟨rfl, rfl, rfl⟩, ?_⟩
        rw [ht]
        exact replace_exit_prepend _ _ _ _ _ _ _ _
          (by simp [Event.isApplierCall, Event.isXdrSubmit]) hex
    · simp [as_record_replace_if_better, as_record_get_create, as_index_get_insert_vlock,
        hsp] at h
      left
      subst h
      simp [Event.isApplierCall]
  | some r =>
    by_cases hchk : env.record_replace_check r < 0
    · by_cases hvia : rr.via = .VIA_REPLICATION
      · by_cases hsrc : env.as_partition_check_source.1 = AS_OK
        · simp [as_record_replace_if_better, as_record_get_create, as_index_get_insert_vlock,
            hvia, hsrc, hchk, World.log] at h
          left
          have := quiet_of_failed _ _ _ _ h (by simp [Event.isApplierCall])
          simpa [World.tree] using this
        · simp [as_record_replace_if_better, as_record_get_create, as_index_get_insert_vlock,
            hvia, hsrc, World.log] at h
          left
          have := quiet_of_failed _ _ _ _ h (by simp [Event.isApplierCall])
          simpa [World.tree] using this
      · simp [as_record_replace_if_better, as_record_get_create, as_index_get_insert_vlock,
          hvia, hchk, World.log] at h
        left
        have := quiet_of_failed _ _ _ _ h (by simp [Event.isApplierCall])
        simpa [World.tree] using this
    · by_cases hvia : rr.via = .VIA_REPLICATION
      · by_cases hsrc : env.as_partition_check_source.1 = AS_OK
        · simp [as_record_replace_if_better, as_record_get_create, as_index_get_insert_vlock,
            hvia, hsrc, hchk, World.log] at h
          rcases replace_resolve_cases _ _ _ _ _ _
            (by simp [Event.isApplierCall, Event.isXdrSubmit]) h with hq | hq
          · left; simpa [World.tree] using hq
          · right; exact ⟨false, r, Or.inr ⟨rfl, rfl⟩, hq⟩
        · simp [as_record_replace_if_better, as_record_get_create, as_index_get_insert_vlock,
            hvia, hsrc, World.log] at h
          left
          have := quiet_of_failed _ _ _ _ h (by simp [Event.isApplierCall])
          simpa [World.tree] using this
      · simp [as_record_replace_if_better, as_record_get_create, as_index_get_insert_vlock,
          hvia, hchk, World.log] at h
        rcases replace_resolve_cases _ _ _ _ _ _
          (by simp [Event.isApplierCall, Event.isXdrSubmit]) h with hq | hq
        · left; simpa [World.tree] using hq
        · right; exact ⟨false, r, Or.inr ⟨rfl, rfl⟩, hq⟩

/-! ## Helper lemmas: the orchestrator returns -/

/-- The resolver crashes only on an invalid policy. -/
theorem resolve_conflict_isSome (cp : Nat → Nat → Nat → Nat → Int)
    (p : conflict_resolution_pol) (hp : p ≠ .INVALID) (a b c d : Nat) :
    ∃ x, as_record_resolve_conflict cp p a b c d = some x := by
  cases p
  · exact ⟨_, resolve_conflict_generation_eq cp a b c d⟩
  · exact ⟨_, resolve_conflict_lut_eq cp a b c d⟩
  · exact ⟨_, rfl⟩
  · exact absurd rfl hp

/-- The failure exit returns when the entry is linked and, if it was created by
this call, is neither reserved nor in a secondary index. -/
theorem record_replace_failed_total (has_rd is_create : Bool) (w : World)
    (hv : as_index_is_valid_record w.r = true)
    (hc : is_create = true → w.r.rc = 0 ∧ w.r.in_sindex = 0) :
    (record_replace_failed has_rd is_create w).isSome = true := by
  cases is_create
  · cases has_rd <;>
      simp [record_replace_failed, as_record_done, World.log, hv]
  · obtain ⟨h1, h2⟩ := hc rfl
    cases has_rd <;>
      simp [record_replace_failed, as_record_done, as_index_delete, World.log,
        as_index_is_valid_record, h1, h2]

/-- The apply-and-commit part returns. -/
theorem replace_write_total (env : Env) (ns : as_namespace) (rr : as_remote_record)
    (is_create : Bool) (w : World)
    (hv : as_index_is_valid_record w.r = true)
    (hc : is_create = true → w.r.rc = 0 ∧ w.r.in_sindex = 0) :
    (replace_write env ns rr is_create w).isSome = true := by
  unfold replace_write
  simp only [record_apply_eq_run]
  generalize hout : applier.run (applier.select ns) env ns _ _ _ = out
  obtain ⟨evs, ht, hcall, happ, hwr, hfail, hok, hneg⟩ := applier_run_spec _ _ _ _ _ _ _ hout
  by_cases hres : out.1 = 0
  · obtain ⟨-, -, -, -, -, htid, -⟩ := hok hres
    have hv2 : as_index_is_valid_record out.2.r = true := by
      have : out.2.r.tree_id = w.r.tree_id := by
        rw [htid]; cases is_create <;> simp [World.log]
      simpa [as_index_is_valid_record, this] using hv
    simp only [hres, ne_eq, not_true_eq_false, if_false]
    rw [as_record_done_valid _ (by
      by_cases hvia : rr.via = .VIA_REPLICATION <;> simpa [hvia, World.log] using hv2)]
    rfl
  · have hr : out.2.r = w.r := by
      rw [(hfail hres).1]; cases is_create <;> simp [World.log]
    simp only [ne_eq, hres, not_false_eq_true, if_true, Option.isSome_map']
    exact record_replace_failed_total true is_create out.2
      (by rw [hr]; exact hv) (by rw [hr]; exact hc)

/-- The padding-fix part returns. -/
theorem replace_fix_padded_total (env : Env) (ns : as_namespace) (rr : as_remote_record)
    (is_create : Bool) (w : World)
    (hv : as_index_is_valid_record w.r = true)
    (hc : is_create = true → w.r.rc = 0 ∧ w.r.in_sindex = 0) :
    (replace_fix_padded env ns rr is_create w).isSome = true := by
  unfold replace_fix_padded
  simp only
  split_ifs
  all_goals first
    | exact replace_write_total _ _ _ _ _ hv hc
    | (simp only [Option.isSome_map']
       exact record_replace_failed_total false is_create _ hv hc)

/-- The part handling a winning remote record returns. -/
theorem replace_apply_total (env : Env) (ns : as_namespace) (rr : as_remote_record)
    (is_create : Bool) (w : World)
    (hv : as_index_is_valid_record w.r = true)
    (hc : is_create = true → w.r.rc = 0 ∧ w.r.in_sindex = 0) :
    (replace_apply env ns rr is_create w).isSome = true := by
  cases is_create
  · simp only [replace_apply, Bool.false_eq_true, false_and, if_false]
    exact replace_fix_padded_total _ _ _ _ _ hv hc
  · obtain ⟨h1, h2⟩ := hc rfl
    unfold replace_apply
    simp only [true_and, if_true]
    split_ifs
    all_goals first
      | (apply replace_fix_padded_total
         · simpa [as_index_is_valid_record, World.log] using hv
         · intro _; simp [World.log, h1, h2])
      | (simp only [Option.isSome_map']
         apply record_replace_failed_total
         · simpa [as_index_is_valid_record, World.log] using hv
         · intro _; simp [World.log, h1, h2])

/-- The conflict-resolution part returns for a linked entry under a valid
policy. -/
theorem replace_resolve_total (env : Env) (ns : as_namespace) (rr : as_remote_record)
    (policy : conflict_resolution_pol) (w : World)
    (hv : as_index_is_valid_record w.r = true) (hp : policy ≠ .INVALID) :
    (replace_resolve env ns rr policy w).isSome = true := by
  obtain ⟨x, hx⟩ := resolve_conflict_isSome env.record_resolve_conflict_cp policy hp
    w.r.generation w.r.last_update_time (u16 rr.generation) rr.last_update_time
  unfold replace_resolve
  simp only [hx]
  split_ifs
  all_goals first
    | exact replace_apply_total _ _ _ _ _ hv (by simp)
    | (simp only [Option.isSome_map']
       exact record_replace_failed_total false false _ hv (by simp))
    | simp [record_replace_failed, as_record_done_valid, World.log, hv]

/-- The orchestrator returns whenever an entry found in the index is linked and
the policy used to resolve against it is valid. -/
theorem replace_if_better_total (env : Env) (ns : as_namespace) (tree : Option as_record)
    (rr : as_remote_record)
    (hvalid : ∀ r, tree = some r → as_index_is_valid_record r = true)
    (hpol : tree ≠ none →
      (if rr.via = .VIA_REPLICATION then env.repl_write_conflict_resolution_policy
       else ns.conflict_resolution_policy) ≠ .INVALID) :
    (as_record_replace_if_better env ns tree rr).isSome = true := by
  cases tree with
  | none =>
    unfold as_record_replace_if_better
    simp only [as_record_get_create, as_index_get_insert_vlock]
    by_cases hsp : env.arena_has_space = true
    · simp only [hsp, if_true, World.log]
      simp only [show ¬ ((1 : Int) < 0) by decide, if_false, decide_True, if_true]
      split_ifs
      all_goals first
        | (apply replace_apply_total
           · rfl
           · intro _; exact ⟨rfl, rfl⟩)
        | (simp only [Option.isSome_map']
           apply record_replace_failed_total
           · rfl
           · intro _; exact ⟨rfl, rfl⟩)
    · simp [hsp]
  | some r =>
    have hv := hvalid r rfl
    have hp := hpol (by simp)
    unfold as_record_replace_if_better
    simp only [as_record_get_create, as_index_get_insert_vlock, World.log]
    simp only [show ¬ ((0 : Int) < 0) by decide, show ¬ ((0 : Int) = 1) by decide, if_false,
      decide_False, Bool.false_eq_true, not_false_eq_true, true_and]
    split_ifs at hp ⊢
    all_goals first
      | exact replace_resolve_total _ _ _ _ _ hv hp
      | (simp only [Option.isSome_map']
         exact record_replace_failed_total false false _ hv (by simp))

/-! ## Theorems: local record wins or ties -/

/-- C4. A remote record of migration or duplicate-resolution origin arrives for
an existing (linked), replaceable local record and the conflict resolver
returns Tie: `as_record_replace_if_better` returns `AS_ERR_RECORD_EXISTS`,
enters no applier, issues no storage write, does not delete the index entry and
leaves the entry as it was; the calls it makes are the lookup, the resolver and
the release of the reference. -/
theorem replace_tie_non_replication
    (env : Env) (ns : as_namespace) (r : as_record) (rr : as_remote_record)
    (hvia : rr.via ≠ .VIA_REPLICATION)
    (hvalid : as_index_is_valid_record r = true)
    (hcheck : ¬ env.record_replace_check r < 0)
    (htie : as_record_resolve_conflict env.record_resolve_conflict_cp
      ns.conflict_resolution_policy r.generation r.last_update_time (u16 rr.generation)
      rr.last_update_time = some 0) :
    ∃ o, as_record_replace_if_better env ns (some r) rr = some o
      ∧ o.result = AS_ERR_RECORD_EXISTS
      ∧ (∀ e ∈ o.trace, e.isApply = false ∧ e.isStorageWrite = false)
      ∧ Event.as_index_delete ∉ o.trace
      ∧ o.tree = some r
      ∧ o.trace = [.as_index_get_insert_vlock 0, .as_record_resolve_conflict (some 0),
          .as_record_done, .cf_mutex_unlock] := by
  refine ⟨{ result := AS_ERR_RECORD_EXISTS, tree := some r,
            trace := [.as_index_get_insert_vlock 0, .as_record_resolve_conflict (some 0),
              .as_record_done, .cf_mutex_unlock] }, ?_, rfl, ?_, ?_, rfl, rfl⟩
  · simp [as_record_replace_if_better, replace_resolve, as_record_get_create,
      as_index_get_insert_vlock, hvia,
      hcheck, htie, record_replace_failed, as_record_done, World.log, hvalid, World.outcome,
      World.tree]
  · simp [Event.isApply, Event.isStorageWrite]
  · simp

/-- Witness for C4, scenario A: local generation 5, LUT 100; remote generation
5, LUT 100 of migration origin under the generation-priority policy. -/
theorem replace_tie_non_replication_witness :
    as_record_resolve_conflict Env.sample.record_resolve_conflict_cp .GENERATION 5 100
        (u16 5) 100 = some 0
      ∧ ∃ o, as_record_replace_if_better Env.sample (sample_ns .GENERATION true false)
          (some (sample_record 5 100)) (sample_remote .VIA_MIGRATION 5 100) = some o
        ∧ o.result = AS_ERR_RECORD_EXISTS
        ∧ (∀ e ∈ o.trace, e.isApply = false ∧ e.isStorageWrite = false)
        ∧ Event.as_index_delete ∉ o.trace
        ∧ o.tree = some (sample_record 5 100)
        ∧ o.trace = [.as_index_get_insert_vlock 0, .as_record_resolve_conflict (some 0),
            .as_record_done, .cf_mutex_unlock] :=
  ⟨by decide,
   replace_tie_non_replication Env.sample (sample_ns .GENERATION true false)
     (sample_record 5 100) (sample_remote .VIA_MIGRATION 5 100)
     (by decide) (by decide) (by decide) (by decide)⟩

/-- C5, counterexample.  Local generation 5, LUT 100; remote generation 4, LUT
100 of migration origin under the generation-priority policy: the resolver
reports that the local record wins (-1) and `as_record_replace_if_better`
returns `AS_ERR_GENERATION`, not `AS_ERR_RECORD_EXISTS`. -/
theorem replace_local_wins_non_replication_counterexample :
    as_record_resolve_conflict Env.sample.record_resolve_conflict_cp .GENERATION 5 100
        (u16 4) 100 = some (-1)
      ∧ (as_record_replace_if_better Env.sample (sample_ns .GENERATION true false)
          (some (sample_record 5 100)) (sample_remote .VIA_MIGRATION 4 100)).map
            Outcome.result = some AS_ERR_GENERATION
      ∧ ¬ ∃ o, as_record_replace_if_better Env.sample (sample_ns .GENERATION true false)
          (some (sample_record 5 100)) (sample_remote .VIA_MIGRATION 4 100) = some o
        ∧ o.result = AS_ERR_RECORD_EXISTS := by
  have h : as_record_replace_if_better Env.sample (sample_ns .GENERATION true false)
      (some (sample_record 5 100)) (sample_remote .VIA_MIGRATION 4 100) = some
        { result := AS_ERR_GENERATION, tree := some (sample_record 5 100),
          trace := [.as_index_get_insert_vlock 0, .as_record_resolve_conflict (some (-1)),
            .as_record_done, .cf_mutex_unlock] } := by decide
  refine ⟨by decide, by rw [h]; rfl, ?_⟩
  rintro ⟨o, ho, hres⟩
  rw [h] at ho
  cases ho
  revert hres
  decide

/-- C5, amended.  A remote record of migration or duplicate-resolution origin
arrives for an existing (linked), replaceable local record and the conflict
resolver reports that the local record wins (-1): `as_record_replace_if_better`
fails with `AS_ERR_GENERATION`, enters no applier, issues no storage write and
leaves the entry as it was. -/
theorem replace_local_wins_non_replication
    (env : Env) (ns : as_namespace) (r : as_record) (rr : as_remote_record)
    (hvia : rr.via ≠ .VIA_REPLICATION)
    (hvalid : as_index_is_valid_record r = true)
    (hcheck : ¬ env.record_replace_check r < 0)
    (hlocal : as_record_resolve_conflict env.record_resolve_conflict_cp
      ns.conflict_resolution_policy r.generation r.last_update_time (u16 rr.generation)
      rr.last_update_time = some (-1)) :
    ∃ o, as_record_replace_if_better env ns (some r) rr = some o
      ∧ o.result = AS_ERR_GENERATION
      ∧ (∀ e ∈ o.trace, e.isApply = false ∧ e.isStorageWrite = false)
      ∧ o.tree = some r
      ∧ o.trace = [.as_index_get_insert_vlock 0, .as_record_resolve_conflict (some (-1)),
          .as_record_done, .cf_mutex_unlock] := by
  refine ⟨{ result := AS_ERR_GENERATION, tree := some r,
            trace := [.as_index_get_insert_vlock 0, .as_record_resolve_conflict (some (-1)),
              .as_record_done, .cf_mutex_unlock] }, ?_, rfl, ?_, rfl, rfl⟩
  · simp [as_record_replace_if_better, replace_resolve, as_record_get_create,
      as_index_get_insert_vlock, hvia,
      hcheck, hlocal, record_replace_failed, as_record_done, World.log, hvalid, World.outcome,
      World.tree]
  · simp [Event.isApply, Event.isStorageWrite]

/-- Witness for the amended C5: local generation 5, LUT 100; remote generation
4, LUT 100 of migration origin under the generation-priority policy. -/
theorem replace_local_wins_non_replication_witness :
    ∃ o, as_record_replace_if_better Env.sample (sample_ns .GENERATION true false)
        (some (sample_record 5 100)) (sample_remote .VIA_MIGRATION 4 100) = some o
      ∧ o.result = AS_ERR_GENERATION
      ∧ (∀ e ∈ o.trace, e.isApply = false ∧ e.isStorageWrite = false)
      ∧ o.tree = some (sample_record 5 100)
      ∧ o.trace = [.as_index_get_insert_vlock 0, .as_record_resolve_conflict (some (-1)),
          .as_record_done, .cf_mutex_unlock] :=
  replace_local_wins_non_replication Env.sample (sample_ns .GENERATION true false)
    (sample_record 5 100) (sample_remote .VIA_MIGRATION 4 100)
    (by decide) (by decide) (by decide) (by decide)

/-- C6, counterexample.  Local generation 5, LUT 100; remote generation 4, LUT
100 of replication origin, the source check passes and the policy is generation
priority: the resolver reports that the local record wins (-1),
`as_record_replace_if_better` returns `AS_ERR_GENERATION` rather than
`AS_ERR_RECORD_EXISTS`, and no cross-datacenter notification is submitted. -/
theorem replace_local_wins_replication_counterexample :
    as_record_resolve_conflict Env.sample.record_resolve_conflict_cp
        Env.sample.repl_write_conflict_resolution_policy 5 100 (u16 4) 100 = some (-1)
      ∧ ∃ o, as_record_replace_if_better Env.sample (sample_ns .GENERATION true false)
          (some (sample_record 5 100)) (sample_remote .VIA_REPLICATION 4 100) = some o
        ∧ o.result = AS_ERR_GENERATION
        ∧ o.result ≠ AS_ERR_RECORD_EXISTS
        ∧ ∀ e ∈ o.trace, e.isXdrSubmit = false := by
  refine ⟨by decide, Outcome.mk AS_ERR_GENERATION (some (sample_record 5 100))
      [.as_index_get_insert_vlock 0, .as_partition_check_source 0,
        .repl_write_init_repl_state true, .as_record_resolve_conflict (some (-1)),
        .as_record_done, .cf_mutex_unlock], by decide, rfl, by decide, by decide⟩

/-- C6, amended.  A remote record of replication origin arrives for an existing
(linked), replaceable local record, the source check passes and the conflict
resolver reports that the local record wins (-1): `as_record_replace_if_better`
returns `AS_ERR_GENERATION` and submits no cross-datacenter notification; it
enters no applier and leaves the entry as it was. -/
theorem replace_local_wins_replication
    (env : Env) (ns : as_namespace) (r : as_record) (rr : as_remote_record)
    (hvia : rr.via = .VIA_REPLICATION)
    (hsrc : env.as_partition_check_source.1 = AS_OK)
    (hvalid : as_index_is_valid_record r = true)
    (hcheck : ¬ env.record_replace_check r < 0)
    (hlocal : as_record_resolve_conflict env.record_resolve_conflict_cp
      env.repl_write_conflict_resolution_policy r.generation r.last_update_time
      (u16 rr.generation) rr.last_update_time = some (-1)) :
    ∃ o, as_record_replace_if_better env ns (some r) rr = some o
      ∧ o.result = AS_ERR_GENERATION
      ∧ (∀ e ∈ o.trace, e.isXdrSubmit = false)
      ∧ (∀ e ∈ o.trace, e.isApply = false ∧ e.isStorageWrite = false)
      ∧ o.tree = some r
      ∧ o.trace = [.as_index_get_insert_vlock 0, .as_partition_check_source AS_OK,
          .repl_write_init_repl_state env.as_partition_check_source.2,
          .as_record_resolve_conflict (some (-1)), .as_record_done, .cf_mutex_unlock] := by
  refine ⟨{ result := AS_ERR_GENERATION, tree := some r,
            trace := [.as_index_get_insert_vlock 0, .as_partition_check_source AS_OK,
              .repl_write_init_repl_state env.as_partition_check_source.2,
              .as_record_resolve_conflict (some (-1)), .as_record_done,
              .cf_mutex_unlock] }, ?_, rfl, ?_, ?_, rfl, rfl⟩
  · simp [as_record_replace_if_better, replace_resolve, as_record_get_create,
      as_index_get_insert_vlock, hvia,
      hsrc, hcheck, hlocal, record_replace_failed, as_record_done, World.log, hvalid,
      World.outcome, World.tree]
  · simp [Event.isXdrSubmit]
  · simp [Event.isApply, Event.isStorageWrite]

/-- Witness for the amended C6: local generation 5, LUT 100; remote generation
4, LUT 100 of replication origin under the generation-priority policy. -/
theorem replace_local_wins_replication_witness :
    ∃ o, as_record_replace_if_better Env.sample (sample_ns .GENERATION true false)
        (some (sample_record 5 100)) (sample_remote .VIA_REPLICATION 4 100) = some o
      ∧ o.result = AS_ERR_GENERATION
      ∧ (∀ e ∈ o.trace, e.isXdrSubmit = false)
      ∧ (∀ e ∈ o.trace, e.isApply = false ∧ e.isStorageWrite = false)
      ∧ o.tree = some (sample_record 5 100)
      ∧ o.trace = [.as_index_get_insert_vlock 0, .as_partition_check_source AS_OK,
          .repl_write_init_repl_state Env.sample.as_partition_check_source.2,
          .as_record_resolve_conflict (some (-1)), .as_record_done, .cf_mutex_unlock] :=
  replace_local_wins_replication Env.sample (sample_ns .GENERATION true false)
    (sample_record 5 100) (sample_remote .VIA_REPLICATION 4 100)
    rfl rfl (by decide) (by decide) (by decide)

/-- C7. A remote record of replication origin arrives for an existing (linked),
replaceable local record, the source check passes and the conflict resolver
returns Tie: `as_record_replace_if_better` enters no applier and issues no
storage write, computes the notification info from the local record with the
local record's own last_update_time as the prior LUT, releases the index
reference, then submits that notification, and returns
`AS_ERR_RECORD_EXISTS`. -/
theorem replace_tie_replication
    (env : Env) (ns : as_namespace) (r : as_record) (rr : as_remote_record)
    (hvia : rr.via = .VIA_REPLICATION)
    (hsrc : env.as_partition_check_source.1 = AS_OK)
    (hvalid : as_index_is_valid_record r = true)
    (hcheck : ¬ env.record_replace_check r < 0)
    (htie : as_record_resolve_conflict env.record_resolve_conflict_cp
      env.repl_write_conflict_resolution_policy r.generation r.last_update_time
      (u16 rr.generation) rr.last_update_time = some 0) :
    ∃ o, as_record_replace_if_better env ns (some r) rr = some o
      ∧ o.result = AS_ERR_RECORD_EXISTS
      ∧ (∀ e ∈ o.trace, e.isApply = false ∧ e.isStorageWrite = false)
      ∧ o.tree = some r
      ∧ o.trace = [.as_index_get_insert_vlock 0, .as_partition_check_source AS_OK,
          .repl_write_init_repl_state env.as_partition_check_source.2,
          .as_record_resolve_conflict (some 0),
          .as_xdr_get_submit_info (as_xdr_get_submit_info r r.last_update_time),
          .as_record_done, .cf_mutex_unlock,
          .as_xdr_submit (as_xdr_get_submit_info r r.last_update_time)] := by
  refine ⟨{ result := AS_ERR_RECORD_EXISTS, tree := some r,
            trace := [.as_index_get_insert_vlock 0, .as_partition_check_source AS_OK,
              .repl_write_init_repl_state env.as_partition_check_source.2,
              .as_record_resolve_conflict (some 0),
              .as_xdr_get_submit_info (as_xdr_get_submit_info r r.last_update_time),
              .as_record_done, .cf_mutex_unlock,
              .as_xdr_submit (as_xdr_get_submit_info r r.last_update_time)] },
          ?_, rfl, ?_, rfl, rfl⟩
  · simp [as_record_replace_if_better, replace_resolve, as_record_get_create,
      as_index_get_insert_vlock, hvia,
      hsrc, hcheck, htie, record_replace_failed, as_record_done, World.log, hvalid,
      World.outcome, World.tree]
  · simp [Event.isApply, Event.isStorageWrite]

/-- Witness for C7: local generation 5, LUT 100; remote generation 5, LUT 100
of replication origin under the generation-priority policy. -/
theorem replace_tie_replication_witness :
    ∃ o, as_record_replace_if_better Env.sample (sample_ns .GENERATION true false)
        (some (sample_record 5 100)) (sample_remote .VIA_REPLICATION 5 100) = some o
      ∧ o.result = AS_ERR_RECORD_EXISTS
      ∧ (∀ e ∈ o.trace, e.isApply = false ∧ e.isStorageWrite = false)
      ∧ o.tree = some (sample_record 5 100)
      ∧ o.trace = [.as_index_get_insert_vlock 0, .as_partition_check_source AS_OK,
          .repl_write_init_repl_state Env.sample.as_partition_check_source.2,
          .as_record_resolve_conflict (some 0),
          .as_xdr_get_submit_info
            (as_xdr_get_submit_info (sample_record 5 100) (sample_record 5 100).last_update_time),
          .as_record_done, .cf_mutex_unlock,
          .as_xdr_submit
            (as_xdr_get_submit_info (sample_record 5 100)
              (sample_record 5 100).last_update_time)] :=
  replace_tie_replication Env.sample (sample_ns .GENERATION true false)
    (sample_record 5 100) (sample_remote .VIA_REPLICATION 5 100)
    rfl rfl (by decide) (by decide) (by decide)

/-! ## Theorems: idempotence, rollback, decode failure -/

/-- A record resolved against its own generation and LUT ties under the
generation-priority and the LUT-priority policy. -/
theorem resolve_conflict_same (cp : Nat → Nat → Nat → Nat → Int)
    (p : conflict_resolution_pol) (hp : p = .GENERATION ∨ p = .LAST_UPDATE_TIME) (g l : Nat) :
    as_record_resolve_conflict cp p g l g l = some 0 := by
  rcases hp with hp | hp <;> subst hp
  · rw [resolve_conflict_generation_eq]; simp [spec_generation_priority]
  · rw [resolve_conflict_lut_eq]; simp [spec_lut_priority]

/-- The outcome of a tie against a linked, replaceable entry: the entry is kept
and the result is `AS_ERR_RECORD_EXISTS`, whatever the origin. -/
theorem replace_tie_outcome (env : Env) (ns : as_namespace) (r : as_record)
    (rr : as_remote_record)
    (hsrc : rr.via = .VIA_REPLICATION → env.as_partition_check_source.1 = AS_OK)
    (hvalid : as_index_is_valid_record r = true)
    (hcheck : ¬ env.record_replace_check r < 0)
    (htie : as_record_resolve_conflict env.record_resolve_conflict_cp
      (if rr.via = .VIA_REPLICATION then env.repl_write_conflict_resolution_policy
       else ns.conflict_resolution_policy) r.generation r.last_update_time
      (u16 rr.generation) rr.last_update_time = some 0) :
    ∃ o, as_record_replace_if_better env ns (some r) rr = some o
      ∧ o.result = AS_ERR_RECORD_EXISTS ∧ o.tree = some r
      ∧ ∀ e ∈ o.trace, e.isApplierCall = false := by
  by_cases hvia : rr.via = .VIA_REPLICATION
  · have hs := hsrc hvia
    simp only [hvia, if_true] at htie
    refine ⟨Outcome.mk AS_ERR_RECORD_EXISTS (some r)
      [.as_index_get_insert_vlock 0, .as_partition_check_source AS_OK,
        .repl_write_init_repl_state env.as_partition_check_source.2,
        .as_record_resolve_conflict (some 0),
        .as_xdr_get_submit_info (as_xdr_get_submit_info r r.last_update_time),
        .as_record_done, .cf_mutex_unlock,
        .as_xdr_submit (as_xdr_get_submit_info r r.last_update_time)], ?_, rfl, rfl, ?_⟩
    · simp [as_record_replace_if_better, replace_resolve, as_record_get_create,
        as_index_get_insert_vlock, hvia, hs, hcheck, htie, record_replace_failed,
        as_record_done, World.log, hvalid, World.outcome, World.tree]
    · simp [Event.isApplierCall]
  · simp only [hvia, if_false] at htie
    refine ⟨Outcome.mk AS_ERR_RECORD_EXISTS (some r)
      [.as_index_get_insert_vlock 0, .as_record_resolve_conflict (some 0),
        .as_record_done, .cf_mutex_unlock], ?_, rfl, rfl, ?_⟩
    · simp [as_record_replace_if_better, replace_resolve, as_record_get_create,
        as_index_get_insert_vlock, hvia, hcheck, htie, record_replace_failed,
        as_record_done, World.log, hvalid, World.outcome, World.tree]
    · simp [Event.isApplierCall]

/-- When the orchestrator returns `AS_OK` after entering an applier, the entry
left in the index is linked and carries the remote record's 16-bit generation,
LUT and void-time. -/
theorem replace_applied_entry (env : Env) (ns : as_namespace) (tree : Option as_record)
    (rr : as_remote_record) (o : Outcome)
    (hvalid : ∀ r, tree = some r → as_index_is_valid_record r = true)
    (h : as_record_replace_if_better env ns tree rr = some o)
    (hok : o.result = AS_OK)
    (happlied : ∃ e ∈ o.trace, e.isApply = true) :
    ∃ r1, o.tree = some r1 ∧ as_index_is_valid_record r1 = true
      ∧ r1.generation = u16 rr.generation ∧ r1.last_update_time = rr.last_update_time
      ∧ r1.void_time = rr.void_time := by
  obtain ⟨e, he, hap⟩ := happlied
  rcases replace_if_better_cases _ _ _ _ _ h with ⟨hq, -⟩ | ⟨ic, r0, hrel, hex⟩
  · have := (not_isApplierCall_classes e (hq e he)).1
    rw [this] at hap; cases hap
  · have hv0 : as_index_is_valid_record r0 = true := by
      rcases hrel with ⟨-, -, ht⟩ | ⟨-, ht⟩
      · simp [as_index_is_valid_record, ht, as_index_new]
      · exact hvalid r0 ht
    rcases hex with ⟨hq, -⟩ | ⟨hne, -⟩ | ⟨-, -, -, -, r1, ht, hg, hl, hvt, htid⟩
    · have := (not_isApplierCall_classes e (hq e he).1).1
      rw [this] at hap; cases hap
    · exact absurd hok hne
    · have hv1 : as_index_is_valid_record r1 = true := by
        simpa [as_index_is_valid_record, htid] using hv0
      exact ⟨r1, by simpa [World.tree, hv1] using ht, hv1, hg, hl, hvt⟩

/-- C8. Idempotence of `as_record_replace_if_better`.  If a first application
enters an applier and returns `AS_OK`, the entry then carries the remote
record's 16-bit generation and LUT; a second application of the same remote
record, under the generation-priority or the LUT-priority policy and with the
admission checks passing, returns `AS_ERR_RECORD_EXISTS`, enters no applier,
and leaves the entry exactly as the first application left it (generation, LUT,
void_time and bins included). -/
theorem replace_idempotent (env1 env2 : Env) (ns : as_namespace) (tree : Option as_record)
    (rr : as_remote_record) (o1 : Outcome)
    (hvalid : ∀ r, tree = some r → as_index_is_valid_record r = true)
    (h1 : as_record_replace_if_better env1 ns tree rr = some o1)
    (hok : o1.result = AS_OK)
    (happlied : ∃ e ∈ o1.trace, e.isApply = true)
    (hpol : (if rr.via = .VIA_REPLICATION then env2.repl_write_conflict_resolution_policy
        else ns.conflict_resolution_policy) = .GENERATION ∨
      (if rr.via = .VIA_REPLICATION then env2.repl_write_conflict_resolution_policy
        else ns.conflict_resolution_policy) = .LAST_UPDATE_TIME)
    (hsrc : rr.via = .VIA_REPLICATION → env2.as_partition_check_source.1 = AS_OK)
    (hchk : ∀ r, o1.tree = some r → ¬ env2.record_replace_check r < 0) :
    ∃ r1, o1.tree = some r1
      ∧ r1.generation = u16 rr.generation ∧ r1.last_update_time = rr.last_update_time
      ∧ ∃ o2, as_record_replace_if_better env2 ns o1.tree rr = some o2
        ∧ o2.result = AS_ERR_RECORD_EXISTS
        ∧ o2.tree = o1.tree
        ∧ (∀ e ∈ o2.trace, e.isApply = false ∧ e.isStorageWrite = false) := by
  obtain ⟨r1, ht, hv1, hg, hl, -⟩ := replace_applied_entry _ _ _ _ _ hvalid h1 hok happlied
  have htie : as_record_resolve_conflict env2.record_resolve_conflict_cp
      (if rr.via = .VIA_REPLICATION then env2.repl_write_conflict_resolution_policy
       else ns.conflict_resolution_policy) r1.generation r1.last_update_time
      (u16 rr.generation) rr.last_update_time = some 0 := by
    rw [hg, hl]
    exact resolve_conflict_same _ _ hpol _ _
  obtain ⟨o2, h2, hr2, ht2, hq2⟩ :=
    replace_tie_outcome env2 ns r1 rr hsrc hv1 (hchk r1 ht) htie
  refine ⟨r1, ht, hg, hl, o2, by rw [ht]; exact h2, hr2, by rw [ht2, ht], ?_⟩
  intro e he
  exact ⟨(not_isApplierCall_classes e (hq2 e he)).1, (not_isApplierCall_classes e (hq2 e he)).2.1⟩

/-- Witness for C8: a generation-6 remote record of migration origin replaces a
generation-5 local record in a memory-resident multi-bin namespace; applying it
a second time returns `AS_ERR_RECORD_EXISTS` and changes nothing. -/
theorem replace_idempotent_witness :
    ∃ o1, as_record_replace_if_better Env.sample (sample_ns .GENERATION true false)
        (some (sample_record 5 100)) (sample_remote .VIA_MIGRATION 6 200) = some o1
      ∧ o1.result = AS_OK
      ∧ ∃ r1, o1.tree = some r1
        ∧ r1.generation = u16 6 ∧ r1.last_update_time = 200
        ∧ ∃ o2, as_record_replace_if_better Env.sample (sample_ns .GENERATION true false)
            o1.tree (sample_remote .VIA_MIGRATION 6 200) = some o2
          ∧ o2.result = AS_ERR_RECORD_EXISTS
          ∧ o2.tree = o1.tree
          ∧ (∀ e ∈ o2.trace, e.isApply = false ∧ e.isStorageWrite = false) := by
  obtain ⟨o1, h1⟩ : ∃ o1, as_record_replace_if_better Env.sample
      (sample_ns .GENERATION true false) (some (sample_record 5 100))
      (sample_remote .VIA_MIGRATION 6 200) = some o1 :=
    Option.isSome_iff_exists.1 (by decide)
  have hok : o1.result = AS_OK := by
    have : (as_record_replace_if_better Env.sample (sample_ns .GENERATION true false)
      (some (sample_record 5 100)) (sample_remote .VIA_MIGRATION 6 200)).map Outcome.result
        = some AS_OK := by decide
    rw [h1] at this
    simpa using this
  have happ : ∃ e ∈ o1.trace, e.isApply = true := by
    have : ((as_record_replace_if_better Env.sample (sample_ns .GENERATION true false)
      (some (sample_record 5 100)) (sample_remote .VIA_MIGRATION 6 200)).map
        (fun o => o.trace.any Event.isApply)) = some true := by decide
    rw [h1] at this
    simpa [List.any_eq_true] using this
  exact ⟨o1, h1, hok,
    replace_idempotent Env.sample Env.sample (sample_ns .GENERATION true false)
      (some (sample_record 5 100)) (sample_remote .VIA_MIGRATION 6 200) o1
      (by intro r hr; cases hr; decide) h1 hok happ (Or.inl rfl) (by intro h; cases h)
      (by intro r _; simp [Env.sample])⟩

/-- C9. Rollback on write failure.  In each of the four appliers, run on a
record `r` with an empty call log: if the storage write it issues returns a
negative code `e`, the applier returns the positive code `-e`, the record is
exactly as before the call (generation, LUT, void_time and bins included) and
the record's existing bins are not destroyed.  `as_record_replace_if_better`
returns whenever the entry found is linked and the policy is valid, and if its
log holds a storage write that returned `e < 0` it returns `-e` and leaves the
index entry as it was. -/
theorem write_failure_rollback :
    (∀ (v : applier) (env : Env) (ns : as_namespace) (rr : as_remote_record)
        (rd : as_storage_rd) (r : as_record) (e : Int), e < 0 →
        (∃ p s, Event.as_storage_record_write p s e ∈ (v.run env ns rr rd ⟨r, []⟩).2.trace) →
        (v.run env ns rr rd ⟨r, []⟩).1 = -e
          ∧ 0 < (v.run env ns rr rd ⟨r, []⟩).1
          ∧ (v.run env ns rr rd ⟨r, []⟩).2.r = r
          ∧ (v.run env ns rr rd ⟨r, []⟩).2.r.generation = r.generation
          ∧ (v.run env ns rr rd ⟨r, []⟩).2.r.last_update_time = r.last_update_time
          ∧ (v.run env ns rr rd ⟨r, []⟩).2.r.void_time = r.void_time
          ∧ (v.run env ns rr rd ⟨r, []⟩).2.r.bins = r.bins
          ∧ ∀ ev ∈ (v.run env ns rr rd ⟨r, []⟩).2.trace, ev.isDestroyOldBins = false)
    ∧ (∀ (env : Env) (ns : as_namespace) (tree : Option as_record) (rr : as_remote_record)
        (e : Int),
        (∀ r, tree = some r → as_index_is_valid_record r = true) →
        (tree ≠ none →
          (if rr.via = .VIA_REPLICATION then env.repl_write_conflict_resolution_policy
           else ns.conflict_resolution_policy) ≠ .INVALID) →
        ∃ o, as_record_replace_if_better env ns tree rr = some o ∧
          (e < 0 → (∃ p s, Event.as_storage_record_write p s e ∈ o.trace) →
            o.result = -e ∧ 0 < o.result ∧ o.tree = tree)) := by
  constructor
  · intro v env ns rr rd r e he hw
    obtain ⟨p, s, hw⟩ := hw
    obtain ⟨evs, ht, -, -, hwr, hfail, -, hneg⟩ :=
      applier_run_spec v env ns rr rd ⟨r, []⟩ _ rfl
    simp only [List.nil_append] at ht
    rw [ht] at hw
    obtain ⟨p', s', heq⟩ := hwr _ hw rfl
    have hee : e = env.as_storage_record_write := by
      injection heq
    have h1 : (v.run env ns rr rd ⟨r, []⟩).1 = -e := by
      rw [hee]
      exact hneg ⟨_, hw, rfl⟩ (hee ▸ he)
    have hne : (v.run env ns rr rd ⟨r, []⟩).1 ≠ 0 := by rw [h1]; omega
    obtain ⟨hr, hd⟩ := hfail hne
    refine ⟨h1, by rw [h1]; omega, hr, by rw [hr], by rw [hr], by rw [hr], by rw [hr], ?_⟩
    rw [ht]
    exact hd
  · intro env ns tree rr e hvalid hpol
    obtain ⟨o, ho⟩ := Option.isSome_iff_exists.1 (replace_if_better_total env ns tree rr hvalid hpol)
    refine ⟨o, ho, ?_⟩
    rintro he ⟨p, s, hw⟩
    have hcall : (Event.as_storage_record_write p s e).isApplierCall = true := rfl
    rcases replace_if_better_cases _ _ _ _ _ ho with ⟨hq, -⟩ | ⟨ic, r0, hrel, hex⟩
    · rw [hq _ hw] at hcall; cases hcall
    · rcases hex with ⟨hq, -⟩ | ⟨-, htree, -, hwr, hneg⟩ | ⟨-, hnw, -, hwr, -⟩
      · rw [(hq _ hw).1] at hcall; cases hcall
      · obtain ⟨p', s', heq⟩ := hwr _ hw rfl
        have hee : e = env.as_storage_record_write := by injection heq
        have h1 : o.result = -e := by
          rw [hee]; exact hneg ⟨_, hw, rfl⟩ (hee ▸ he)
        refine ⟨h1, by rw [h1]; omega, ?_⟩
        rw [htree]
        rcases hrel with ⟨hic, ht, -⟩ | ⟨hic, ht⟩
        · simp [hic, ht]
        · simp [hic, ht, World.tree, hvalid r0 ht]
      · obtain ⟨p', s', heq⟩ := hwr _ hw rfl
        have hee : e = env.as_storage_record_write := by injection heq
        exact absurd (hee ▸ he) hnw

/-- Witness for C9, scenario C: local generation 3, LUT 50 in a disk-resident
single-bin namespace; the remote generation 4, LUT 60 fails to write with code
-7: the result is 7 and the local record is unchanged at generation 3. -/
theorem write_failure_rollback_witness :
    ∃ o, as_record_replace_if_better Env.write_fails (sample_ns .GENERATION false true)
        (some (sample_record 3 50)) (sample_remote .VIA_MIGRATION 4 60) = some o
      ∧ o.result = 7 ∧ o.tree = some (sample_record 3 50)
      ∧ (record_apply_ssd_single_bin Env.write_fails (sample_ns .GENERATION false true)
          (sample_remote .VIA_MIGRATION 4 60) sample_rd ⟨sample_record 3 50, []⟩).1 = 7
      ∧ (record_apply_ssd_single_bin Env.write_fails (sample_ns .GENERATION false true)
          (sample_remote .VIA_MIGRATION 4 60) sample_rd ⟨sample_record 3 50, []⟩).2.r.generation
            = 3 := by
  obtain ⟨o, ho, himp⟩ := write_failure_rollback.2 Env.write_fails
    (sample_ns .GENERATION false true) (some (sample_record 3 50))
    (sample_remote .VIA_MIGRATION 4 60) (-7)
    (by intro r hr; cases hr; decide) (by intro _; decide)
  have hw : ∃ p s, Event.as_storage_record_write p s (-7) ∈ o.trace := by
    have : ((as_record_replace_if_better Env.write_fails (sample_ns .GENERATION false true)
        (some (sample_record 3 50)) (sample_remote .VIA_MIGRATION 4 60)).map
        (fun o => decide (Event.as_storage_record_write [1, 2, 3] .SWB_UNCACHED (-7) ∈ o.trace)))
        = some true := by decide
    rw [ho] at this
    exact ⟨_, _, by simpa using this⟩
  obtain ⟨h1, -, h3⟩ := himp (by decide) hw
  have ha := write_failure_rollback.1 .ssd_single_bin Env.write_fails
    (sample_ns .GENERATION false true) (sample_remote .VIA_MIGRATION 4 60) sample_rd
    (sample_record 3 50) (-7) (by decide) ⟨[1, 2, 3], .SWB_UNCACHED, by decide⟩
  exact ⟨o, ho, by simpa using h1, h3, by simpa [applier.run] using ha.1,
    by simpa [applier.run] using ha.2.2.2.1⟩

/-- C10, counterexample.  A payload that fails to decode (code -1) is handed to
`record_apply_ssd_single_bin` for a local record of generation 3: the applier
never calls the decoder, issues the storage write, overwrites the metadata
(generation 4) and returns `AS_OK`. -/
theorem decode_failure_counterexample :
    (Env.corrupt.as_flat_unpack_remote_bins (sample_remote .VIA_MIGRATION 4 60)).1 ≠ 0
      ∧ (record_apply_ssd_single_bin Env.corrupt (sample_ns .GENERATION false true)
          (sample_remote .VIA_MIGRATION 4 60) sample_rd ⟨sample_record 3 50, []⟩).1 = 0
      ∧ (∃ e ∈ (record_apply_ssd_single_bin Env.corrupt (sample_ns .GENERATION false true)
          (sample_remote .VIA_MIGRATION 4 60) sample_rd ⟨sample_record 3 50, []⟩).2.trace,
          e.isStorageWrite = true)
      ∧ (record_apply_ssd_single_bin Env.corrupt (sample_ns .GENERATION false true)
          (sample_remote .VIA_MIGRATION 4 60) sample_rd ⟨sample_record 3 50, []⟩).2.r.generation
            = 4
      ∧ (sample_record 3 50).generation = 3 := by
  refine ⟨by decide, by decide, ?_, by decide, rfl⟩
  exact ⟨.as_storage_record_write [1, 2, 3] .SWB_UNCACHED 0, by decide, rfl⟩

/-- C10, amended.  Where an applier decodes the payload
(`record_apply_dim_single_bin` for a remote record with one bin,
`record_apply_dim` for one with at least one bin, `record_apply_ssd` when the
record's set has a secondary index and the remote record has at least one bin),
a payload that fails to decode makes the applier return a non-zero error code,
issue no storage write and leave the record, its index metadata and bins
included, exactly as it was.  `record_apply_ssd_single_bin`, and
`record_apply_ssd` for a set without a secondary index, never call the
decoder. -/
theorem decode_failure_untouched (env : Env) (ns : as_namespace) (rr : as_remote_record)
    (rd : as_storage_rd) (r : as_record)
    (hdec : (env.as_flat_unpack_remote_bins rr).1 ≠ 0) :
    (rr.n_bins = 1 →
        (record_apply_dim_single_bin env rr rd ⟨r, []⟩).1 = -(env.as_flat_unpack_remote_bins rr).1
        ∧ (record_apply_dim_single_bin env rr rd ⟨r, []⟩).1 ≠ 0
        ∧ (record_apply_dim_single_bin env rr rd ⟨r, []⟩).2.r = r
        ∧ ∀ e ∈ (record_apply_dim_single_bin env rr rd ⟨r, []⟩).2.trace,
            e.isStorageWrite = false)
    ∧ (rr.n_bins ≠ 0 →
        (record_apply_dim env ns rr rd ⟨r, []⟩).1 = -(env.as_flat_unpack_remote_bins rr).1
        ∧ (record_apply_dim env ns rr rd ⟨r, []⟩).1 ≠ 0
        ∧ (record_apply_dim env ns rr rd ⟨r, []⟩).2.r = r
        ∧ ∀ e ∈ (record_apply_dim env ns rr rd ⟨r, []⟩).2.trace, e.isStorageWrite = false)
    ∧ (env.set_has_sindex r = true → rr.n_bins ≠ 0 →
        (record_apply_ssd env ns rr rd ⟨r, []⟩).1 ≠ 0
        ∧ (record_apply_ssd env ns rr rd ⟨r, []⟩).2.r = r
        ∧ ∀ e ∈ (record_apply_ssd env ns rr rd ⟨r, []⟩).2.trace, e.isStorageWrite = false)
    ∧ (∀ e ∈ (record_apply_ssd_single_bin env ns rr rd ⟨r, []⟩).2.trace, e.isUnpack = false)
    ∧ (env.set_has_sindex r = false →
        ∀ e ∈ (record_apply_ssd env ns rr rd ⟨r, []⟩).2.trace, e.isUnpack = false) := by
  refine ⟨?_, ?_, ?_, ?_, ?_⟩
  · intro hn
    simp [record_apply_dim_single_bin, hn, hdec, World.log, Event.isStorageWrite]
  · intro hn
    simp [record_apply_dim, hn, hdec, World.log, Event.isStorageWrite]
  · intro hs hn
    unfold record_apply_ssd
    simp only [World.log, hs, hn]
    split_ifs <;> simp_all [Event.isStorageWrite]
    omega
  · unfold record_apply_ssd_single_bin
    simp only [World.log]
    split_ifs <;> simp [Event.isUnpack]
  · intro hs
    unfold record_apply_ssd
    simp only [World.log, hs]
    split_ifs <;> simp_all [Event.isUnpack]

/-- Witness for the amended C10: a payload that fails to decode is handed to
`record_apply_dim` for a local record of generation 3; the applier returns 1,
writes nothing and leaves the record as it was. -/
theorem decode_failure_untouched_witness :
    (record_apply_dim Env.corrupt (sample_ns .GENERATION true false)
        (sample_remote .VIA_MIGRATION 4 60) sample_rd ⟨sample_record 3 50, []⟩).1 = 1
      ∧ (record_apply_dim Env.corrupt (sample_ns .GENERATION true false)
        (sample_remote .VIA_MIGRATION 4 60) sample_rd ⟨sample_record 3 50, []⟩).2.r
          = sample_record 3 50
      ∧ ∀ e ∈ (record_apply_dim Env.corrupt (sample_ns .GENERATION true false)
          (sample_remote .VIA_MIGRATION 4 60) sample_rd ⟨sample_record 3 50, []⟩).2.trace,
          e.isStorageWrite = false := by
  have h := (decode_failure_untouched Env.corrupt (sample_ns .GENERATION true false)
    (sample_remote .VIA_MIGRATION 4 60) sample_rd (sample_record 3 50) (by decide)).2.1
    (by decide)
  exact ⟨by rw [h.1]; decide, h.2.2.1, h.2.2.2⟩

/-! ## Theorems: record lifecycle -/

/-- C14. Release semantics of `as_record_done`, for a reference to a record `r`
on which the function's own assertion holds (an unlinked record that is not
reserved is not in a secondary index).  The call returns; the record is
destroyed, and its arena slot freed, if and only if the record is no longer
linked in the index and its reference count is 0; while `rc > 0` or the record
is still linked nothing is destroyed or freed; the slot lock is unlocked
exactly once, as the last call; the record's fields are not changed. -/
theorem as_record_done_release (r : as_record)
    (hassert : as_index_is_valid_record r = false → r.rc = 0 → r.in_sindex = 0) :
    ∃ w', as_record_done ⟨r, []⟩ = some w'
      ∧ (Event.as_record_destroy ∈ w'.trace ↔ (as_index_is_valid_record r = false ∧ r.rc = 0))
      ∧ (Event.cf_arenax_free ∈ w'.trace ↔ (as_index_is_valid_record r = false ∧ r.rc = 0))
      ∧ (w'.trace.count .as_record_destroy ≤ 1 ∧ w'.trace.count .cf_arenax_free ≤ 1)
      ∧ ((0 < r.rc ∨ as_index_is_valid_record r = true) →
          Event.as_record_destroy ∉ w'.trace ∧ Event.cf_arenax_free ∉ w'.trace)
      ∧ w'.trace.count .cf_mutex_unlock = 1
      ∧ w'.trace.getLast? = some .cf_mutex_unlock
      ∧ w'.r = r := by
  unfold as_record_done
  simp only [World.log]
  by_cases hv : as_index_is_valid_record r = true
  · simp [hv]
  · have hv' : as_index_is_valid_record r = false := by simpa using hv
    by_cases hrc : r.rc = 0
    · have hs := hassert hv' hrc
      simp [hv', hrc, hs]
    · by_cases hgc : r.in_sindex = 1 ∧ r.rc = 1
      · simp [hv', hrc, hgc]
      · simp [hv', hrc, hgc]

/-- Witness for C14: an unlinked record with reference count 0 is destroyed and
freed, then unlocked. -/
theorem as_record_done_release_witness :
    ∃ w', as_record_done ⟨{ sample_record 5 100 with tree_id := 0 }, []⟩ = some w'
      ∧ (Event.as_record_destroy ∈ w'.trace ↔
          (as_index_is_valid_record { sample_record 5 100 with tree_id := 0 } = false ∧
            ({ sample_record 5 100 with tree_id := 0 } : as_record).rc = 0))
      ∧ (Event.cf_arenax_free ∈ w'.trace ↔
          (as_index_is_valid_record { sample_record 5 100 with tree_id := 0 } = false ∧
            ({ sample_record 5 100 with tree_id := 0 } : as_record).rc = 0))
      ∧ (w'.trace.count .as_record_destroy ≤ 1 ∧ w'.trace.count .cf_arenax_free ≤ 1)
      ∧ ((0 < ({ sample_record 5 100 with tree_id := 0 } : as_record).rc ∨
            as_index_is_valid_record { sample_record 5 100 with tree_id := 0 } = true) →
          Event.as_record_destroy ∉ w'.trace ∧ Event.cf_arenax_free ∉ w'.trace)
      ∧ w'.trace.count .cf_mutex_unlock = 1
      ∧ w'.trace.getLast? = some .cf_mutex_unlock
      ∧ w'.r = { sample_record 5 100 with tree_id := 0 } :=
  as_record_done_release { sample_record 5 100 with tree_id := 0 } (by intro _ _; rfl)

/-- C16. Expiration test `as_record_is_expired`: a record with `void_time = 0`
is never expired, and a record with `void_time != 0` is expired if and only if
its void-time is strictly less than the current void-time clock value `now`. -/
theorem as_record_is_expired_iff (r : as_record) (now : Nat) :
    (r.void_time = 0 → as_record_is_expired r now = false)
      ∧ (r.void_time ≠ 0 → (as_record_is_expired r now = true ↔ r.void_time < now)) := by
  constructor
  · intro h; simp [as_record_is_expired, h]
  · intro h; simp [as_record_is_expired, h]

/-- Witness for C16: void-time 50 is expired at clock 60 and not at clock 50;
void-time 0 is not expired at clock 60. -/
theorem as_record_is_expired_iff_witness :
    as_record_is_expired { sample_record 5 100 with void_time := 50 } 60 = true
      ∧ as_record_is_expired { sample_record 5 100 with void_time := 50 } 50 = false
      ∧ as_record_is_expired (sample_record 5 100) 60 = false := by
  have h := as_record_is_expired_iff { sample_record 5 100 with void_time := 50 } 60
  exact ⟨(h.2 (by decide)).2 (by decide), by decide, by decide⟩

/-- C15. Stored-key reconciliation by `as_record_finalize_key`, for a record
whose one-bit `key_stored` flag is 0 or 1.  Afterwards `key_stored` is 1 if and
only if a key was supplied.  Key storage is allocated exactly when none was
stored and a key is supplied in a data-in-memory namespace; the stored key is
dropped exactly when one was stored and none is supplied in a data-in-memory
namespace; the key storage changes in no other case; the bin space is always
preserved; and the record is left unchanged when a key was already stored and a
key is supplied, or when none was stored and none is supplied. -/
theorem finalize_key_reconciles (r : as_record) (ns : as_namespace)
    (key : Option (List Nat)) (key_size : Nat)
    (hbit : r.key_stored = 0 ∨ r.key_stored = 1) :
    ((as_record_finalize_key r ns key key_size).key_stored = 1 ↔ key.isSome = true)
      ∧ ((as_record_finalize_key r ns key key_size).key_stored = 0 ↔ key = none)
      ∧ (∀ k, r.key_stored = 0 → key = some k → ns.storage_data_in_memory = true →
          as_record_finalize_key r ns key key_size
            = { r with key := some (key_size, k.take key_size), key_stored := 1 })
      ∧ (∀ k, r.key_stored = 0 → key = some k → ns.storage_data_in_memory = false →
          as_record_finalize_key r ns key key_size = { r with key_stored := 1 })
      ∧ (r.key_stored = 1 → key = none → ns.storage_data_in_memory = true →
          as_record_finalize_key r ns key key_size = { r with key := none, key_stored := 0 })
      ∧ (r.key_stored = 1 → key = none → ns.storage_data_in_memory = false →
          as_record_finalize_key r ns key key_size = { r with key_stored := 0 })
      ∧ ((as_record_finalize_key r ns key key_size).key ≠ r.key →
          ns.storage_data_in_memory = true ∧
            ((r.key_stored = 0 ∧ key.isSome = true) ∨ (r.key_stored = 1 ∧ key = none)))
      ∧ (as_record_finalize_key r ns key key_size).bins = r.bins
      ∧ (((r.key_stored = 1 ∧ key.isSome = true) ∨ (r.key_stored = 0 ∧ key = none)) →
          as_record_finalize_key r ns key key_size = r) := by
  unfold as_record_finalize_key as_record_allocate_key
  rcases hbit with h | h <;> cases key <;> cases hd : ns.storage_data_in_memory <;>
    simp [h, hd]

/-- Witness for C15: a key of three bytes supplied to a record without a stored
key in a data-in-memory namespace is stored; supplying none afterwards drops it
and keeps the bins. -/
theorem finalize_key_reconciles_witness :
    as_record_finalize_key (sample_record 5 100) (sample_ns .GENERATION true false)
        (some [7, 8, 9]) 3
      = { sample_record 5 100 with key := some (3, [7, 8, 9]), key_stored := 1 }
    ∧ as_record_finalize_key
        { sample_record 5 100 with key := some (3, [7, 8, 9]), key_stored := 1 }
        (sample_ns .GENERATION true false) none 0
      = sample_record 5 100 := by
  have h1 := (finalize_key_reconciles (sample_record 5 100) (sample_ns .GENERATION true false)
    (some [7, 8, 9]) 3 (Or.inl rfl)).2.2.1 [7, 8, 9] rfl rfl rfl
  have h2 := (finalize_key_reconciles
    { sample_record 5 100 with key := some (3, [7, 8, 9]), key_stored := 1 }
    (sample_ns .GENERATION true false) none 0 (Or.inr rfl)).2.2.2.2.1 rfl rfl rfl
  exact ⟨h1, h2⟩

/-- C20, counterexample.  `record_apply_ssd_single_bin` and `record_apply_ssd`
run the key reconciliation: applied to a record without a stored key
(`key_stored = 0`), a remote record that carries a key is written, the call
log holds `as_record_finalize_key`, and `key_stored` becomes 1. -/
theorem key_reconciliation_counterexample :
    (sample_record 3 50).key_stored = 0
      ∧ Event.as_record_finalize_key ∈
          (record_apply_ssd_single_bin Env.sample (sample_ns .GENERATION false true)
            (sample_remote_keyed .VIA_MIGRATION 4 60) sample_rd ⟨sample_record 3 50, []⟩).2.trace
      ∧ (record_apply_ssd_single_bin Env.sample (sample_ns .GENERATION false true)
            (sample_remote_keyed .VIA_MIGRATION 4 60) sample_rd
            ⟨sample_record 3 50, []⟩).2.r.key_stored = 1
      ∧ Event.as_record_finalize_key ∈
          (record_apply_ssd Env.sample (sample_ns .GENERATION false false)
            (sample_remote_keyed .VIA_MIGRATION 4 60) sample_rd ⟨sample_record 3 50, []⟩).2.trace
      ∧ (record_apply_ssd Env.sample (sample_ns .GENERATION false false)
            (sample_remote_keyed .VIA_MIGRATION 4 60) sample_rd
            ⟨sample_record 3 50, []⟩).2.r.key_stored = 1 := by
  refine ⟨rfl, by decide, by decide, by decide, by decide⟩

/-- Outside a data-in-memory namespace key reconciliation sets the flag to
whether a key was supplied and leaves the key memory alone. -/
theorem finalize_key_flag (r : as_record) (ns : as_namespace)
    (key : Option (List Nat)) (key_size : Nat)
    (hbit : r.key_stored = 0 ∨ r.key_stored = 1)
    (hd : ns.storage_data_in_memory = false) :
    ((as_record_finalize_key r ns key key_size).key_stored = 1 ↔ key.isSome = true)
      ∧ (as_record_finalize_key r ns key key_size).key = r.key := by
  unfold as_record_finalize_key as_record_allocate_key
  rcases hbit with h | h <;> cases key <;> simp [h, hd]

/-- The metadata overwrite leaves the key fields alone. -/
theorem replace_index_metadata_key (rr : as_remote_record) (r : as_record) :
    (replace_index_metadata rr r).key_stored = r.key_stored
      ∧ (replace_index_metadata rr r).key = r.key :=
  ⟨rfl, rfl⟩

/-- C20, amended.  Stored-key reconciliation runs in `record_apply_dim`,
`record_apply_ssd_single_bin` and `record_apply_ssd`, exactly when the applier
succeeds, and never in `record_apply_dim_single_bin`, which leaves the key
fields as they were.  In the disk-resident variants it sets `key_stored` to
whether the remote record carries a key and leaves the key memory alone.  In
`record_apply_dim` it runs after the record's old bins have been destroyed and
the bin space has been replaced by the decoded bins. -/
theorem key_reconciliation_variants (env : Env) (ns : as_namespace) (rr : as_remote_record)
    (rd : as_storage_rd) (r : as_record) :
    ((∀ e ∈ (record_apply_dim_single_bin env rr rd ⟨r, []⟩).2.trace,
          e ≠ .as_record_finalize_key)
        ∧ (record_apply_dim_single_bin env rr rd ⟨r, []⟩).2.r.key_stored = r.key_stored
        ∧ (record_apply_dim_single_bin env rr rd ⟨r, []⟩).2.r.key = r.key)
      ∧ (∀ v : applier, v ≠ .dim_single_bin →
          (Event.as_record_finalize_key ∈ (v.run env ns rr rd ⟨r, []⟩).2.trace ↔
            (v.run env ns rr rd ⟨r, []⟩).1 = 0))
      ∧ (ns.storage_data_in_memory = false → (r.key_stored = 0 ∨ r.key_stored = 1) →
          ∀ v : applier, v = .ssd_single_bin ∨ v = .ssd →
            (v.run env ns rr rd ⟨r, []⟩).1 = 0 →
            ((v.run env ns rr rd ⟨r, []⟩).2.r.key_stored = 1 ↔ rr.key.isSome = true)
              ∧ (v.run env ns rr rd ⟨r, []⟩).2.r.key = r.key)
      ∧ ((record_apply_dim env ns rr rd ⟨r, []⟩).1 = 0 →
          (∃ a, (record_apply_dim env ns rr rd ⟨r, []⟩).2.trace
              = a ++ [.as_bin_destroy_all .rd_bins r.bins.length,
                  .as_storage_rd_update_bin_space, .as_record_finalize_key,
                  .as_storage_record_adjust_mem_stats]
            ∧ Event.as_record_finalize_key ∉ a)
          ∧ (record_apply_dim env ns rr rd ⟨r, []⟩).2.r.bins
              = (if rr.n_bins ≠ 0 then (env.as_flat_unpack_remote_bins rr).2 else [])) := by
  refine ⟨?_, ?_, ?_, ?_⟩
  · unfold record_apply_dim_single_bin
    simp only [World.log]
    split_ifs <;> simp [unwind_stash, replace_index_metadata_key]
  · intro v hv
    cases v
    · exact absurd rfl hv
    · unfold applier.run record_apply_dim
      simp only [World.log]
      split_ifs <;> simp [AS_OK] <;> omega
    · unfold applier.run record_apply_ssd_single_bin
      simp only [World.log]
      split_ifs <;> simp [AS_OK]
      omega
    · unfold applier.run record_apply_ssd
      simp only [World.log]
      split_ifs <;> simp [AS_OK] <;> omega
  · intro hd hbit v hv
    have hfk : ∀ r0 : as_record, r0.key_stored = r.key_stored → r0.key = r.key →
        (((as_record_finalize_key r0 ns rr.key rr.key_size).key_stored = 1 ↔
            rr.key.isSome = true)
          ∧ (as_record_finalize_key r0 ns rr.key rr.key_size).key = r.key) := by
      intro r0 h1 h2
      have hb0 : r0.key_stored = 0 ∨ r0.key_stored = 1 := by rw [h1]; exact hbit
      have := finalize_key_flag r0 ns rr.key rr.key_size hb0 hd
      exact ⟨this.1, by rw [this.2, h2]⟩
    rcases hv with hv | hv <;> subst hv
    · unfold applier.run record_apply_ssd_single_bin
      simp only [World.log]
      split_ifs
      · intro h; exfalso; simp at h; omega
      · intro _
        exact hfk _ rfl rfl
    · unfold applier.run record_apply_ssd
      simp only [World.log]
      split_ifs <;> intro h <;>
        first
          | (exfalso; simp at h; omega)
          | exact hfk _ rfl rfl
  · intro h
    unfold record_apply_dim at h ⊢
    simp only [World.log, load_bins_dim] at h ⊢
    split_ifs at h ⊢ <;>
      first
        | (exfalso; simp at h; omega)
        | (simp_all [finalize_key_frame]
           first
              | exact ⟨[_, _, _, _, _, _], rfl, by simp⟩
              | exact ⟨[_, _, _, _, _], rfl, by simp⟩
              | exact ⟨[_, _, _, _], rfl, by simp⟩)

/-- Witness for the amended C20: `record_apply_dim` succeeds on a remote record
with two bins and a key; the key reconciliation is logged after the bin space
update, and the record holds the two decoded bins. -/
theorem key_reconciliation_variants_witness :
    (∃ a, (record_apply_dim Env.sample (sample_ns .GENERATION true false)
          (sample_remote_keyed .VIA_MIGRATION 4 60) sample_rd ⟨sample_record 3 50, []⟩).2.trace
        = a ++ [.as_bin_destroy_all .rd_bins (sample_record 3 50).bins.length,
            .as_storage_rd_update_bin_space, .as_record_finalize_key,
            .as_storage_record_adjust_mem_stats]
      ∧ Event.as_record_finalize_key ∉ a)
    ∧ (record_apply_dim Env.sample (sample_ns .GENERATION true false)
          (sample_remote_keyed .VIA_MIGRATION 4 60) sample_rd ⟨sample_record 3 50, []⟩).2.r.bins
        = (if (sample_remote_keyed .VIA_MIGRATION 4 60).n_bins ≠ 0 then
            (Env.sample.as_flat_unpack_remote_bins (sample_remote_keyed .VIA_MIGRATION 4 60)).2
          else []) :=
  (key_reconciliation_variants Env.sample (sample_ns .GENERATION true false)
    (sample_remote_keyed .VIA_MIGRATION 4 60) sample_rd (sample_record 3 50)).2.2.2 (by decide)

/-! ## Theorems: ties of the resolver -/

/-- C21. Under the generation-priority and the LUT-priority policy
`as_record_resolve_conflict` returns Tie (0) if and only if the two generations
are equal and the two LUTs are equal; in every other case it returns exactly -1
or 1, so two records with different (generation, LUT) always have a declared
winner. -/
theorem resolve_conflict_tie_iff (cp : Nat → Nat → Nat → Nat → Int)
    (p : conflict_resolution_pol) (hp : p = .GENERATION ∨ p = .LAST_UPDATE_TIME)
    (left_gen left_lut right_gen right_lut : Nat) :
    ∃ x, as_record_resolve_conflict cp p left_gen left_lut right_gen right_lut = some x
      ∧ (x = 0 ↔ (left_gen = right_gen ∧ left_lut = right_lut))
      ∧ (x = -1 ∨ x = 0 ∨ x = 1)
      ∧ (¬ (left_gen = right_gen ∧ left_lut = right_lut) → (x = -1 ∨ x = 1)) := by
  rcases hp with hp | hp <;> subst hp
  · refine ⟨_, resolve_conflict_generation_eq cp _ _ _ _, ?_, ?_, ?_⟩ <;>
      unfold spec_generation_priority <;> split_ifs <;> simp <;> omega
  · refine ⟨_, resolve_conflict_lut_eq cp _ _ _ _, ?_, ?_, ?_⟩ <;>
      unfold spec_lut_priority <;> split_ifs <;> simp <;> omega

/-- Witness for C21: generation 5, LUT 100 on both sides ties under both
policies; generation 5 against 6 with equal LUTs has a winner under both. -/
theorem resolve_conflict_tie_iff_witness :
    (∃ x, as_record_resolve_conflict (fun _ _ _ _ => 0) .GENERATION 5 100 5 100 = some x
      ∧ (x = 0 ↔ ((5 : Nat) = 5 ∧ (100 : Nat) = 100))
      ∧ (x = -1 ∨ x = 0 ∨ x = 1)
      ∧ (¬ ((5 : Nat) = 5 ∧ (100 : Nat) = 100) → (x = -1 ∨ x = 1)))
    ∧ (∃ x, as_record_resolve_conflict (fun _ _ _ _ => 0) .LAST_UPDATE_TIME 5 100 6 100 = some x
      ∧ (x = 0 ↔ ((5 : Nat) = 6 ∧ (100 : Nat) = 100))
      ∧ (x = -1 ∨ x = 0 ∨ x = 1)
      ∧ (¬ ((5 : Nat) = 6 ∧ (100 : Nat) = 100) → (x = -1 ∨ x = 1))) :=
  ⟨resolve_conflict_tie_iff (fun _ _ _ _ => 0) .GENERATION (Or.inl rfl) 5 100 5 100,
   resolve_conflict_tie_iff (fun _ _ _ _ => 0) .LAST_UPDATE_TIME (Or.inr rfl) 5 100 6 100⟩

/-! ## Helper lemmas: the shape of the call log around the release -/

/-- When `as_record_done` returns, it logged its own entry, then at most the
destruction calls, then the unlock. -/
theorem as_record_done_shape (w w' : World) (h : as_record_done w = some w') :
    w'.r = w.r ∧ ∃ rel, w'.trace = w.trace ++ [.as_record_done] ++ rel ++ [.cf_mutex_unlock] ∧
      ∀ e ∈ rel, e = .as_record_destroy ∨ e = .cf_arenax_free ∨ e = .as_sindex_gc_record := by
  unfold as_record_done at h
  simp only [World.log] at h
  split_ifs at h <;> simp at h <;> subst h
  · exact ⟨rfl, [.as_record_destroy, .cf_arenax_free], by simp, by simp⟩
  · exact ⟨rfl, [.as_sindex_gc_record], by simp, by simp⟩
  · exact ⟨rfl, [], by simp, by simp⟩
  · exact ⟨rfl, [], by simp, by simp⟩

/-- When `record_replace_failed` returns, it logged at most the close of the
storage handle and the index delete, then `as_record_done`. -/
theorem record_replace_failed_shape (has_rd is_create : Bool) (w w' : World)
    (h : record_replace_failed has_rd is_create w = some w') :
    ∃ pre rel, w'.trace = w.trace ++ pre ++ [.as_record_done] ++ rel ++ [.cf_mutex_unlock]
      ∧ (∀ e ∈ pre, e = .as_storage_record_close ∨ e = .as_index_delete)
      ∧ (∀ e ∈ rel, e = .as_record_destroy ∨ e = .cf_arenax_free ∨ e = .as_sindex_gc_record) := by
  unfold record_replace_failed at h
  obtain ⟨-, rel, ht, hrel⟩ := as_record_done_shape _ _ h
  cases is_create <;> cases has_rd
  · exact ⟨[], rel, by simpa [World.log] using ht, by simp, hrel⟩
  · exact ⟨[.as_storage_record_close], rel, by simpa [World.log] using ht, by simp, hrel⟩
  · exact ⟨[.as_index_delete], rel, by simpa [World.log, as_index_delete] using ht,
      by simp, hrel⟩
  · exact ⟨[.as_storage_record_close, .as_index_delete], rel,
      by simpa [World.log, as_index_delete] using ht, by simp, hrel⟩

/-- A failure exit has the release shape, with no notification. -/
theorem release_shape_of_failed (via : record_via) (prev_lut : Nat) (has_rd is_create : Bool)
    (w : World) (c : Int) (o : Outcome)
    (h : ∃ a, record_replace_failed has_rd is_create w = some a ∧ World.outcome c a = o) :
    ∃ evs, o.trace = w.trace ++ evs ∧ release_shape via o prev_lut evs ∧
      (∀ e ∈ evs, e.isApply = false) := by
  obtain ⟨w', hf, rfl⟩ := h
  obtain ⟨pre, rel, ht, hpre, hrel⟩ := record_replace_failed_shape _ _ _ _ hf
  refine ⟨pre ++ [.as_record_done] ++ rel ++ [.cf_mutex_unlock], by simp [World.outcome, ht],
    ⟨pre, rel, [], by simp, ?_, hrel, by simp, by simp, by simp, ?_⟩, ?_⟩
  · intro e he
    rcases hpre e he with h | h <;> subst h <;> simp [Event.isXdrSubmit, Event.isCheckSource]
  · rintro - ⟨e, he, hap⟩
    rcases hpre e he with h | h <;> subst h <;> simp [Event.isApply] at hap
  · intro e he
    simp only [List.mem_append, List.mem_singleton] at he
    rcases he with ((he | he) | he) | he
    · rcases hpre e he with h | h <;> subst h <;> rfl
    · subst he; rfl
    · rcases hrel e he with h | h | h <;> subst h <;> rfl
    · subst he; rfl

/-- Calls logged before a part with the release shape, none of them a release or
a notification, keep the shape. -/
theorem release_shape_prepend (via : record_via) (o : Outcome) (prev_lut : Nat)
    (pre evs : List Event)
    (hpre : ∀ e ∈ pre, e ≠ .as_record_done ∧ e ≠ .cf_mutex_unlock ∧ e.isXdrSubmit = false
        ∧ (e.isCheckSource = true → via = .VIA_REPLICATION))
    (hap : o.result ≠ AS_OK ∨ ∀ e ∈ pre, e.isApply = false)
    (h : release_shape via o prev_lut evs) :
    release_shape via o prev_lut (pre ++ evs) := by
  obtain ⟨a, rel, b, he, ha, hrel, hb, hlen, hvia, hcommit⟩ := h
  refine ⟨pre ++ a, rel, b, by simp [he], ?_, hrel, hb, hlen, hvia, ?_⟩
  · intro e hmem
    rcases List.mem_append.1 hmem with h | h
    · exact hpre e h
    · exact ha e h
  · rintro hok ⟨e, hmem, happ⟩ hv
    rcases hap with hap | hap
    · exact absurd hok hap
    · rcases List.mem_append.1 hmem with h | h
      · rw [hap e h] at happ; cases happ
      · exact hcommit hok ⟨e, h, happ⟩ hv

/-- Applier calls are no release calls, notifications or source checks. -/
theorem isApplierCall_quiet (e : Event) (h : e.isApplierCall = true) :
    e ≠ .as_record_done ∧ e ≠ .cf_mutex_unlock ∧ e.isXdrSubmit = false ∧
      e.isCheckSource = false ∧ e.isResolve = false := by
  cases e <;> simp_all [Event.isApplierCall, Event.isXdrSubmit, Event.isCheckSource,
    Event.isResolve]

/-- The apply-and-commit part has the release shape; the prior LUT of the
notification is the one the entry held when the part was entered. -/
theorem replace_write_shape (env : Env) (ns : as_namespace) (rr : as_remote_record)
    (is_create : Bool) (w : World) (o : Outcome)
    (h : replace_write env ns rr is_create w = some o) :
    ∃ evs, o.trace = w.trace ++ evs ∧ release_shape rr.via o w.r.last_update_time evs := by
  unfold replace_write at h
  simp only [record_apply_eq_run] at h
  generalize hout : applier.run (applier.select ns) env ns _ _ _ = out at h
  obtain ⟨evs, ht, hcall, happ, hwr, hfail, hok, hneg⟩ := applier_run_spec _ _ _ _ _ _ _ hout
  have hquiet : ∀ e ∈ [if is_create then Event.as_storage_record_create
      else Event.as_storage_record_open] ++ evs,
      e ≠ .as_record_done ∧ e ≠ .cf_mutex_unlock ∧ e.isXdrSubmit = false
        ∧ (e.isCheckSource = true → rr.via = .VIA_REPLICATION) := by
    intro e he
    rcases List.mem_append.1 he with he | he
    · cases is_create <;> simp at he <;> subst he <;>
        simp [Event.isXdrSubmit, Event.isCheckSource]
    · have := isApplierCall_quiet e (hcall e he)
      exact ⟨this.1, this.2.1, this.2.2.1, by simp [this.2.2.2.1]⟩
  have htr : out.2.trace = w.trace ++ ([if is_create then Event.as_storage_record_create
      else Event.as_storage_record_open] ++ evs) := by
    rw [ht]; cases is_create <;> simp [World.log]
  by_cases hres : out.1 = 0
  · simp only [hres, ne_eq, not_true_eq_false, if_false] at h
    split at h
    · cases h
    · rename_i w1 hd
      obtain ⟨hr1, rel, ht1, hrel⟩ := as_record_done_shape _ _ hd
      cases h
      by_cases hvia : rr.via = .VIA_REPLICATION
      · simp only [hvia, if_true] at ht1 hr1
        refine ⟨([if is_create then Event.as_storage_record_create
            else Event.as_storage_record_open] ++ evs ++ [.record_replaced,
              .as_xdr_get_submit_info (as_xdr_get_submit_info out.2.r w.r.last_update_time),
              .as_storage_record_close]) ++ [.as_record_done] ++ rel ++ [.cf_mutex_unlock] ++
            [.as_xdr_submit (as_xdr_get_submit_info out.2.r w.r.last_update_time)], ?_,
          ⟨_, rel, _, rfl, ?_, hrel, by simp [Event.isXdrSubmit], by simp,
            fun hne => absurd hvia hne, ?_⟩⟩
        · simp only [World.outcome, World.log, ht1, htr, hvia, if_true]
          cases is_create <;> simp [World.log]
        · intro e he
          rcases List.mem_append.1 he with he | he
          · exact hquiet e he
          · simp only [List.mem_cons, List.mem_singleton, List.not_mem_nil, or_false] at he
            rcases he with he | he | he <;> subst he <;>
              simp [Event.isXdrSubmit, Event.isCheckSource]
        · intro _ _ _
          refine ⟨out.2.r, ?_, rfl⟩
          simp [World.outcome, World.tree, World.log, hr1, hvia]
      · simp only [hvia, if_false] at ht1 hr1
        refine ⟨([if is_create then Event.as_storage_record_create
            else Event.as_storage_record_open] ++ evs ++ [.record_replaced,
              .as_storage_record_close]) ++ [.as_record_done] ++ rel ++ [.cf_mutex_unlock] ++ [],
          ?_, ⟨_, rel, [], rfl, ?_, hrel, by simp, by simp, by simp, ?_⟩⟩
        · simp only [World.outcome, World.log, ht1, htr, hvia, if_false]
          cases is_create <;> simp [World.log]
        · intro e he
          rcases List.mem_append.1 he with he | he
          · exact hquiet e he
          · simp only [List.mem_cons, List.mem_singleton, List.not_mem_nil, or_false] at he
            rcases he with he | he <;> subst he <;>
              simp [Event.isXdrSubmit, Event.isCheckSource]
        · intro _ _ hv
          exact absurd hv hvia
  · simp only [ne_eq, hres, not_false_eq_true, if_true, Option.map_eq_some'] at h
    obtain ⟨evs2, ht2, hsh, -⟩ :=
      release_shape_of_failed rr.via w.r.last_update_time _ _ _ _ _ h
    have hr : o.result = out.1 := by
      obtain ⟨a, -, rfl⟩ := h
      rfl
    refine ⟨([if is_create then Event.as_storage_record_create
      else Event.as_storage_record_open] ++ evs) ++ evs2, ?_, ?_⟩
    · rw [ht2, htr]; simp
    · exact release_shape_prepend _ _ _ _ _ hquiet (Or.inl (by rw [hr]; exact hres)) hsh

/-- The padding-fix part has the release shape. -/
theorem replace_fix_padded_shape (env : Env) (ns : as_namespace) (rr : as_remote_record)
    (is_create : Bool) (w : World) (o : Outcome)
    (h : replace_fix_padded env ns rr is_create w = some o) :
    ∃ evs, o.trace = w.trace ++ evs ∧ release_shape rr.via o w.r.last_update_time evs := by
  by_cases hfix : rr.via ≠ .VIA_REPLICATION ∧ ns.storage_type = .AS_STORAGE_ENGINE_SSD ∧
      env.as_exchange_min_compatibility_id < 11
  · by_cases hfixed : env.as_flat_fix_padded_rr.isNone
    · simp [replace_fix_padded, hfix, hfixed] at h
      obtain ⟨evs, ht, hsh, -⟩ :=
        release_shape_of_failed rr.via w.r.last_update_time _ _ _ _ _ h
      refine ⟨[.as_flat_fix_padded_rr env.as_flat_fix_padded_rr.isSome] ++ evs,
        by simp [ht, World.log], ?_⟩
      exact release_shape_prepend _ _ _ _ _
        (by simp [Event.isXdrSubmit, Event.isCheckSource])
        (Or.inr (by simp [Event.isApply])) hsh
    · simp [replace_fix_padded, hfix, hfixed] at h
      obtain ⟨evs, ht, hsh⟩ := replace_write_shape _ _ _ _ _ _ h
      refine ⟨[.as_flat_fix_padded_rr env.as_flat_fix_padded_rr.isSome] ++ evs,
        by simp [ht, World.log], ?_⟩
      exact release_shape_prepend _ _ _ _ _
        (by simp [Event.isXdrSubmit, Event.isCheckSource])
        (Or.inr (by simp [Event.isApply])) hsh
  · have h' : replace_write env ns rr is_create w = some o := by
      simpa [replace_fix_padded, hfix] using h
    exact replace_write_shape _ _ _ _ _ _ h'

/-- The part handling a winning remote record has the release shape; for a
created entry the prior LUT of the notification is the remote record's, stamped
on creation. -/
theorem replace_apply_shape (env : Env) (ns : as_namespace) (rr : as_remote_record)
    (is_create : Bool) (w : World) (o : Outcome)
    (h : replace_apply env ns rr is_create w = some o) :
    ∃ evs, o.trace = w.trace ++ evs ∧
      release_shape rr.via o
        (if is_create then rr.last_update_time else w.r.last_update_time) evs := by
  cases is_create
  · have h' : replace_fix_padded env ns rr false w = some o := by
      simpa [replace_apply] using h
    exact replace_fix_padded_shape _ _ _ _ _ _ h'
  · cases hs : rr.set_name
    · simp only [replace_apply, hs, Option.isSome_none, Bool.false_eq_true, and_false,
        false_and, if_false, if_true, true_and] at h
      split_ifs at h with htr
      · simp only [Option.map_eq_some'] at h
        obtain ⟨evs, ht, hsh, -⟩ :=
          release_shape_of_failed rr.via rr.last_update_time _ _ _ _ _ h
        refine ⟨[.as_truncate_record_is_truncated
          (env.as_truncate_record_is_truncated
            { w.r with last_update_time := rr.last_update_time })] ++ evs,
          by simp [ht, World.log], ?_⟩
        exact release_shape_prepend _ _ _ _ _
          (by simp [Event.isXdrSubmit, Event.isCheckSource])
          (Or.inr (by simp [Event.isApply])) hsh
      · obtain ⟨evs, ht, hsh⟩ := replace_fix_padded_shape _ _ _ _ _ _ h
        refine ⟨[.as_truncate_record_is_truncated
          (env.as_truncate_record_is_truncated
            { w.r with last_update_time := rr.last_update_time })] ++ evs,
          by simp [ht, World.log], ?_⟩
        exact release_shape_prepend _ _ _ _ _
          (by simp [Event.isXdrSubmit, Event.isCheckSource])
          (Or.inr (by simp [Event.isApply])) hsh
    · simp only [replace_apply, hs, Option.isSome_some, and_self, and_true, true_and,
        if_true] at h
      split_ifs at h with hset htr
      · simp only [Option.map_eq_some'] at h
        obtain ⟨evs, ht, hsh, -⟩ :=
          release_shape_of_failed rr.via rr.last_update_time _ _ _ _ _ h
        refine ⟨[.as_index_set_set_w_len env.as_index_set_set_w_len.1] ++ evs,
          by simp [ht, World.log], ?_⟩
        exact release_shape_prepend _ _ _ _ _
          (by simp [Event.isXdrSubmit, Event.isCheckSource])
          (Or.inr (by simp [Event.isApply])) hsh
      · simp only [Option.map_eq_some'] at h
        obtain ⟨evs, ht, hsh, -⟩ :=
          release_shape_of_failed rr.via rr.last_update_time _ _ _ _ _ h
        refine ⟨[.as_index_set_set_w_len env.as_index_set_set_w_len.1,
          .as_truncate_record_is_truncated
            (env.as_truncate_record_is_truncated
              { w.r with set_id := env.as_index_set_set_w_len.2,
                         last_update_time := rr.last_update_time })] ++ evs,
          by simp [ht, World.log], ?_⟩
        exact release_shape_prepend _ _ _ _ _
          (by simp [Event.isXdrSubmit, Event.isCheckSource])
          (Or.inr (by simp [Event.isApply])) hsh
      · obtain ⟨evs, ht, hsh⟩ := replace_fix_padded_shape _ _ _ _ _ _ h
        refine ⟨[.as_index_set_set_w_len env.as_index_set_set_w_len.1,
          .as_truncate_record_is_truncated
            (env.as_truncate_record_is_truncated
              { w.r with set_id := env.as_index_set_set_w_len.2,
                         last_update_time := rr.last_update_time })] ++ evs,
          by simp [ht, World.log], ?_⟩
        exact release_shape_prepend _ _ _ _ _
          (by simp [Event.isXdrSubmit, Event.isCheckSource])
          (Or.inr (by simp [Event.isApply])) hsh

/-- The conflict-resolution part has the release shape. -/
theorem replace_resolve_shape (env : Env) (ns : as_namespace) (rr : as_remote_record)
    (policy : conflict_resolution_pol) (w : World) (o : Outcome)
    (h : replace_resolve env ns rr policy w = some o) :
    ∃ evs, o.trace = w.trace ++ evs ∧ release_shape rr.via o w.r.last_update_time evs := by
  unfold replace_resolve at h
  simp only at h
  generalize as_record_resolve_conflict env.record_resolve_conflict_cp policy
    w.r.generation w.r.last_update_time (u16 rr.generation) rr.last_update_time = res at h
  cases res with
  | none => simp at h
  | some x =>
    simp only at h
    by_cases h1 : x ≤ 0
    · by_cases h2 : rr.via ≠ .VIA_REPLICATION ∨ x < 0
      · simp only [h1, h2, if_true, Option.map_eq_some'] at h
        obtain ⟨evs, ht, hsh, -⟩ :=
          release_shape_of_failed rr.via w.r.last_update_time _ _ _ _ _ h
        refine ⟨[.as_record_resolve_conflict (some x)] ++ evs, by simp [ht, World.log], ?_⟩
        exact release_shape_prepend _ _ _ _ _
          (by simp [Event.isXdrSubmit, Event.isCheckSource])
          (Or.inr (by simp [Event.isApply])) hsh
      · simp only [h1, h2, if_true, if_false] at h
        have hvia : rr.via = .VIA_REPLICATION := by
          by_contra hne; exact h2 (Or.inl hne)
        split at h
        · cases h
        · rename_i w' hf
          cases h
          obtain ⟨pre, rel, ht, hpre, hrel⟩ := record_replace_failed_shape _ _ _ _ hf
          refine ⟨([.as_record_resolve_conflict (some x),
              .as_xdr_get_submit_info (as_xdr_get_submit_info w.r w.r.last_update_time)] ++ pre)
              ++ [.as_record_done] ++ rel ++ [.cf_mutex_unlock]
              ++ [.as_xdr_submit (as_xdr_get_submit_info w.r w.r.last_update_time)], ?_,
            ⟨_, rel, _, rfl, ?_, hrel, by simp [Event.isXdrSubmit], by simp,
              fun hne => absurd hvia hne, ?_⟩⟩
          · simp [World.outcome, World.log, ht]
          · intro e he
            simp only [List.mem_append, List.mem_cons, List.mem_singleton, List.not_mem_nil,
              or_false] at he
            rcases he with (he | he) | he
            · subst he; simp [Event.isXdrSubmit, Event.isCheckSource]
            · subst he; simp [Event.isXdrSubmit, Event.isCheckSource]
            · rcases hpre e he with h | h <;> subst h <;>
                simp [Event.isXdrSubmit, Event.isCheckSource]
          · intro hok
            exact absurd hok (by simp [World.outcome, AS_ERR_RECORD_EXISTS, AS_OK])
    · simp only [h1, if_false] at h
      obtain ⟨evs, ht, hsh⟩ := replace_apply_shape _ _ _ _ _ _ h
      refine ⟨[.as_record_resolve_conflict (some x)] ++ evs, by simp [ht, World.log], ?_⟩
      exact release_shape_prepend _ _ _ _ _
        (by simp [Event.isXdrSubmit, Event.isCheckSource])
        (Or.inr (by simp [Event.isApply])) (by simpa [World.log] using hsh)

/-- Every return of `as_record_replace_if_better`: either the index could not
create an entry (nothing but the lookup was called), or the call log has the
release shape.  The prior LUT of a commit notification is the LUT of the entry
found, or the remote record's for a created entry. -/
theorem replace_if_better_shape (env : Env) (ns : as_namespace) (tree : Option as_record)
    (rr : as_remote_record) (o : Outcome)
    (h : as_record_replace_if_better env ns tree rr = some o) :
    ((as_record_get_create env tree).1 < 0 ∧ o.result = AS_ERR_OUT_OF_SPACE ∧
        o.trace = [.as_index_get_insert_vlock (-1)] ∧ o.tree = none)
    ∨ (0 ≤ (as_record_get_create env tree).1 ∧
        release_shape rr.via o (prior_lut tree rr) o.trace) := by
  cases tree with
  | none =>
    simp only [prior_lut]
    by_cases hsp : env.arena_has_space = true
    · right
      refine ⟨by simp [as_record_get_create, as_index_get_insert_vlock, hsp], ?_⟩
      by_cases hvia : rr.via = .VIA_REPLICATION
      · by_cases hsrc : env.as_partition_check_source.1 = AS_OK
        · simp [as_record_replace_if_better, as_record_get_create, as_index_get_insert_vlock,
            hsp, hvia, hsrc, World.log] at h
          obtain ⟨evs, ht, hsh⟩ := replace_apply_shape _ _ _ _ _ _ h
          rw [ht]
          exact release_shape_prepend _ _ _ _ _
            (by simp [Event.isXdrSubmit, Event.isCheckSource, hvia])
            (Or.inr (by simp [Event.isApply])) (by simpa using hsh)
        · simp [as_record_replace_if_better, as_record_get_create, as_index_get_insert_vlock,
            hsp, hvia, hsrc, World.log] at h
          obtain ⟨evs, ht, hsh, -⟩ :=
            release_shape_of_failed rr.via rr.last_update_time _ _ _ _ _ h
          rw [ht]
          exact release_shape_prepend _ _ _ _ _
            (by simp [Event.isXdrSubmit, Event.isCheckSource, hvia])
            (Or.inr (by simp [Event.isApply])) hsh
      · simp [as_record_replace_if_better, as_record_get_create, as_index_get_insert_vlock,
          hsp, hvia, World.log] at h
        obtain ⟨evs, ht, hsh⟩ := replace_apply_shape _ _ _ _ _ _ h
        rw [ht]
        exact release_shape_prepend _ _ _ _ _
          (by simp [Event.isXdrSubmit, Event.isCheckSource])
          (Or.inr (by simp [Event.isApply])) (by simpa using hsh)
    · simp [as_record_replace_if_better, as_record_get_create, as_index_get_insert_vlock,
        hsp] at h
      left
      subst h
      simp [as_record_get_create, as_index_get_insert_vlock, hsp]
  | some r =>
    simp only [prior_lut]
    right
    refine ⟨by simp [as_record_get_create, as_index_get_insert_vlock], ?_⟩
    by_cases hchk : env.record_replace_check r < 0
    · by_cases hvia : rr.via = .VIA_REPLICATION
      · by_cases hsrc : env.as_partition_check_source.1 = AS_OK
        · simp [as_record_replace_if_better, as_record_get_create, as_index_get_insert_vlock,
            hvia, hsrc, hchk, World.log] at h
          obtain ⟨evs, ht, hsh, -⟩ :=
            release_shape_of_failed rr.via r.last_update_time _ _ _ _ _ h
          rw [ht]
          exact release_shape_prepend _ _ _ _ _
            (by simp [Event.isXdrSubmit, Event.isCheckSource, hvia])
            (Or.inr (by simp [Event.isApply])) hsh
        · simp [as_record_replace_if_better, as_record_get_create, as_index_get_insert_vlock,
            hvia, hsrc, World.log] at h
          obtain ⟨evs, ht, hsh, -⟩ :=
            release_shape_of_failed rr.via r.last_update_time _ _ _ _ _ h
          rw [ht]
          exact release_shape_prepend _ _ _ _ _
            (by simp [Event.isXdrSubmit, Event.isCheckSource, hvia])
            (Or.inr (by simp [Event.isApply])) hsh
      · simp [as_record_replace_if_better, as_record_get_create, as_index_get_insert_vlock,
          hvia, hchk, World.log] at h
        obtain ⟨evs, ht, hsh, -⟩ :=
          release_shape_of_failed rr.via r.last_update_time _ _ _ _ _ h
        rw [ht]
        exact release_shape_prepend _ _ _ _ _
          (by simp [Event.isXdrSubmit, Event.isCheckSource])
          (Or.inr (by simp [Event.isApply])) hsh
    · by_cases hvia : rr.via = .VIA_REPLICATION
      · by_cases hsrc : env.as_partition_check_source.1 = AS_OK
        · simp [as_record_replace_if_better, as_record_get_create, as_index_get_insert_vlock,
            hvia, hsrc, hchk, World.log] at h
          obtain ⟨evs, ht, hsh⟩ := replace_resolve_shape _ _ _ _ _ _ h
          rw [ht]
          exact release_shape_prepend _ _ _ _ _
            (by simp [Event.isXdrSubmit, Event.isCheckSource, hvia])
            (Or.inr (by simp [Event.isApply])) hsh
        · simp [as_record_replace_if_better, as_record_get_create, as_index_get_insert_vlock,
            hvia, hsrc, World.log] at h
          obtain ⟨evs, ht, hsh, -⟩ :=
            release_shape_of_failed rr.via r.last_update_time _ _ _ _ _ h
          rw [ht]
          exact release_shape_prepend _ _ _ _ _
            (by simp [Event.isXdrSubmit, Event.isCheckSource, hvia])
            (Or.inr (by simp [Event.isApply])) hsh
      · simp [as_record_replace_if_better, as_record_get_create, as_index_get_insert_vlock,
          hvia, hchk, World.log] at h
        obtain ⟨evs, ht, hsh⟩ := replace_resolve_shape _ _ _ _ _ _ h
        rw [ht]
        exact release_shape_prepend _ _ _ _ _
          (by simp [Event.isXdrSubmit, Event.isCheckSource])
          (Or.inr (by simp [Event.isApply])) hsh

/-- An applier entry is no notification. -/
theorem isApply_quiet (e : Event) (h : e.isApply = true) :
    e.isXdrSubmit = false ∧ e.isCheckSource = false := by
  cases e <;> simp [Event.isApply] at h
  exact ⟨rfl, rfl⟩

/-- A source check is no notification. -/
theorem isCheckSource_quiet (e : Event) (h : e.isCheckSource = true) :
    e.isXdrSubmit = false := by
  cases e <;> simp [Event.isCheckSource] at h
  rfl

/-- In a call log of the release shape `as_record_done` and the unlock occur
exactly once. -/
theorem release_shape_count (via : record_via) (o : Outcome) (prev_lut : Nat)
    (evs : List Event) (h : release_shape via o prev_lut evs) :
    evs.count .as_record_done = 1 ∧ evs.count .cf_mutex_unlock = 1 := by
  obtain ⟨a, rel, b, he, ha, hrel, hb, -, -, -⟩ := h
  have ha1 : a.count .as_record_done = 0 :=
    List.count_eq_zero.2 (fun hm => (ha _ hm).1 rfl)
  have ha2 : a.count .cf_mutex_unlock = 0 :=
    List.count_eq_zero.2 (fun hm => (ha _ hm).2.1 rfl)
  have hr1 : rel.count .as_record_done = 0 :=
    List.count_eq_zero.2 (fun hm => by rcases hrel _ hm with h | h | h <;> cases h)
  have hr2 : rel.count .cf_mutex_unlock = 0 :=
    List.count_eq_zero.2 (fun hm => by rcases hrel _ hm with h | h | h <;> cases h)
  have hb1 : b.count .as_record_done = 0 :=
    List.count_eq_zero.2 (fun hm => by have := hb _ hm; simp [Event.isXdrSubmit] at this)
  have hb2 : b.count .cf_mutex_unlock = 0 :=
    List.count_eq_zero.2 (fun hm => by have := hb _ hm; simp [Event.isXdrSubmit] at this)
  subst he
  simp [List.count_append, ha1, ha2, hr1, hr2, hb1, hb2]

/-- In a call log of the release shape the source check is called only for a
replication-origin record and notifications are submitted only for one. -/
theorem release_shape_origin (via : record_via) (o : Outcome) (prev_lut : Nat)
    (evs : List Event) (h : release_shape via o prev_lut evs) :
    ∀ e ∈ evs, (e.isCheckSource = true → via = .VIA_REPLICATION) ∧
      (e.isXdrSubmit = true → via = .VIA_REPLICATION) := by
  obtain ⟨a, rel, b, he, ha, hrel, hb, -, hvia, -⟩ := h
  subst he
  intro e hm
  simp only [List.mem_append, List.mem_singleton] at hm
  rcases hm with (((hm | hm) | hm) | hm) | hm
  · refine ⟨(ha e hm).2.2.2, fun hx => ?_⟩
    rw [(ha e hm).2.2.1] at hx; cases hx
  · subst hm; simp [Event.isCheckSource, Event.isXdrSubmit]
  · rcases hrel e hm with h | h | h <;> subst h <;> simp [Event.isCheckSource, Event.isXdrSubmit]
  · subst hm; simp [Event.isCheckSource, Event.isXdrSubmit]
  · refine ⟨fun hx => ?_, fun _ => ?_⟩
    · have hs := hb e hm
      rw [(isCheckSource_quiet e hx)] at hs
      cases hs
    · by_contra hne
      rw [hvia hne] at hm
      cases hm

/-- In a call log of the release shape every notification comes after
`as_record_done` and the unlock. -/
theorem release_shape_submit_after (via : record_via) (o : Outcome) (prev_lut : Nat)
    (evs : List Event) (h : release_shape via o prev_lut evs)
    (pre post : List Event) (e : Event) (hsplit : evs = pre ++ e :: post)
    (hx : e.isXdrSubmit = true) :
    Event.as_record_done ∈ pre ∧ Event.cf_mutex_unlock ∈ pre
      ∧ Event.as_record_done ∉ post ∧ Event.cf_mutex_unlock ∉ post := by
  obtain ⟨a, rel, b, he, ha, hrel, hb, hlen, -, -⟩ := h
  have hX : ∀ x ∈ a ++ [Event.as_record_done] ++ rel ++ [Event.cf_mutex_unlock],
      x.isXdrSubmit = false := by
    intro x hm
    simp only [List.mem_append, List.mem_singleton] at hm
    rcases hm with ((hm | hm) | hm) | hm
    · exact (ha x hm).2.2.1
    · subst hm; rfl
    · rcases hrel x hm with h | h | h <;> subst h <;> rfl
    · subst hm; rfl
  rw [he] at hsplit
  rcases List.append_eq_append_iff.1 hsplit with ⟨c, h1, h2⟩ | ⟨c, h1, h2⟩
  · -- pre = X ++ c, b = c ++ e :: post
    have hb' : b = c ++ e :: post := h2
    have hc : c = [] ∧ post = [] := by
      rw [hb'] at hlen
      simp only [List.length_append, List.length_cons] at hlen
      exact ⟨List.length_eq_zero.1 (by omega), List.length_eq_zero.1 (by omega)⟩
    obtain ⟨rfl, rfl⟩ := hc
    rw [h1]
    simp
  · -- X = pre ++ c, e :: post = c ++ b
    cases c with
    | nil =>
      simp at h1 h2
      have hpost : ∀ x ∈ post, x.isXdrSubmit = true := by
        intro x hm
        exact hb x (by rw [← h2]; exact List.mem_cons_of_mem _ hm)
      rw [← h1]
      refine ⟨by simp, by simp, ?_, ?_⟩
      · intro hm; have := hpost _ hm; simp [Event.isXdrSubmit] at this
      · intro hm; have := hpost _ hm; simp [Event.isXdrSubmit] at this
    | cons c0 c' =>
      simp at h2
      have : e ∈ a ++ [Event.as_record_done] ++ rel ++ [Event.cf_mutex_unlock] := by
        rw [h1, h2.1]; simp
      rw [hX e this] at hx
      cases hx

/-- In a call log of the release shape, a committed replication-origin record
has exactly one notification, built from the record left in the index and the
prior LUT. -/
theorem release_shape_commit (via : record_via) (o : Outcome) (prev_lut : Nat)
    (evs : List Event) (h : release_shape via o prev_lut evs)
    (hok : o.result = AS_OK) (happ : ∃ e ∈ evs, e.isApply = true)
    (hvia : via = .VIA_REPLICATION) :
    ∃ r1, o.tree = World.tree ⟨r1, []⟩ ∧
      evs.filter Event.isXdrSubmit = [.as_xdr_submit (as_xdr_get_submit_info r1 prev_lut)] := by
  obtain ⟨a, rel, b, he, ha, hrel, hb, -, -, hcommit⟩ := h
  have happ' : ∃ e ∈ a, e.isApply = true := by
    obtain ⟨e, hm, hap⟩ := happ
    rw [he] at hm
    simp only [List.mem_append, List.mem_singleton] at hm
    rcases hm with (((hm | hm) | hm) | hm) | hm
    · exact ⟨e, hm, hap⟩
    · subst hm; cases hap
    · rcases hrel e hm with h | h | h <;> subst h <;> cases hap
    · subst hm; cases hap
    · have hx := hb e hm
      rw [(isApply_quiet e hap).1] at hx
      cases hx
  obtain ⟨r1, ht, hbeq⟩ := hcommit hok happ' hvia
  refine ⟨r1, ht, ?_⟩
  have fa : a.filter Event.isXdrSubmit = [] :=
    List.filter_eq_nil_iff.2 (fun x hm => by simp [(ha x hm).2.2.1])
  have fr : rel.filter Event.isXdrSubmit = [] :=
    List.filter_eq_nil_iff.2 (fun x hm => by
      rcases hrel x hm with h | h | h <;> subst h <;> simp [Event.isXdrSubmit])
  rw [he]
  simp [List.filter_append, fa, fr, hbeq, Event.isXdrSubmit]

/-! ## Theorems: release and notification on every path -/

/-- C17. Reference release on every exit path.  Whenever
`as_record_replace_if_better` returns and `as_record_get_create` succeeded
(returned 0 or 1), `as_record_done` was called exactly once, and the slot was
unlocked exactly once, on whatever path the function returned; when
`as_record_get_create` failed, `as_record_done` was never called and the result
is `AS_ERR_OUT_OF_SPACE`.  The function returns whenever the entry found is
linked and the policy is valid. -/
theorem release_exactly_once (env : Env) (ns : as_namespace) (tree : Option as_record)
    (rr : as_remote_record) :
    (∀ o, as_record_replace_if_better env ns tree rr = some o →
      (((as_record_get_create env tree).1 = 0 ∨ (as_record_get_create env tree).1 = 1) →
          o.trace.count .as_record_done = 1 ∧ o.trace.count .cf_mutex_unlock = 1)
        ∧ ((as_record_get_create env tree).1 < 0 →
          o.trace.count .as_record_done = 0 ∧ o.result = AS_ERR_OUT_OF_SPACE))
      ∧ ((∀ r, tree = some r → as_index_is_valid_record r = true) →
          (tree ≠ none →
            (if rr.via = .VIA_REPLICATION then env.repl_write_conflict_resolution_policy
             else ns.conflict_resolution_policy) ≠ .INVALID) →
          ∃ o, as_record_replace_if_better env ns tree rr = some o) := by
  refine ⟨?_, fun hvalid hpol =>
    Option.isSome_iff_exists.1 (replace_if_better_total env ns tree rr hvalid hpol)⟩
  intro o h
  rcases replace_if_better_shape _ _ _ _ _ h with ⟨hneg, hres, htr, -⟩ | ⟨hpos, hsh⟩
  · refine ⟨fun hrv => ?_, fun _ => ⟨by rw [htr]; decide, hres⟩⟩
    rcases hrv with hrv | hrv <;> rw [hrv] at hneg <;> exact absurd hneg (by decide)
  · exact ⟨fun _ => release_shape_count _ _ _ _ hsh, fun hneg => absurd hpos (by omega)⟩

/-- Witness for C17: a generation-6 remote record replaces a generation-5 local
record; the call returns and its log holds `as_record_done` exactly once. -/
theorem release_exactly_once_witness :
    ∃ o, as_record_replace_if_better Env.sample (sample_ns .GENERATION true false)
        (some (sample_record 5 100)) (sample_remote .VIA_REPLICATION 6 200) = some o
      ∧ o.trace.count .as_record_done = 1 ∧ o.trace.count .cf_mutex_unlock = 1 := by
  have h := release_exactly_once Env.sample (sample_ns .GENERATION true false)
    (some (sample_record 5 100)) (sample_remote .VIA_REPLICATION 6 200)
  obtain ⟨o, ho⟩ := h.2 (by intro r hr; cases hr; decide) (by intro _; decide)
  exact ⟨o, ho, (h.1 o ho).1 (Or.inl (by decide))⟩

/-- C18. Notification outside the lock.  In every return of
`as_record_replace_if_better`, each `as_xdr_submit` call comes after the call
of `as_record_done` and after the unlock of the slot, and neither occurs again
after it: no notification is submitted while the index reference is held. -/
theorem xdr_submit_after_release (env : Env) (ns : as_namespace) (tree : Option as_record)
    (rr : as_remote_record) (o : Outcome)
    (h : as_record_replace_if_better env ns tree rr = some o)
    (pre post : List Event) (e : Event)
    (hsplit : o.trace = pre ++ e :: post) (hx : e.isXdrSubmit = true) :
    Event.as_record_done ∈ pre ∧ Event.cf_mutex_unlock ∈ pre
      ∧ Event.as_record_done ∉ post ∧ Event.cf_mutex_unlock ∉ post := by
  rcases replace_if_better_shape _ _ _ _ _ h with ⟨-, -, htr, -⟩ | ⟨-, hsh⟩
  · exfalso
    have hm : e ∈ o.trace := by rw [hsplit]; simp
    rw [htr] at hm
    simp only [List.mem_singleton] at hm
    subst hm
    cases hx
  · exact release_shape_submit_after _ _ _ _ hsh pre post e hsplit hx

/-- Witness for C18, the replication tie: the notification is the last call,
after `as_record_done` and the unlock. -/
theorem xdr_submit_after_release_witness :
    Event.as_record_done ∈
        [Event.as_index_get_insert_vlock 0, .as_partition_check_source AS_OK,
          .repl_write_init_repl_state true, .as_record_resolve_conflict (some 0),
          .as_xdr_get_submit_info
            (as_xdr_get_submit_info (sample_record 5 100) 100),
          .as_record_done, .cf_mutex_unlock]
      ∧ Event.cf_mutex_unlock ∈
        [Event.as_index_get_insert_vlock 0, .as_partition_check_source AS_OK,
          .repl_write_init_repl_state true, .as_record_resolve_conflict (some 0),
          .as_xdr_get_submit_info
            (as_xdr_get_submit_info (sample_record 5 100) 100),
          .as_record_done, .cf_mutex_unlock]
      ∧ Event.as_record_done ∉ ([] : List Event)
      ∧ Event.cf_mutex_unlock ∉ ([] : List Event) :=
  xdr_submit_after_release Env.sample (sample_ns .GENERATION true false)
    (some (sample_record 5 100)) (sample_remote .VIA_REPLICATION 5 100)
    (Outcome.mk AS_ERR_RECORD_EXISTS (some (sample_record 5 100))
      [.as_index_get_insert_vlock 0, .as_partition_check_source AS_OK,
        .repl_write_init_repl_state true, .as_record_resolve_conflict (some 0),
        .as_xdr_get_submit_info (as_xdr_get_submit_info (sample_record 5 100) 100),
        .as_record_done, .cf_mutex_unlock,
        .as_xdr_submit (as_xdr_get_submit_info (sample_record 5 100) 100)])
    (by decide) _ [] (.as_xdr_submit (as_xdr_get_submit_info (sample_record 5 100) 100))
    rfl rfl

/-- C19. Notification origin and content.  `as_record_replace_if_better`
submits a cross-datacenter notification only for replication-origin records: for
migration and duplicate-resolution origin no return holds an `as_xdr_submit`.
When a replication-origin record is applied (an applier was entered and the
result is `AS_OK`), exactly one notification is submitted; it is built from the
updated record, which carries the remote record's generation, LUT and
void-time, together with the LUT the entry held before the applier overwrote
its metadata (for a created entry the remote LUT stamped on creation). -/
theorem xdr_submit_origin (env : Env) (ns : as_namespace) (tree : Option as_record)
    (rr : as_remote_record) (o : Outcome)
    (hvalid : ∀ r, tree = some r → as_index_is_valid_record r = true)
    (h : as_record_replace_if_better env ns tree rr = some o) :
    (rr.via ≠ .VIA_REPLICATION → ∀ e ∈ o.trace, e.isXdrSubmit = false)
      ∧ (rr.via = .VIA_REPLICATION → o.result = AS_OK → (∃ e ∈ o.trace, e.isApply = true) →
          ∃ r1, o.tree = some r1
            ∧ r1.generation = u16 rr.generation
            ∧ r1.last_update_time = rr.last_update_time
            ∧ r1.void_time = rr.void_time
            ∧ o.trace.filter Event.isXdrSubmit
                = [.as_xdr_submit (as_xdr_get_submit_info r1 (prior_lut tree rr))]) := by
  constructor
  · intro hvia e he
    rcases replace_if_better_shape _ _ _ _ _ h with ⟨-, -, htr, -⟩ | ⟨-, hsh⟩
    · rw [htr] at he
      simp only [List.mem_singleton] at he
      subst he; rfl
    · by_contra hx
      have hx' : e.isXdrSubmit = true := by simpa using hx
      exact hvia ((release_shape_origin _ _ _ _ hsh e he).2 hx')
  · intro hvia hok happ
    obtain ⟨r1, ht, hv1, hg, hl, hvt⟩ := replace_applied_entry _ _ _ _ _ hvalid h hok happ
    rcases replace_if_better_shape _ _ _ _ _ h with ⟨-, hres, -, -⟩ | ⟨-, hsh⟩
    · rw [hres] at hok; exact absurd hok (by decide)
    · obtain ⟨r2, ht2, hf⟩ := release_shape_commit _ _ _ _ hsh hok happ hvia
      have h12 : r2 = r1 := by
        rw [ht] at ht2
        unfold World.tree at ht2
        split_ifs at ht2
        · exact (Option.some.inj ht2).symm
      subst h12
      exact ⟨r2, ht, hg, hl, hvt, hf⟩

/-- Witness for C19: a generation-6, LUT-200 remote record of replication origin
replaces a generation-5, LUT-100 local record; the one notification carries the
updated record and the prior LUT 100. -/
theorem xdr_submit_origin_witness :
    ∃ o, as_record_replace_if_better Env.sample (sample_ns .GENERATION true false)
        (some (sample_record 5 100)) (sample_remote .VIA_REPLICATION 6 200) = some o
      ∧ ∃ r1, o.tree = some r1
        ∧ r1.generation = u16 6 ∧ r1.last_update_time = 200 ∧ r1.void_time = 9
        ∧ o.trace.filter Event.isXdrSubmit
            = [.as_xdr_submit (as_xdr_get_submit_info r1 100)] := by
  obtain ⟨o, ho⟩ : ∃ o, as_record_replace_if_better Env.sample
      (sample_ns .GENERATION true false) (some (sample_record 5 100))
      (sample_remote .VIA_REPLICATION 6 200) = some o :=
    Option.isSome_iff_exists.1 (by decide)
  have hok : o.result = AS_OK := by
    have : (as_record_replace_if_better Env.sample (sample_ns .GENERATION true false)
      (some (sample_record 5 100)) (sample_remote .VIA_REPLICATION 6 200)).map Outcome.result
        = some AS_OK := by decide
    rw [ho] at this
    simpa using this
  have happ : ∃ e ∈ o.trace, e.isApply = true := by
    have : ((as_record_replace_if_better Env.sample (sample_ns .GENERATION true false)
      (some (sample_record 5 100)) (sample_remote .VIA_REPLICATION 6 200)).map
        (fun o => o.trace.any Event.isApply)) = some true := by decide
    rw [ho] at this
    simpa [List.any_eq_true] using this
  exact ⟨o, ho, (xdr_submit_origin Env.sample (sample_ns .GENERATION true false)
    (some (sample_record 5 100)) (sample_remote .VIA_REPLICATION 6 200) o
    (by intro r hr; cases hr; decide) ho).2 rfl hok happ⟩

/-! ## Theorems: creation path -/

/-- C11. Truncation no-op.  `as_record_replace_if_better` creates a new index
entry (no entry exists, the arena has space), the admission of a
replication-origin record passes and the set name, if any, is accepted; the
truncation subsystem reports the created record, stamped with the remote
record's last_update_time, as truncated.  Then the call returns `AS_OK`, deletes
the entry it created, releases the reference, and makes no storage create, open
or write call and no applier call. -/
theorem truncation_noop (env : Env) (ns : as_namespace) (rr : as_remote_record)
    (hspace : env.arena_has_space = true)
    (hsrc : rr.via = .VIA_REPLICATION → env.as_partition_check_source.1 = AS_OK)
    (hset : rr.set_name.isSome = true → ¬ env.as_index_set_set_w_len.1 < 0)
    (htrunc : env.as_truncate_record_is_truncated
      { as_index_new with
        set_id := if rr.set_name.isSome then env.as_index_set_set_w_len.2 else 0,
        last_update_time := rr.last_update_time } = true) :
    ∃ o, as_record_replace_if_better env ns none rr = some o
      ∧ o.result = AS_OK ∧ o.tree = none
      ∧ o.trace = [.as_index_get_insert_vlock 1, .incr_n_objects]
          ++ (if rr.via = .VIA_REPLICATION then
                [.as_partition_check_source AS_OK,
                 .repl_write_init_repl_state env.as_partition_check_source.2]
              else [])
          ++ (if rr.set_name.isSome then
                [.as_index_set_set_w_len env.as_index_set_set_w_len.1]
              else [])
          ++ [.as_truncate_record_is_truncated true, .as_index_delete, .as_record_done,
              .as_record_destroy, .cf_arenax_free, .cf_mutex_unlock]
      ∧ (∀ e ∈ o.trace, e.isStorageAccess = false ∧ e.isApplierCall = false) := by
  have key : ∃ o, as_record_replace_if_better env ns none rr = some o
      ∧ o.result = AS_OK ∧ o.tree = none
      ∧ o.trace = [.as_index_get_insert_vlock 1, .incr_n_objects]
          ++ (if rr.via = .VIA_REPLICATION then
                [.as_partition_check_source AS_OK,
                 .repl_write_init_repl_state env.as_partition_check_source.2]
              else [])
          ++ (if rr.set_name.isSome then
                [.as_index_set_set_w_len env.as_index_set_set_w_len.1]
              else [])
          ++ [.as_truncate_record_is_truncated true, .as_index_delete, .as_record_done,
              .as_record_destroy, .cf_arenax_free, .cf_mutex_unlock] := by
    by_cases hvia : rr.via = .VIA_REPLICATION
    · have hs := hsrc hvia
      cases hn : rr.set_name with
      | none =>
        simp only [hn, Option.isSome_none, Bool.false_eq_true, if_false] at htrunc
        simp [as_record_replace_if_better, replace_apply, as_record_get_create,
          as_index_get_insert_vlock, hspace, hvia, hs, hn, htrunc, record_replace_failed,
          as_record_done, as_index_delete, World.log, World.outcome, World.tree,
          as_index_is_valid_record, as_index_new] at htrunc ⊢
      | some name =>
        have hset' := hset (by simp [hn])
        simp only [hn, Option.isSome_some, if_true] at htrunc
        simp [as_record_replace_if_better, replace_apply, as_record_get_create,
          as_index_get_insert_vlock, hspace, hvia, hs, hn, hset', record_replace_failed,
          as_record_done, as_index_delete, World.log, World.outcome, World.tree,
          as_index_is_valid_record, as_index_new] at htrunc ⊢
        simp [htrunc]
    · cases hn : rr.set_name with
      | none =>
        simp only [hn, Option.isSome_none, Bool.false_eq_true, if_false] at htrunc
        simp [as_record_replace_if_better, replace_apply, as_record_get_create,
          as_index_get_insert_vlock, hspace, hvia, hn, htrunc, record_replace_failed,
          as_record_done, as_index_delete, World.log, World.outcome, World.tree,
          as_index_is_valid_record, as_index_new] at htrunc ⊢
      | some name =>
        have hset' := hset (by simp [hn])
        simp only [hn, Option.isSome_some, if_true] at htrunc
        simp [as_record_replace_if_better, replace_apply, as_record_get_create,
          as_index_get_insert_vlock, hspace, hvia, hn, hset', record_replace_failed,
          as_record_done, as_index_delete, World.log, World.outcome, World.tree,
          as_index_is_valid_record, as_index_new] at htrunc ⊢
        simp [htrunc]
  obtain ⟨o, ho, hr, ht, htr⟩ := key
  refine ⟨o, ho, hr, ht, htr, ?_⟩
  rw [htr]
  intro e he
  simp only [List.mem_append, List.mem_cons, List.mem_singleton, List.not_mem_nil,
    or_false] at he
  rcases he with ((he | he) | he) | he
  · rcases he with he | he <;> subst he <;> exact ⟨rfl, rfl⟩
  · split_ifs at he
    · simp only [List.mem_cons, List.mem_singleton, List.not_mem_nil, or_false] at he
      rcases he with he | he <;> subst he <;> exact ⟨rfl, rfl⟩
    · cases he
  · split_ifs at he
    · simp only [List.mem_singleton] at he
      subst he; exact ⟨rfl, rfl⟩
    · cases he
  · rcases he with he | he | he | he | he | he <;> subst he <;> exact ⟨rfl, rfl⟩

/-- Witness for C11: a migration-origin record arrives for a digest without an
entry while every record is reported truncated. -/
theorem truncation_noop_witness :
    ∃ o, as_record_replace_if_better Env.truncating (sample_ns .GENERATION true false) none
        (sample_remote .VIA_MIGRATION 1 100) = some o
      ∧ o.result = AS_OK ∧ o.tree = none
      ∧ o.trace = [.as_index_get_insert_vlock 1, .incr_n_objects]
          ++ (if (sample_remote .VIA_MIGRATION 1 100).via = .VIA_REPLICATION then
                [.as_partition_check_source AS_OK,
                 .repl_write_init_repl_state Env.truncating.as_partition_check_source.2]
              else [])
          ++ (if (sample_remote .VIA_MIGRATION 1 100).set_name.isSome then
                [.as_index_set_set_w_len Env.truncating.as_index_set_set_w_len.1]
              else [])
          ++ [.as_truncate_record_is_truncated true, .as_index_delete, .as_record_done,
              .as_record_destroy, .cf_arenax_free, .cf_mutex_unlock]
      ∧ (∀ e ∈ o.trace, e.isStorageAccess = false ∧ e.isApplierCall = false) :=
  truncation_noop Env.truncating (sample_ns .GENERATION true false)
    (sample_remote .VIA_MIGRATION 1 100) rfl (by intro h; cases h) (by intro h; cases h) rfl

/-- C12. Admission check.  For a replication-origin remote record whose
partition source check does not return `AS_OK`, `as_record_replace_if_better`
passes the check's code on, which is `AS_ERR_FORBIDDEN`; a pre-existing (linked)
entry is left in the index untouched, an entry created by this call is deleted;
the call log holds the lookup, the source check and the release only, so neither
the conflict resolver nor an applier is called.  For other origins no return
logs a source check. -/
theorem source_check_admission (env : Env) (ns : as_namespace) (rr : as_remote_record) :
    (rr.via = .VIA_REPLICATION → env.as_partition_check_source.1 ≠ AS_OK →
        check_source_spec env →
        (∀ r, as_index_is_valid_record r = true →
          ∃ o, as_record_replace_if_better env ns (some r) rr = some o
            ∧ o.result = AS_ERR_FORBIDDEN
            ∧ o.result = env.as_partition_check_source.1
            ∧ o.tree = some r
            ∧ o.trace = [.as_index_get_insert_vlock 0,
                .as_partition_check_source env.as_partition_check_source.1,
                .as_record_done, .cf_mutex_unlock]
            ∧ (∀ e ∈ o.trace, e.isResolve = false ∧ e.isApplierCall = false
                ∧ e ≠ .as_index_delete))
        ∧ (env.arena_has_space = true →
          ∃ o, as_record_replace_if_better env ns none rr = some o
            ∧ o.result = AS_ERR_FORBIDDEN
            ∧ o.result = env.as_partition_check_source.1
            ∧ o.tree = none
            ∧ o.trace = [.as_index_get_insert_vlock 1, .incr_n_objects,
                .as_partition_check_source env.as_partition_check_source.1,
                .as_index_delete, .as_record_done, .as_record_destroy, .cf_arenax_free,
                .cf_mutex_unlock]
            ∧ (∀ e ∈ o.trace, e.isResolve = false ∧ e.isApplierCall = false)))
      ∧ (rr.via ≠ .VIA_REPLICATION →
          ∀ tree o, as_record_replace_if_better env ns tree rr = some o →
            ∀ e ∈ o.trace, e.isCheckSource = false) := by
  constructor
  · intro hvia hfail hspec
    have hforb : env.as_partition_check_source.1 = AS_ERR_FORBIDDEN := by
      rcases hspec with h | h
      · exact absurd h hfail
      · exact h
    constructor
    · intro r hv
      refine ⟨Outcome.mk env.as_partition_check_source.1 (some r)
        [.as_index_get_insert_vlock 0,
          .as_partition_check_source env.as_partition_check_source.1,
          .as_record_done, .cf_mutex_unlock], ?_, hforb, rfl, rfl, rfl, ?_⟩
      · simp [as_record_replace_if_better, as_record_get_create, as_index_get_insert_vlock,
          hvia, hfail, record_replace_failed, as_record_done, World.log, hv, World.outcome,
          World.tree]
      · simp [Event.isResolve, Event.isApplierCall]
    · intro hsp
      refine ⟨Outcome.mk env.as_partition_check_source.1 none
        [.as_index_get_insert_vlock 1, .incr_n_objects,
          .as_partition_check_source env.as_partition_check_source.1,
          .as_index_delete, .as_record_done, .as_record_destroy, .cf_arenax_free,
          .cf_mutex_unlock], ?_, hforb, rfl, rfl, rfl, ?_⟩
      · simp [as_record_replace_if_better, as_record_get_create, as_index_get_insert_vlock,
          hvia, hfail, hsp, record_replace_failed, as_record_done, as_index_delete, World.log,
          World.outcome, World.tree, as_index_is_valid_record, as_index_new]
      · simp [Event.isResolve, Event.isApplierCall]
  · intro hvia tree o h e he
    rcases replace_if_better_shape _ _ _ _ _ h with ⟨-, -, htr, -⟩ | ⟨-, hsh⟩
    · rw [htr] at he
      simp only [List.mem_singleton] at he
      subst he; rfl
    · by_contra hx
      have hx' : e.isCheckSource = true := by simpa using hx
      exact hvia ((release_shape_origin _ _ _ _ hsh e he).1 hx')

/-- Witness for C12: the source check fails with `AS_ERR_FORBIDDEN` for a
replication-origin record arriving for a linked generation-5 record. -/
theorem source_check_admission_witness :
    ∃ o, as_record_replace_if_better Env.bad_source (sample_ns .GENERATION true false)
        (some (sample_record 5 100)) (sample_remote .VIA_REPLICATION 6 200) = some o
      ∧ o.result = AS_ERR_FORBIDDEN
      ∧ o.result = Env.bad_source.as_partition_check_source.1
      ∧ o.tree = some (sample_record 5 100)
      ∧ o.trace = [.as_index_get_insert_vlock 0,
          .as_partition_check_source Env.bad_source.as_partition_check_source.1,
          .as_record_done, .cf_mutex_unlock]
      ∧ (∀ e ∈ o.trace, e.isResolve = false ∧ e.isApplierCall = false
          ∧ e ≠ .as_index_delete) :=
  ((source_check_admission Env.bad_source (sample_ns .GENERATION true false)
    (sample_remote .VIA_REPLICATION 6 200)).1 rfl (by decide) (Or.inr rfl)).1
    (sample_record 5 100) (by decide)

/-- An applier succeeds when the payload decodes, the write succeeds and the
record is not in a secondary index; it logs its own entry first and no other
applier entry. -/
theorem applier_run_ok (v : applier) (env : Env) (ns : as_namespace) (rr : as_remote_record)
    (rd : as_storage_rd) (w : World) (out : Int × World)
    (hout : v.run env ns rr rd w = out)
    (hin : w.r.in_sindex = 0)
    (hdec : (env.as_flat_unpack_remote_bins rr).1 = 0)
    (hwrite : ¬ env.as_storage_record_write < 0) :
    out.1 = 0 ∧
      ∃ evs, out.2.trace = w.trace ++ Event.record_apply v :: evs ∧
        ∀ e ∈ evs, e.isApply = false ∧ e.isApplierCall = true := by
  subst hout
  cases v
  · unfold applier.run record_apply_dim_single_bin
    simp only [World.log]
    split_ifs <;>
      simp_all [Event.isApplierCall, Event.isApply, AS_OK]
  · unfold applier.run record_apply_dim
    simp only [World.log]
    split_ifs <;>
      simp_all [Event.isApplierCall, Event.isApply, AS_OK]
  · unfold applier.run record_apply_ssd_single_bin
    simp only [World.log]
    split_ifs
    simp_all [Event.isApplierCall, Event.isApply, AS_OK]
  · unfold applier.run record_apply_ssd
    simp only [World.log]
    split_ifs <;>
      simp_all [Event.isApplierCall, Event.isApply, AS_OK]

/-- The apply-and-commit part commits when the applier's conditions hold: the
result is `AS_OK` and the only applier entered is the one the namespace
selects. -/
theorem replace_write_ok (env : Env) (ns : as_namespace) (rr : as_remote_record)
    (is_create : Bool) (w : World)
    (hv : as_index_is_valid_record w.r = true)
    (hin : w.r.in_sindex = 0)
    (hdec : (env.as_flat_unpack_remote_bins rr).1 = 0)
    (hwrite : ¬ env.as_storage_record_write < 0) :
    ∃ o evs, replace_write env ns rr is_create w = some o ∧ o.result = AS_OK
      ∧ o.trace = w.trace ++ evs
      ∧ Event.record_apply (applier.select ns) ∈ evs
      ∧ ∀ e ∈ evs, e.isResolve = false ∧
          (∀ v, e = .record_apply v → v = applier.select ns) := by
  unfold replace_write
  simp only [record_apply_eq_run]
  generalize hout : applier.run (applier.select ns) env ns _ _ _ = out
  obtain ⟨hres, aevs, htr, haev⟩ := applier_run_ok _ _ _ _ _ _ _ hout
    (by cases is_create <;> simpa [World.log] using hin) hdec hwrite
  obtain ⟨sevs, -, -, -, -, -, hok, -⟩ := applier_run_spec _ _ _ _ _ _ _ hout
  obtain ⟨-, -, -, -, -, htid, -⟩ := hok hres
  have hv2 : as_index_is_valid_record out.2.r = true := by
    have : out.2.r.tree_id = w.r.tree_id := by
      rw [htid]; cases is_create <;> simp [World.log]
    simpa [as_index_is_valid_record, this] using hv
  have hq : ∀ e ∈ aevs, e.isResolve = false ∧
      (∀ v, e = .record_apply v → v = applier.select ns) := by
    intro e he
    refine ⟨(isApplierCall_quiet e (haev e he).2).2.2.2.2, ?_⟩
    intro v hev
    have := (haev e he).1
    rw [hev] at this
    cases this
  have htr' : out.2.trace = w.trace ++ ((if is_create then Event.as_storage_record_create
      else Event.as_storage_record_open) :: Event.record_apply (applier.select ns) :: aevs) := by
    rw [htr]; cases is_create <;> simp [World.log]
  simp only [hres, ne_eq, not_true_eq_false, if_false]
  by_cases hvia : rr.via = .VIA_REPLICATION
  · simp only [hvia, if_true]
    rw [as_record_done_valid _ (by simpa [World.log] using hv2)]
    refine ⟨_, ((if is_create then Event.as_storage_record_create
        else Event.as_storage_record_open) :: Event.record_apply (applier.select ns) :: aevs)
        ++ [.record_replaced,
          .as_xdr_get_submit_info (as_xdr_get_submit_info out.2.r
            (if is_create then w.log Event.as_storage_record_create
              else w.log Event.as_storage_record_open).r.last_update_time),
          .as_storage_record_close, .as_record_done, .cf_mutex_unlock,
          .as_xdr_submit (as_xdr_get_submit_info out.2.r
            (if is_create then w.log Event.as_storage_record_create
              else w.log Event.as_storage_record_open).r.last_update_time)],
      rfl, rfl, ?_, by simp, ?_⟩
    · simp [World.outcome, World.log, htr']
    · intro e he
      simp only [List.mem_append, List.mem_cons, List.mem_singleton, List.not_mem_nil,
        or_false] at he
      rcases he with (he | he | he) | he
      · cases is_create <;> simp at he <;> subst he <;> simp [Event.isResolve]
      · subst he; simp [Event.isResolve]
      · exact hq e he
      · rcases he with he | he | he | he | he | he <;> subst he <;> simp [Event.isResolve]
  · simp only [hvia, if_false]
    rw [as_record_done_valid _ (by simpa [World.log] using hv2)]
    refine ⟨_, ((if is_create then Event.as_storage_record_create
        else Event.as_storage_record_open) :: Event.record_apply (applier.select ns) :: aevs)
        ++ [.record_replaced, .as_storage_record_close, .as_record_done, .cf_mutex_unlock],
      rfl, rfl, ?_, by simp, ?_⟩
    · simp [World.outcome, World.log, htr']
    · intro e he
      simp only [List.mem_append, List.mem_cons, List.mem_singleton, List.not_mem_nil,
        or_false] at he
      rcases he with (he | he | he) | he
      · cases is_create <;> simp at he <;> subst he <;> simp [Event.isResolve]
      · subst he; simp [Event.isResolve]
      · exact hq e he
      · rcases he with he | he | he | he <;> subst he <;> simp [Event.isResolve]

/-- The padding-fix part commits when the fix, where it applies, succeeds and the
applier's conditions hold. -/
theorem replace_fix_padded_ok (env : Env) (ns : as_namespace) (rr : as_remote_record)
    (is_create : Bool) (w : World)
    (hv : as_index_is_valid_record w.r = true)
    (hin : w.r.in_sindex = 0)
    (hfix : (rr.via ≠ .VIA_REPLICATION ∧ ns.storage_type = .AS_STORAGE_ENGINE_SSD ∧
      env.as_exchange_min_compatibility_id < 11) → env.as_flat_fix_padded_rr.isSome = true)
    (hdec : ∀ p, (env.as_flat_unpack_remote_bins { rr with pickle := p }).1 = 0)
    (hwrite : ¬ env.as_storage_record_write < 0) :
    ∃ o evs, replace_fix_padded env ns rr is_create w = some o ∧ o.result = AS_OK
      ∧ o.trace = w.trace ++ evs
      ∧ Event.record_apply (applier.select ns) ∈ evs
      ∧ ∀ e ∈ evs, e.isResolve = false ∧
          (∀ v, e = .record_apply v → v = applier.select ns) := by
  by_cases hf : rr.via ≠ .VIA_REPLICATION ∧ ns.storage_type = .AS_STORAGE_ENGINE_SSD ∧
      env.as_exchange_min_compatibility_id < 11
  · have hsome := hfix hf
    have hnone : ¬ env.as_flat_fix_padded_rr.isNone = true := by
      cases hx : env.as_flat_fix_padded_rr <;> simp_all
    obtain ⟨o, evs, ho, hr, ht, hm, hq⟩ := replace_write_ok env ns
      { rr with pickle := env.as_flat_fix_padded_rr.getD rr.pickle } is_create
      (w.log (.as_flat_fix_padded_rr env.as_flat_fix_padded_rr.isSome))
      hv hin (hdec _) hwrite
    refine ⟨o, Event.as_flat_fix_padded_rr env.as_flat_fix_padded_rr.isSome :: evs, ?_, hr,
      by simp [ht, World.log], List.mem_cons_of_mem _ hm, ?_⟩
    · simp only [replace_fix_padded, hf, hnone, and_self, and_false, if_true, if_false,
        not_false_eq_true, ne_eq]
      exact ho
    · intro e he
      rcases List.mem_cons.1 he with he | he
      · subst he; simp [Event.isResolve]
      · exact hq e he
  · have hd : (env.as_flat_unpack_remote_bins rr).1 = 0 := by
      have := hdec rr.pickle
      simpa using this
    obtain ⟨o, evs, ho, hr, ht, hm, hq⟩ := replace_write_ok env ns rr is_create w
      hv hin hd hwrite
    refine ⟨o, evs, ?_, hr, ht, hm, hq⟩
    simp only [replace_fix_padded, hf, false_and, if_false]
    exact ho

/-- For a created entry the part handling the remote record commits when the set
name is accepted, the record is not truncated, the padding fix succeeds where it
applies, and decode and write succeed. -/
theorem replace_apply_created_ok (env : Env) (ns : as_namespace) (rr : as_remote_record)
    (w : World)
    (hv : as_index_is_valid_record w.r = true)
    (hin : w.r.in_sindex = 0)
    (hset : rr.set_name.isSome = true → ¬ env.as_index_set_set_w_len.1 < 0)
    (htrunc : env.as_truncate_record_is_truncated
      { w.r with
        set_id := if rr.set_name.isSome then env.as_index_set_set_w_len.2 else w.r.set_id,
        last_update_time := rr.last_update_time } = false)
    (hfix : (rr.via ≠ .VIA_REPLICATION ∧ ns.storage_type = .AS_STORAGE_ENGINE_SSD ∧
      env.as_exchange_min_compatibility_id < 11) → env.as_flat_fix_padded_rr.isSome = true)
    (hdec : ∀ p, (env.as_flat_unpack_remote_bins { rr with pickle := p }).1 = 0)
    (hwrite : ¬ env.as_storage_record_write < 0) :
    ∃ o evs, replace_apply env ns rr true w = some o ∧ o.result = AS_OK
      ∧ o.trace = w.trace ++ evs
      ∧ Event.record_apply (applier.select ns) ∈ evs
      ∧ ∀ e ∈ evs, e.isResolve = false ∧
          (∀ v, e = .record_apply v → v = applier.select ns) := by
  cases hn : rr.set_name with
  | none =>
    simp only [hn, Option.isSome_none, Bool.false_eq_true, if_false] at htrunc
    obtain ⟨o, evs, ho, hr, ht, hm, hq⟩ := replace_fix_padded_ok env ns rr true
      ((⟨{ w.r with last_update_time := rr.last_update_time }, w.trace⟩ : World).log
        (.as_truncate_record_is_truncated false))
      (by simpa [as_index_is_valid_record, World.log] using hv)
      (by simpa [World.log] using hin) hfix hdec hwrite
    refine ⟨o, Event.as_truncate_record_is_truncated false :: evs, ?_, hr,
      by simp [ht, World.log], List.mem_cons_of_mem _ hm, ?_⟩
    · simp only [replace_apply, hn, Option.isSome_none, Bool.false_eq_true, and_false,
        false_and, if_false, if_true, true_and, htrunc]
      exact ho
    · intro e he
      rcases List.mem_cons.1 he with he | he
      · subst he; simp [Event.isResolve]
      · exact hq e he
  | some name =>
    have hset' := hset (by simp [hn])
    simp only [hn, Option.isSome_some, if_true] at htrunc
    obtain ⟨o, evs, ho, hr, ht, hm, hq⟩ := replace_fix_padded_ok env ns rr true
      ((⟨{ w.r with set_id := env.as_index_set_set_w_len.2,
                     last_update_time := rr.last_update_time },
          w.trace ++ [.as_index_set_set_w_len env.as_index_set_set_w_len.1]⟩ : World).log
        (.as_truncate_record_is_truncated false))
      (by simpa [as_index_is_valid_record, World.log] using hv)
      (by simpa [World.log] using hin) hfix hdec hwrite
    refine ⟨o, Event.as_index_set_set_w_len env.as_index_set_set_w_len.1 ::
      Event.as_truncate_record_is_truncated false :: evs, ?_, hr,
      by simp [ht, World.log], by simp [hm], ?_⟩
    · simp only [replace_apply, hn, Option.isSome_some, and_self, and_true, true_and,
        if_true, hset', if_false, World.log, htrunc, Bool.false_eq_true]
      exact ho
    · intro e he
      simp only [List.mem_cons] at he
      rcases he with he | he | he
      · subst he; simp [Event.isResolve]
      · subst he; simp [Event.isResolve]
      · exact hq e he

/-- The part handling a winning remote record never looks at the conflict
resolution policy, the consistency-mode comparison or the replace-state check. -/
theorem replace_apply_independent (env : Env) (ns : as_namespace) (rr : as_remote_record)
    (f : as_record → Int) (cp : Nat → Nat → Nat → Nat → Int)
    (pol pol' : conflict_resolution_pol) (is_create : Bool) (w : World) :
    replace_apply
        { env with record_replace_check := f, record_resolve_conflict_cp := cp,
                   repl_write_conflict_resolution_policy := pol }
        { ns with conflict_resolution_policy := pol' } rr is_create w
      = replace_apply env ns rr is_create w := by
  rfl

/-- For a digest without an entry the orchestrator never looks at the conflict
resolution policy, the consistency-mode comparison or the replace-state check. -/
theorem creation_path_independent (env : Env) (ns : as_namespace) (rr : as_remote_record)
    (f : as_record → Int) (cp : Nat → Nat → Nat → Nat → Int)
    (pol pol' : conflict_resolution_pol) :
    as_record_replace_if_better
        { env with record_replace_check := f, record_resolve_conflict_cp := cp,
                   repl_write_conflict_resolution_policy := pol }
        { ns with conflict_resolution_policy := pol' } none rr
      = as_record_replace_if_better env ns none rr := by
  simp only [as_record_replace_if_better, replace_apply_independent, as_record_get_create,
    as_index_get_insert_vlock]
  cases hsp : env.arena_has_space <;> simp

/-- C13, counterexample.  No local record exists, the remote record of
replication origin has no set name, the record is not truncated and decode and
write would succeed, but the partition source check fails: the call returns the
check's code, not `AS_OK`, enters no applier and leaves no entry.  With a
migration-origin record on an SSD namespace whose padding fix fails, the call
returns `AS_OK` and still enters no applier. -/
theorem creation_path_counterexample :
    (sample_remote .VIA_REPLICATION 1 100).set_name = none
      ∧ Env.bad_source.as_truncate_record_is_truncated
          { as_index_new with last_update_time := 100 } = false
      ∧ (Env.bad_source.as_flat_unpack_remote_bins (sample_remote .VIA_REPLICATION 1 100)).1 = 0
      ∧ ¬ Env.bad_source.as_storage_record_write < 0
      ∧ (∃ o, as_record_replace_if_better Env.bad_source (sample_ns .GENERATION true false) none
            (sample_remote .VIA_REPLICATION 1 100) = some o
          ∧ o.result ≠ AS_OK ∧ o.tree = none ∧ ∀ e ∈ o.trace, e.isApply = false)
      ∧ (∃ o, as_record_replace_if_better Env.bad_padding (sample_ns .GENERATION false false)
            none (sample_remote .VIA_MIGRATION 1 100) = some o
          ∧ o.result = AS_OK ∧ o.tree = none ∧ ∀ e ∈ o.trace, e.isApply = false) := by
  refine ⟨rfl, rfl, rfl, by decide, ?_, ?_⟩
  · exact ⟨Outcome.mk AS_ERR_FORBIDDEN none
      [.as_index_get_insert_vlock 1, .incr_n_objects,
        .as_partition_check_source AS_ERR_FORBIDDEN, .as_index_delete, .as_record_done,
        .as_record_destroy, .cf_arenax_free, .cf_mutex_unlock],
      by decide, by decide, rfl, by decide⟩
  · exact ⟨Outcome.mk AS_OK none
      [.as_index_get_insert_vlock 1, .incr_n_objects,
        .as_truncate_record_is_truncated false, .as_flat_fix_padded_rr false,
        .as_index_delete, .as_record_done, .as_record_destroy, .cf_arenax_free,
        .cf_mutex_unlock],
      by decide, rfl, rfl, by decide⟩

/-- C13, amended.  Creation path: no local record exists and the index creates
an entry.  `as_record_replace_if_better` then consults neither the conflict
resolver nor the replace-state check (its outcome does not depend on them, and
no resolver call is logged), so for every remote generation and LUT, provided
the source check of a replication-origin record passes, the set name is
accepted, the record is not truncated, the padding fix where it applies
succeeds, and decode and write succeed, the remote record is applied through
the applier matching the namespace's placement and schema, the entry carries
the remote generation, LUT and void-time, and the call returns `AS_OK`. -/
theorem creation_path_applies (env : Env) (ns : as_namespace) (rr : as_remote_record)
    (hspace : env.arena_has_space = true)
    (hsrc : rr.via = .VIA_REPLICATION → env.as_partition_check_source.1 = AS_OK)
    (hset : rr.set_name.isSome = true → ¬ env.as_index_set_set_w_len.1 < 0)
    (htrunc : env.as_truncate_record_is_truncated
      { as_index_new with
        set_id := if rr.set_name.isSome then env.as_index_set_set_w_len.2 else 0,
        last_update_time := rr.last_update_time } = false)
    (hfix : (rr.via ≠ .VIA_REPLICATION ∧ ns.storage_type = .AS_STORAGE_ENGINE_SSD ∧
      env.as_exchange_min_compatibility_id < 11) → env.as_flat_fix_padded_rr.isSome = true)
    (hdec : ∀ p, (env.as_flat_unpack_remote_bins { rr with pickle := p }).1 = 0)
    (hwrite : ¬ env.as_storage_record_write < 0) :
    (∃ o, as_record_replace_if_better env ns none rr = some o
      ∧ o.result = AS_OK
      ∧ (∃ r1, o.tree = some r1 ∧ r1.generation = u16 rr.generation
          ∧ r1.last_update_time = rr.last_update_time ∧ r1.void_time = rr.void_time)
      ∧ Event.record_apply (applier.select ns) ∈ o.trace
      ∧ (∀ e ∈ o.trace, e.isResolve = false ∧
          (∀ v, e = .record_apply v → v = applier.select ns)))
    ∧ (∀ (f : as_record → Int) (cp : Nat → Nat → Nat → Nat → Int)
        (pol pol' : conflict_resolution_pol),
        as_record_replace_if_better
            { env with record_replace_check := f, record_resolve_conflict_cp := cp,
                       repl_write_conflict_resolution_policy := pol }
            { ns with conflict_resolution_policy := pol' } none rr
          = as_record_replace_if_better env ns none rr) := by
  refine ⟨?_, fun f cp pol pol' => creation_path_independent env ns rr f cp pol pol'⟩
  have key : ∃ o, as_record_replace_if_better env ns none rr = some o
      ∧ o.result = AS_OK
      ∧ Event.record_apply (applier.select ns) ∈ o.trace
      ∧ (∀ e ∈ o.trace, e.isResolve = false ∧
          (∀ v, e = .record_apply v → v = applier.select ns)) := by
    by_cases hvia : rr.via = .VIA_REPLICATION
    · have hs := hsrc hvia
      obtain ⟨o, evs, ho, hr, ht, hm, hq⟩ := replace_apply_created_ok env ns rr
        ⟨as_index_new, [.as_index_get_insert_vlock 1, .incr_n_objects,
          .as_partition_check_source AS_OK,
          .repl_write_init_repl_state env.as_partition_check_source.2]⟩
        rfl rfl hset htrunc hfix hdec hwrite
      refine ⟨o, ?_, hr, by rw [ht]; exact List.mem_append_right _ hm, ?_⟩
      · simpa [as_record_replace_if_better, as_record_get_create, as_index_get_insert_vlock,
          hspace, hvia, hs, World.log] using ho
      · intro e he
        rw [ht] at he
        rcases List.mem_append.1 he with he | he
        · simp only [List.mem_cons, List.mem_singleton, List.not_mem_nil, or_false] at he
          rcases he with he | he | he | he <;> subst he <;> simp [Event.isResolve]
        · exact hq e he
    · obtain ⟨o, evs, ho, hr, ht, hm, hq⟩ := replace_apply_created_ok env ns rr
        ⟨as_index_new, [.as_index_get_insert_vlock 1, .incr_n_objects]⟩
        rfl rfl hset htrunc hfix hdec hwrite
      refine ⟨o, ?_, hr, by rw [ht]; exact List.mem_append_right _ hm, ?_⟩
      · simpa [as_record_replace_if_better, as_record_get_create, as_index_get_insert_vlock,
          hspace, hvia, World.log] using ho
      · intro e he
        rw [ht] at he
        rcases List.mem_append.1 he with he | he
        · simp only [List.mem_cons, List.mem_singleton, List.not_mem_nil, or_false] at he
          rcases he with he | he <;> subst he <;> simp [Event.isResolve]
        · exact hq e he
  obtain ⟨o, ho, hr, hm, hq⟩ := key
  obtain ⟨r1, ht, -, hg, hl, hvt⟩ := replace_applied_entry env ns none rr o
    (by intro r hr; cases hr) ho hr ⟨_, hm, rfl⟩
  exact ⟨o, ho, hr, ⟨r1, ht, hg, hl, hvt⟩, hm, hq⟩

/-- Witness for the amended C13, scenario B: no local record exists; the remote
record has generation 1 and two bins and is not truncated; the entry created
holds generation 1 and the call returns `AS_OK` through `record_apply_dim`. -/
theorem creation_path_applies_witness :
    ∃ o, as_record_replace_if_better Env.sample (sample_ns .GENERATION true false) none
        (sample_remote .VIA_MIGRATION 1 100) = some o
      ∧ o.result = AS_OK
      ∧ (∃ r1, o.tree = some r1 ∧ r1.generation = u16 1
          ∧ r1.last_update_time = 100 ∧ r1.void_time = 9)
      ∧ Event.record_apply (applier.select (sample_ns .GENERATION true false)) ∈ o.trace
      ∧ (∀ e ∈ o.trace, e.isResolve = false ∧
          (∀ v, e = .record_apply v → v = applier.select (sample_ns .GENERATION true false))) :=
  (creation_path_applies Env.sample (sample_ns .GENERATION true false)
    (sample_remote .VIA_MIGRATION 1 100) rfl (by intro h; cases h) (by intro h; cases h) rfl
    (by intro h; exact absurd h.2.2 (by decide)) (by intro p; rfl) (by decide)).1

end Record
